import Mathlib

/-!
# Zooshi game states: menu, gameplay, game over

A shallow embedding of `src/states/game_menu_state.cpp`,
`src/states/game_over_state.cpp` and `src/states/gameplay_state.cpp`.

Conventions of the embedding.

* A member function `void C::f(args)` becomes `C.f : inputs → args → C → C`;
  an in/out parameter such as `int *next_state` is passed in and returned.
* Values the code reads from collaborators that are not part of the three
  files (input system, entity manager, XP system, UI widgets, storage) are
  collected in an input record of the call.
* A `float` value is the rational number it holds, and every `float` operation
  that decides a stored value or a branch (`+`, `*`, `/`, the conversion of an
  `int`) is the exact operation followed by `float32`, the rounding of IEEE 754
  binary32 to nearest, ties to even; intermediate results are not kept in a
  wider format.  Infinities and NaN are not represented.
* An `int` value is an integer.  Where the sources convert to `int` or add
  `int`s, `score_defined` says whether every result fits 32 bits; where one
  does not, the behaviour of the source is undefined and the menu's
  `undefined_behaviour` is set.
* The gain expressions `cos(x * 0.5f * M_PI)` are kept symbolic
  (`Gain.cosHalfPi x`), so that the state machines stay executable;
  `Gain.toReal` gives the real number such an expression denotes.  The float
  evaluation of a gain expression, the subtraction `1.0f - percent` in its
  argument included, is not modelled.
* `world_->entity_manager.UpdateComponents`, `UpdateMainCamera`, `LoadWorldDef`
  and the render calls act on parts of the world that are not modelled.
-/

namespace Zooshi

/-! ## Shared vocabulary -/

/-- Modelled from the spec: the game state ids of `states/states.h`, which is
not among the sources. -/
inductive GameState where
  | kGameStateGameMenu
  | kGameStateGameplay
  | kGameStateGameOver
  | kGameStatePause
  | kGameStateIntro
  | kGameStateSceneLab
  | kGameStateExit
  deriving DecidableEq, Repr

/-- Modelled from the spec: the menu sub-states of `states/game_menu_state.h`,
which is not among the sources. -/
inductive MenuState where
  | kMenuStateStart
  | kMenuStateOptions
  | kMenuStateScoreReview
  | kMenuStateQuit
  | kMenuStateFinished
  | kMenuStateCardboard
  | kMenuStateGamepad
  | kMenuStateReceivedInvite
  deriving DecidableEq, Repr

/-- Modelled from the spec: the options pages of `states/game_menu_state.h`,
which is not among the sources. -/
inductive OptionsMenuState where
  | kOptionsMenuStateMain
  | kOptionsMenuStateAudio
  | kOptionsMenuStateVideo
  | kOptionsMenuStateRendering
  | kOptionsMenuStateControls
  | kOptionsMenuStateSushi
  | kOptionsMenuStateLevel
  | kOptionsMenuStateAbout
  | kOptionsMenuStateLicense
  | kOptionsMenuStateAccomplishments
  deriving DecidableEq, Repr

inductive RenderingMode where
  | kRenderingMonoscopic
  | kRenderingStereoscopic
  deriving DecidableEq, Repr

inductive RenderingOption where
  | kShadowEffect
  | kPhongShading
  | kSpecularEffect
  deriving DecidableEq, Repr

inductive Controller where
  | kControllerDefault
  | kControllerGamepad
  deriving DecidableEq, Repr

inductive PlayerState where
  | kPlayerState_Active
  | kPlayerState_Disabled
  | kPlayerState_NoProjectiles
  deriving DecidableEq, Repr

open GameState MenuState OptionsMenuState RenderingMode RenderingOption Controller PlayerState

/-- C++ `static_cast<int>` of a floating-point value: the fractional part is
dropped, toward zero. -/
def static_cast_int (q : ℚ) : Int :=
  if 0 ≤ q then ⌊q⌋ else ⌈q⌉

/-- Rounding of a rational to the nearest integer, a tie going to the even
one. -/
def roundHalfEven (q : ℚ) : Int :=
  if q - ⌊q⌋ < 1 / 2 then ⌊q⌋
  else if 1 / 2 < q - ⌊q⌋ then ⌊q⌋ + 1
  else if ⌊q⌋ % 2 = 0 then ⌊q⌋
  else ⌊q⌋ + 1

/-- The binary exponent of the `float` nearest to `q`: that of `q`, and -126
in the subnormal range. -/
def float32_exponent (q : ℚ) : Int :=
  max (Int.log 2 |q|) (-126)

/-- The value of the `float` (IEEE 754 binary32: 24 significant bits, round to
nearest, ties to even) that stores the number `q`.  Every `float` operation of
the sources is this rounding applied to the exact result.  Overflow to
infinity is not represented: the result is then at least `2 ^ 127` in
magnitude. -/
def float32 (q : ℚ) : ℚ :=
  (roundHalfEven (q / 2 ^ (float32_exponent q - 23)) : ℚ) * 2 ^ (float32_exponent q - 23)

/-- Whether an integer is a value of the 32-bit type `int`. -/
def fits_int (z : Int) : Bool :=
  decide (-2147483648 ≤ z ∧ z ≤ 2147483647)

/-- Whether `static_cast<int>` of a floating-point value is defined: the
truncated value must be a value of `int`. -/
def cast_defined (q : ℚ) : Bool :=
  fits_int (static_cast_int q)

/-- A gain handed to the audio engine: a plain value, or the source expression
`cos(x * 0.5f * static_cast<float>(M_PI))` kept as an expression in `x`.  In
the gain of the lap that fades in, `x` is the difference `1.0f - percent`, kept
exact as part of the expression. -/
inductive Gain where
  | value (g : ℚ)
  | cosHalfPi (x : ℚ)
  deriving DecidableEq

/-- The real number a gain stands for. -/
noncomputable def Gain.toReal : Gain → ℝ
  | Gain.value g => (g : ℝ)
  | Gain.cosHalfPi x => Real.cos ((x : ℝ) * (1 / 2) * Real.pi)

/-- The three switches of one rendering mode. -/
structure RenderingOptions where
  shadow : Bool
  phong : Bool
  specular : Bool
  deriving DecidableEq, Repr

def RenderingOptions.get (o : RenderingOptions) : RenderingOption → Bool
  | kShadowEffect => o.shadow
  | kPhongShading => o.phong
  | kSpecularEffect => o.specular

def RenderingOptions.set (o : RenderingOptions) (opt : RenderingOption) (b : Bool) :
    RenderingOptions :=
  match opt with
  | kShadowEffect => { o with shadow := b }
  | kPhongShading => { o with phong := b }
  | kSpecularEffect => { o with specular := b }

/-- The part of `World` the three states read and write. -/
structure World where
  rendering_mode : RenderingMode
  active_controller : Controller
  hmd_controller_enabled : Bool
  monoscopic_options : RenderingOptions
  stereoscopic_options : RenderingOptions
  player_state : PlayerState
  gameplay_start_time : ℚ
  deriving DecidableEq

def World.SetRenderingMode (w : World) (m : RenderingMode) : World :=
  { w with rendering_mode := m }

def World.SetActiveController (w : World) (c : Controller) : World :=
  { w with active_controller := c }

def World.SetHmdControllerEnabled (w : World) (b : Bool) : World :=
  { w with hmd_controller_enabled := b }

def World.RenderingOptionEnabled (w : World) (m : RenderingMode) (opt : RenderingOption) : Bool :=
  match m with
  | kRenderingMonoscopic => w.monoscopic_options.get opt
  | kRenderingStereoscopic => w.stereoscopic_options.get opt

def World.SetRenderingOption (w : World) (m : RenderingMode) (opt : RenderingOption)
    (b : Bool) : World :=
  match m with
  | kRenderingMonoscopic => { w with monoscopic_options := w.monoscopic_options.set opt b }
  | kRenderingStereoscopic => { w with stereoscopic_options := w.stereoscopic_options.set opt b }

/-! ## Audio channels -/

inductive ChannelState where
  | kChannelStateStopped
  | kChannelStatePlaying
  | kChannelStatePaused
  deriving DecidableEq, Repr

open ChannelState

/-- A `pindrop::Channel`: the playback it belongs to (the index of the
`PlaySound` call that created it, `none` for a channel never played), the
sound, the playback state and the gain. -/
structure Channel where
  playback : Option Nat
  sound : String
  state : ChannelState
  gain : Gain
  deriving DecidableEq

def Channel.SetGain (c : Channel) (g : Gain) : Channel := { c with gain := g }

def Channel.Pause (c : Channel) : Channel := { c with state := kChannelStatePaused }

def Channel.Resume (c : Channel) : Channel := { c with state := kChannelStatePlaying }

def Channel.Stop (c : Channel) : Channel := { c with state := kChannelStateStopped }

/-- The audio engine: the log of `PlaySound` calls, oldest first. -/
structure AudioEngine where
  played : List (String × Gain)
  deriving DecidableEq

/-- Source `AudioEngine::PlaySound(handle, location, gain)`: a new playback. -/
def AudioEngine.PlaySound (a : AudioEngine) (sound : String) (gain : Gain) :
    AudioEngine × Channel :=
  ({ played := a.played ++ [(sound, gain)] },
   { playback := some a.played.length, sound := sound, state := kChannelStatePlaying,
     gain := gain })

/-! ## The menu state (`game_menu_state.cpp`) -/

/-- The full-screen fader, `full_screen_fader.h`, of which the menu uses
`AdvanceFrame`, `GetOffset` and `Finished`; its implementation is a parameter. -/
structure FaderModel where
  State : Type
  AdvanceFrame : Int → State → State
  GetOffset : State → ℚ
  Finished : State → Bool

/-- Compile-time switches and constants of `game_menu_state.h`,
`save_data_generated.h` and the build, none of which is among the sources. -/
structure MenuConfig where
  FPLBASE_ANDROID_VR : Bool
  kEffectVolumeDefault : ℚ
  kMusicVolumeDefault : ℚ
  kScorePatronsFedFactor : ℚ
  kScoreLapsFinishedFactor : ℚ
  kScoreAccuracyFactor : ℚ
  gyroscopic_controls_default : Int

/-- The record of the save file (`save_data_generated.h`). -/
structure SaveData where
  effect_volume : ℚ
  music_volume : ℚ
  render_shadows : Bool
  apply_phong : Bool
  apply_specular : Bool
  render_shadows_cardboard : Bool
  apply_phong_cardboard : Bool
  apply_specular_cardboard : Bool
  gyroscopic_controls_enabled : Int
  deriving DecidableEq

/-- What the platform answers when the preferences are touched:
`fplbase::GetStoragePath` succeeding, and `fplbase::SavePreferences` writing. -/
structure Storage where
  storage_path_ok : Bool
  write_ok : Bool
  deriving DecidableEq

/-- The members of `GameMenuState` together with the collaborators it drives.
`preferences` is the content of the save file, `none` when there is none.
`undefined_behaviour` is no member: it is set once a conversion to `int` or an
`int` addition of `OnEnter` had a result outside `int`, from where on the
source's behaviour is undefined and the other fields mean nothing. -/
structure GameMenuState (fm : FaderModel) where
  menu_state : MenuState
  options_menu_state : OptionsMenuState
  slider_value_effect : ℚ
  slider_value_music : ℚ
  patrons_fed : Int
  sushi_thrown : Int
  laps_finished : Int
  total_score : Int
  earned_xp : Int
  did_earn_unlockable : Bool
  earned_unlockable : Nat
  loading_complete : Bool
  world : World
  fader : fm.State
  master_bus_gain : Gain
  audio_engine : AudioEngine
  music_channel : Channel
  relative_mouse_mode : Bool
  preferences : Option SaveData
  undefined_behaviour : Bool

variable {fm : FaderModel}

/-- Source `GameMenuState::ResetScore`. -/
def GameMenuState.ResetScore (s : GameMenuState fm) : GameMenuState fm :=
  { s with
    patrons_fed := 0
    sushi_thrown := 0
    laps_finished := 0
    total_score := 0
    earned_xp := 0
    did_earn_unlockable := false }

/-- Source `GameMenuState::SaveData`: build the record, then write it when the storage
path resolves.  A write that fails leaves the file as it was. -/
def GameMenuState.SaveData (cfg : MenuConfig) (st : Storage) (s : GameMenuState fm) :
    GameMenuState fm :=
  let builder : Zooshi.SaveData :=
    { effect_volume := s.slider_value_effect
      music_volume := s.slider_value_music
      render_shadows := s.world.RenderingOptionEnabled kRenderingMonoscopic kShadowEffect
      apply_phong := s.world.RenderingOptionEnabled kRenderingMonoscopic kPhongShading
      apply_specular := s.world.RenderingOptionEnabled kRenderingMonoscopic kSpecularEffect
      render_shadows_cardboard :=
        s.world.RenderingOptionEnabled kRenderingStereoscopic kShadowEffect
      apply_phong_cardboard :=
        s.world.RenderingOptionEnabled kRenderingStereoscopic kPhongShading
      apply_specular_cardboard :=
        s.world.RenderingOptionEnabled kRenderingStereoscopic kSpecularEffect
      gyroscopic_controls_enabled :=
        if cfg.FPLBASE_ANDROID_VR then (if s.world.hmd_controller_enabled then 1 else 0)
        else cfg.gyroscopic_controls_default }
  if st.storage_path_ok then
    if st.write_ok then { s with preferences := some builder } else s
  else s

/-- Source `GameMenuState::LoadData`. -/
def GameMenuState.LoadData (cfg : MenuConfig) (st : Storage) (s : GameMenuState fm) :
    GameMenuState fm :=
  let s := { s with
    slider_value_effect := cfg.kEffectVolumeDefault
    slider_value_music := cfg.kMusicVolumeDefault }
  if st.storage_path_ok then
    match s.preferences with
    | some save_data =>
      let s := { s with
        slider_value_effect := save_data.effect_volume
        slider_value_music := save_data.music_volume }
      let w := s.world
      let w := w.SetRenderingOption kRenderingMonoscopic kShadowEffect save_data.render_shadows
      let w := w.SetRenderingOption kRenderingMonoscopic kPhongShading save_data.apply_phong
      let w := w.SetRenderingOption kRenderingMonoscopic kSpecularEffect save_data.apply_specular
      let w := w.SetRenderingOption kRenderingStereoscopic kShadowEffect
        save_data.render_shadows_cardboard
      let w := w.SetRenderingOption kRenderingStereoscopic kPhongShading
        save_data.apply_phong_cardboard
      let w := w.SetRenderingOption kRenderingStereoscopic kSpecularEffect
        save_data.apply_specular_cardboard
      let w := if cfg.FPLBASE_ANDROID_VR then
          w.SetHmdControllerEnabled (save_data.gyroscopic_controls_enabled != 0)
        else w
      { s with world := w }
    | none => s
  else s

/-- What the input system and the platform report during one menu frame. -/
structure MenuFrameInput where
  escape_went_down : Bool
  ac_back_went_down : Bool
  storage : Storage
  deriving DecidableEq

/-- Source `GameMenuState::AdvanceFrame`, lines 142 to 163: the back button. -/
def GameMenuState.AdvanceFrame_back_button (cfg : MenuConfig) (inp : MenuFrameInput)
    (s : GameMenuState fm) : GameMenuState fm :=
  let back_button := inp.escape_went_down || inp.ac_back_went_down
  if back_button then
    if s.menu_state = kMenuStateOptions then
      -- Save data when you leave the audio page.
      let s :=
        if s.options_menu_state = kOptionsMenuStateAudio then
          GameMenuState.SaveData cfg inp.storage s
        else s
      if s.options_menu_state = kOptionsMenuStateMain ∨
          s.options_menu_state = kOptionsMenuStateSushi ∨
          s.options_menu_state = kOptionsMenuStateLevel then
        { s with menu_state := kMenuStateStart }
      else
        { s with options_menu_state := kOptionsMenuStateMain }
    else if s.menu_state = kMenuStateStart then
      { s with menu_state := kMenuStateQuit }
    else if s.menu_state = kMenuStateScoreReview then
      { s with menu_state := kMenuStateStart }
    else s
  else s

/-- Source `GameMenuState::AdvanceFrame`, lines 165 to 188: the sub-state decides the
rendering mode, the controller and `*next_state`. -/
def GameMenuState.AdvanceFrame_menu_state (delta_time : Int) (s : GameMenuState fm)
    (next_state : GameState) : GameMenuState fm × GameState :=
  if s.menu_state = kMenuStateStart then
    ({ s with world := s.world.SetRenderingMode kRenderingMonoscopic }, next_state)
  else if s.menu_state = kMenuStateFinished then
    ({ s with world :=
        (s.world.SetRenderingMode kRenderingMonoscopic).SetActiveController kControllerDefault },
      kGameStateGameplay)
  else if s.menu_state = kMenuStateCardboard then
    ({ s with world :=
        ((s.world.SetHmdControllerEnabled true).SetRenderingMode
          kRenderingStereoscopic).SetActiveController kControllerDefault },
      kGameStateIntro)
  else if s.menu_state = kMenuStateGamepad then
    ({ s with world :=
        (s.world.SetRenderingMode kRenderingMonoscopic).SetActiveController kControllerGamepad },
      kGameStateGameplay)
  else if s.menu_state = kMenuStateQuit then
    let fader := fm.AdvanceFrame delta_time s.fader
    -- Perform a roughly inverse logarithmic fade out.
    let s := { s with fader := fader, master_bus_gain := Gain.cosHalfPi (fm.GetOffset fader) }
    if fm.Finished fader then (s, kGameStateExit) else (s, next_state)
  else (s, next_state)

/-- Source `GameMenuState::AdvanceFrame`: the back button, then the sub-state. -/
def GameMenuState.AdvanceFrame (cfg : MenuConfig) (inp : MenuFrameInput) (delta_time : Int)
    (s : GameMenuState fm) (next_state : GameState) : GameMenuState fm × GameState :=
  GameMenuState.AdvanceFrame_menu_state delta_time
    (GameMenuState.AdvanceFrame_back_button cfg inp s) next_state

/-- The widgets of the menu pages (`gui.cpp`, not among the sources): each
draws its page, may change members of the menu, and returns the next
sub-state. -/
structure MenuUI (fm : FaderModel) where
  StartMenu : GameMenuState fm → MenuState × GameMenuState fm
  OptionMenu : GameMenuState fm → MenuState × GameMenuState fm
  ScoreReviewMenu : GameMenuState fm → MenuState × GameMenuState fm

/-- Source `GameMenuState::HandleUI`.  `loading_complete_` is the value `Render` left. -/
def GameMenuState.HandleUI (ui : MenuUI fm) (s : GameMenuState fm) : GameMenuState fm :=
  -- Don't show game menu until everything has finished loading.
  if !s.loading_complete then s
  else
    match s.menu_state with
    | kMenuStateStart =>
      let r := ui.StartMenu s
      { r.2 with menu_state := r.1 }
    | kMenuStateOptions =>
      let r := ui.OptionMenu s
      { r.2 with menu_state := r.1 }
    | kMenuStateScoreReview =>
      let r := ui.ScoreReviewMenu s
      let s := { r.2 with menu_state := r.1 }
      -- If leaving the score review page, clear the cached scores.
      if s.menu_state ≠ kMenuStateScoreReview then s.ResetScore else s
    | _ => s

/-- What `GameMenuState::OnEnter` reads from the world: the player's
attributes, the raft's lap number, and the answers of the XP system and the
unlockables. -/
structure MenuEnterInput where
  patrons_fed_attribute : ℚ
  projectiles_fired_attribute : ℚ
  lap_number : Int
  ApplyBonuses : Int → Bool → Int
  GrantXP : Int → Bool
  UnlockRandom : Bool × Nat
  storage : Storage

/-- Whether the score computation of `GameMenuState::OnEnter` stays inside
`int`: the two conversions of the attributes, the three conversions of the
score terms, and the two additions. -/
def score_defined (cfg : MenuConfig) (inp : MenuEnterInput) : Bool :=
  let patrons_fed := static_cast_int inp.patrons_fed_attribute
  let sushi_thrown := static_cast_int inp.projectiles_fired_attribute
  let laps_finished := inp.lap_number
  let accuracy : ℚ :=
    if sushi_thrown ≠ 0 then
      float32 (float32 (patrons_fed : ℚ) / float32 (sushi_thrown : ℚ))
    else 0
  let term_patrons_fed := float32 (cfg.kScorePatronsFedFactor * float32 (patrons_fed : ℚ))
  let term_laps_finished :=
    float32 (cfg.kScoreLapsFinishedFactor * float32 (laps_finished : ℚ))
  let term_accuracy := float32 (cfg.kScoreAccuracyFactor * accuracy)
  cast_defined inp.patrons_fed_attribute &&
  cast_defined inp.projectiles_fired_attribute &&
  fits_int laps_finished &&
  cast_defined term_patrons_fed &&
  cast_defined term_laps_finished &&
  cast_defined term_accuracy &&
  fits_int (static_cast_int term_patrons_fed + static_cast_int term_laps_finished) &&
  fits_int (static_cast_int term_patrons_fed + static_cast_int term_laps_finished +
    static_cast_int term_accuracy)

/-- Source `GameMenuState::OnEnter`.  The quotient and the three products are
`float` operations, the operands `patrons_fed_`, `sushi_thrown_` and
`laps_finished_` being converted from `int` to `float` first. -/
def GameMenuState.OnEnter (cfg : MenuConfig) (inp : MenuEnterInput)
    (previous_state : GameState) (s : GameMenuState fm) : GameMenuState fm :=
  let s :=
    if previous_state = kGameStateGameOver then
      let patrons_fed := static_cast_int inp.patrons_fed_attribute
      let sushi_thrown := static_cast_int inp.projectiles_fired_attribute
      let laps_finished := inp.lap_number
      let accuracy : ℚ :=
        if sushi_thrown ≠ 0 then
          float32 (float32 (patrons_fed : ℚ) / float32 (sushi_thrown : ℚ))
        else 0
      let total_score :=
        static_cast_int (float32 (cfg.kScorePatronsFedFactor * float32 (patrons_fed : ℚ))) +
        static_cast_int
          (float32 (cfg.kScoreLapsFinishedFactor * float32 (laps_finished : ℚ))) +
        static_cast_int (float32 (cfg.kScoreAccuracyFactor * accuracy))
      -- Calculate the earned xp based on the total score.
      let earned_xp := inp.ApplyBonuses total_score true
      let s := { s with
        menu_state := kMenuStateScoreReview
        patrons_fed := patrons_fed
        sushi_thrown := sushi_thrown
        laps_finished := laps_finished
        total_score := total_score
        earned_xp := earned_xp
        undefined_behaviour := s.undefined_behaviour || !score_defined cfg inp }
      if inp.GrantXP earned_xp then
        { s with did_earn_unlockable := inp.UnlockRandom.1, earned_unlockable := inp.UnlockRandom.2 }
      else
        { s with did_earn_unlockable := false }
    else
      let s := { s with menu_state := kMenuStateStart }
      if cfg.FPLBASE_ANDROID_VR && decide (s.world.rendering_mode = kRenderingStereoscopic) then
        { s with menu_state := kMenuStateCardboard }
      else s
  let s := { s with loading_complete := false }
  let played := s.audio_engine.PlaySound "music_menu" (Gain.value 1)
  let s := { s with
    audio_engine := played.1
    music_channel := played.2
    world := { s.world with player_state := kPlayerState_Disabled }
    relative_mouse_mode := false }
  GameMenuState.LoadData cfg inp.storage s

/-! ## The game-over state (`game_over_state.cpp`) -/

/-- The minimum dwell, `static_cast<corgi::WorldTime>(8000.0f)`, in milliseconds. -/
def kMinTimeInEndState : Int := static_cast_int 8000

/-- What `GameOverState::AdvanceFrame` reads after the world has been updated:
the patron component's event time, the input edges, and the two queries on the
player's fire-projectile button. -/
structure GameOverFrameInput where
  event_time : Int
  pointer_button_went_down : Bool
  escape_went_down : Bool
  ac_back_went_down : Bool
  fire_projectile_value : Bool
  fire_projectile_has_changed : Bool
  deriving DecidableEq

/-- The members of `GameOverState` that its frame step reads and writes. -/
structure GameOverState where
  world : World
  audio_engine : AudioEngine
  deriving DecidableEq

/-- Source `GameOverState::AdvanceFrame`. -/
def GameOverState.AdvanceFrame (inp : GameOverFrameInput) (s : GameOverState)
    (next_state : GameState) : GameOverState × GameState :=
  -- Return to the title screen after any key is hit.
  let event_over := decide (inp.event_time > kMinTimeInEndState)
  let pointer_button_pressed := inp.pointer_button_went_down
  let exit_button_pressed := inp.escape_went_down || inp.ac_back_went_down
  let fire_button_pressed := inp.fire_projectile_value && inp.fire_projectile_has_changed
  if event_over && (pointer_button_pressed || exit_button_pressed || fire_button_pressed) then
    let s := { s with audio_engine := (s.audio_engine.PlaySound "click" (Gain.value 1)).1 }
    -- Stay in Cardboard unless the back button is pressed.
    (s, if decide (s.world.rendering_mode = kRenderingStereoscopic) && !exit_button_pressed
        then kGameStateGameplay else kGameStateGameMenu)
  else (s, next_state)

/-! ## The gameplay state (`gameplay_state.cpp`) -/

/-- The cross-fade duration of `UpdateMusic`, in seconds. -/
def kCrossFadeDuration : ℚ := 5

/-- What `UpdateMusic` reads and writes through its pointer arguments. -/
structure Music where
  previous_lap : Int
  percent : ℚ
  music_channel_1 : Channel
  music_channel_2 : Channel
  music_channel_3 : Channel
  deriving DecidableEq

/-- The element `channels[i]` of the array `{music_channel_1, music_channel_2,
music_channel_3}`; `none` when the index is outside the array. -/
def Music.channels (m : Music) (i : Int) : Option Channel :=
  if i = 0 then some m.music_channel_1
  else if i = 1 then some m.music_channel_2
  else if i = 2 then some m.music_channel_3
  else none

/-- The call `channels[i]->SetGain(g)`; `none` when the index is outside the array. -/
def Music.SetGain (m : Music) (i : Int) (g : Gain) : Option Music :=
  if i = 0 then some { m with music_channel_1 := m.music_channel_1.SetGain g }
  else if i = 1 then some { m with music_channel_2 := m.music_channel_2.SetGain g }
  else if i = 2 then some { m with music_channel_3 := m.music_channel_3.SetGain g }
  else none

/-- Source `UpdateMusic`.  `lap_number` is the raft's lap number, `none` when the raft
has no rail-denizen data.  The result is `none` when the assertion fails or an
index leaves the channel array.  `%` is C++ remainder, `Int.tmod`.  The
conversion of `delta_time`, the two divisions and the addition to `*percent`
are `float` operations. -/
def UpdateMusic (lap_number : Option Int) (delta_time : Int) (m : Music) : Option Music :=
  match lap_number with
  | none => some m
  | some current_lap =>
    if current_lap < 0 then none
    else if current_lap ≠ m.previous_lap then
      let seconds : ℚ := float32 (float32 (delta_time : ℚ) / 1000)
      let delta : ℚ := float32 (seconds / kCrossFadeDuration)
      let index_previous := Int.tmod m.previous_lap 3
      let index_current := Int.tmod current_lap 3
      if (m.channels index_previous).isNone || (m.channels index_current).isNone then none
      else
        let percent := float32 (m.percent + delta)
        let done := decide (percent ≥ 1)
        let percent := if done then 1 else percent
        -- Equal power crossfade
        let gain_previous := Gain.cosHalfPi percent
        let gain_current := Gain.cosHalfPi (1 - percent)
        do
          let m ← m.SetGain index_previous gain_previous
          let m ← m.SetGain index_current gain_current
          if done then
            pure { m with previous_lap := current_lap, percent := 0 }
          else
            pure { m with percent := percent }
    else some m

/-- The value of the local `delta` of `UpdateMusic` for a frame of `delta_time`
milliseconds: `(delta_time / 1000.0f) / kCrossFadeDuration` in `float`
arithmetic. -/
def UpdateMusic_delta (delta_time : Int) : ℚ :=
  float32 (float32 (float32 (delta_time : ℚ) / 1000) / kCrossFadeDuration)

/-- The value of `*percent` after `*percent += delta` in `UpdateMusic`, before
the comparison with `1.0f`. -/
def UpdateMusic_percent (percent : ℚ) (delta_time : Int) : ℚ :=
  float32 (percent + UpdateMusic_delta delta_time)

/-- The camera the services component points at. -/
inductive Camera where
  | main_camera
  | cardboard_camera
  deriving DecidableEq, Repr

/-- The members of `GameplayState` and the collaborators it drives on entry
and exit. -/
structure GameplayState where
  requested_state : GameState
  music : Music
  world : World
  audio_engine : AudioEngine
  relative_mouse_mode : Bool
  services_camera : Option Camera
  deriving DecidableEq

/-- Source `GameplayState::OnEnter`.  `android_vr` is the build flag
`FPLBASE_ANDROID_VR`, `time` the value of `input_system_->Time()`. -/
def GameplayState.OnEnter (android_vr : Bool) (time : ℚ) (previous_state : GameState)
    (s : GameplayState) : GameplayState :=
  let s := { s with
    requested_state := kGameStateGameplay
    world := { s.world with player_state := kPlayerState_Active }
    relative_mouse_mode := true }
  let s :=
    if previous_state = kGameStatePause then
      { s with music := { s.music with
          music_channel_1 := s.music.music_channel_1.Resume
          music_channel_2 := s.music.music_channel_2.Resume
          music_channel_3 := s.music.music_channel_3.Resume } }
    else
      let p1 := s.audio_engine.PlaySound "music_gameplay_lap_1" (Gain.value 1)
      let p2 := p1.1.PlaySound "music_gameplay_lap_2" (Gain.value 0)
      let p3 := p2.1.PlaySound "music_gameplay_lap_3" (Gain.value 0)
      { s with
        audio_engine := p3.1
        music := { s.music with
          music_channel_1 := p1.2
          music_channel_2 := p2.2
          music_channel_3 := p3.2 } }
  let s :=
    if s.world.rendering_mode = kRenderingStereoscopic then
      if android_vr then { s with services_camera := some Camera.cardboard_camera } else s
    else { s with services_camera := some Camera.main_camera }
  -- Perform Analytics
  if previous_state ≠ kGameStatePause then
    -- Set the start time, so elapsed time can be tracked.
    { s with world := { s.world with gameplay_start_time := time } }
  else s

/-- Source `GameplayState::OnExit`. -/
def GameplayState.OnExit (next_state : GameState) (s : GameplayState) : GameplayState :=
  if next_state = kGameStatePause then
    { s with music := { s.music with
        music_channel_1 := s.music.music_channel_1.Pause
        music_channel_2 := s.music.music_channel_2.Pause
        music_channel_3 := s.music.music_channel_3.Pause } }
  else
    { s with music := { s.music with
        music_channel_1 := s.music.music_channel_1.Stop
        music_channel_2 := s.music.music_channel_2.Stop
        music_channel_3 := s.music.music_channel_3.Stop } }

/-- Frames of `UpdateMusic` in sequence, one per element of `frames`, with the
lap number held at `lap_number`. -/
def runMusic (lap_number : Option Int) : List Int → Music → Option Music
  | [], m => some m
  | delta_time :: frames, m => (UpdateMusic lap_number delta_time m).bind (runMusic lap_number frames)

/-! ## The score as the specification words it -/

/-- The total score as the specification states it: each of the three terms
rounded to the nearest integer, with
`accuracy = sushi_thrown > 0 ? patrons_fed / sushi_thrown : 0`. -/
def specTotalScore (cfg : MenuConfig) (patrons_fed sushi_thrown laps_finished : Int) : Int :=
  round (cfg.kScorePatronsFedFactor * (patrons_fed : ℚ)) +
  round (cfg.kScoreLapsFinishedFactor * (laps_finished : ℚ)) +
  round (cfg.kScoreAccuracyFactor *
    (if 0 < sushi_thrown then (patrons_fed : ℚ) / (sushi_thrown : ℚ) else 0))

/-! ## Concrete inputs -/

/-- A fader for the examples: its state is the elapsed time in milliseconds
and the fade lasts one second. -/
def timedFader : FaderModel where
  State := Int
  AdvanceFrame := fun delta_time t => t + delta_time
  GetOffset := fun t => if t < 0 then 0 else if 1000 < t then 1 else (t : ℚ) / 1000
  Finished := fun t => decide (1000 ≤ t)

/-- A configuration for the examples. -/
def exampleConfig : MenuConfig where
  FPLBASE_ANDROID_VR := false
  kEffectVolumeDefault := 1
  kMusicVolumeDefault := 1
  kScorePatronsFedFactor := 100
  kScoreLapsFinishedFactor := 1000
  kScoreAccuracyFactor := 1000
  gyroscopic_controls_default := 0

def exampleWorld : World where
  rendering_mode := kRenderingMonoscopic
  active_controller := kControllerDefault
  hmd_controller_enabled := false
  monoscopic_options := ⟨true, true, true⟩
  stereoscopic_options := ⟨false, false, false⟩
  player_state := kPlayerState_Disabled
  gameplay_start_time := 0

/-- A channel that has never been played. -/
def silentChannel : Channel where
  playback := none
  sound := ""
  state := kChannelStateStopped
  gain := Gain.value 0

/-- The menu as `Initialize` leaves it when no save file exists. -/
def exampleMenu : GameMenuState timedFader where
  menu_state := kMenuStateStart
  options_menu_state := kOptionsMenuStateMain
  slider_value_effect := 1
  slider_value_music := 1
  patrons_fed := 0
  sushi_thrown := 0
  laps_finished := 0
  total_score := 0
  earned_xp := 0
  did_earn_unlockable := false
  earned_unlockable := 0
  loading_complete := true
  world := exampleWorld
  fader := (0 : Int)
  master_bus_gain := Gain.value 1
  audio_engine := ⟨[]⟩
  music_channel := silentChannel
  relative_mouse_mode := false
  preferences := none
  undefined_behaviour := false

/-- The world at the end of a run: the two attributes, the lap number, an XP
system that grants the score as XP without a level-up. -/
def exampleEnter (fed fired : ℚ) (laps : Int) : MenuEnterInput where
  patrons_fed_attribute := fed
  projectiles_fired_attribute := fired
  lap_number := laps
  ApplyBonuses := fun score _ => score
  GrantXP := fun _ => false
  UnlockRandom := (false, 0)
  storage := ⟨true, true⟩

/-- The audio page of the options with both sliders moved. -/
def exampleAudioPage : GameMenuState timedFader :=
  { exampleMenu with
    menu_state := kMenuStateOptions
    options_menu_state := kOptionsMenuStateAudio
    slider_value_effect := 1 / 2
    slider_value_music := 1 / 4 }

/-- The score review page after a run with 10 patrons fed, 25 sushi thrown
and 3 laps. -/
def exampleScoreReview : GameMenuState timedFader :=
  { exampleMenu with
    menu_state := kMenuStateScoreReview
    patrons_fed := 10
    sushi_thrown := 25
    laps_finished := 3
    total_score := 4400
    earned_xp := 4400 }

/-- A frame in which Esc went down, on a platform whose storage works. -/
def backPressed : MenuFrameInput where
  escape_went_down := true
  ac_back_went_down := false
  storage := ⟨true, true⟩

/-- The menu after the back button left the score review page of
`exampleScoreReview`. -/
def exampleStaleMenu : GameMenuState timedFader :=
  (GameMenuState.AdvanceFrame exampleConfig backPressed 16 exampleScoreReview
    kGameStateGameMenu).1

/-- The quit fade 990 ms in. -/
def exampleQuit : GameMenuState timedFader :=
  { exampleMenu with menu_state := kMenuStateQuit, fader := (990 : Int) }

/-- A game-over frame 9 s into the end event in which the pointer button went
down. -/
def examplePointer : GameOverFrameInput where
  event_time := 9000
  pointer_button_went_down := true
  escape_went_down := false
  ac_back_went_down := false
  fire_projectile_value := false
  fire_projectile_has_changed := false

/-- The game-over state in stereoscopic mode. -/
def exampleGameOver : GameOverState where
  world := { exampleWorld with rendering_mode := kRenderingStereoscopic }
  audio_engine := ⟨[]⟩

/-- The music members before the first lap change: `previous_lap = 0`,
`percent = 0`. -/
def exampleMusic : Music where
  previous_lap := 0
  percent := 0
  music_channel_1 := silentChannel
  music_channel_2 := silentChannel
  music_channel_3 := silentChannel

/-- The gameplay state before its first entry. -/
def exampleGameplay : GameplayState where
  requested_state := kGameStateGameplay
  music := exampleMusic
  world := exampleWorld
  audio_engine := ⟨[]⟩
  relative_mouse_mode := false
  services_camera := none

/-! ## Frames in sequence and the calls of one frame -/

/-- Source `GameplayState::AdvanceFrame`, lines 88 to 94: after the world
update `UpdateMusic` runs on the members `previous_lap_`, `percent_` and the
three lap channels.  `lap_number` is the raft's lap number after the update.
The rest of the function (hot keys, scene lab, pause, fader) touches none of
these members. -/
def GameplayState.AdvanceFrame_UpdateMusic (lap_number : Option Int) (delta_time : Int)
    (s : GameplayState) : Option GameplayState :=
  (UpdateMusic lap_number delta_time s.music).map (fun m => { s with music := m })

/-- Frames of `UpdateMusic` in sequence, each frame with its own lap number and
its own `delta_time`. -/
def runFrames : List (Option Int × Int) → Music → Option Music
  | [], m => some m
  | frame :: frames, m => (UpdateMusic frame.1 frame.2 m).bind (runFrames frames)

/-- The members after `channels[i]->SetGain(g)` for an index inside the array,
and `m` itself for any other index. -/
def Music.withGain (m : Music) (i : Int) (g : Gain) : Music :=
  (m.SetGain i g).getD m

/-- The two `SetGain` calls of a frame of `UpdateMusic` with progress `percent`:
first the channel of `previous_lap`, then the channel of `current_lap`. -/
def Music.crossfade (m : Music) (current_lap : Int) (percent : ℚ) : Music :=
  (m.withGain (Int.tmod m.previous_lap 3) (Gain.cosHalfPi percent)).withGain
    (Int.tmod current_lap 3) (Gain.cosHalfPi (1 - percent))

/-- The gameplay state at the end of a run that was stopped half way through
the cross-fade from lap 2 to lap 3. -/
def exampleEndedRun : GameplayState :=
  { exampleGameplay with
    music :=
      { previous_lap := 2
        percent := 1 / 2
        music_channel_1 :=
          { playback := some 0, sound := "music_gameplay_lap_1",
            state := kChannelStatePlaying, gain := Gain.cosHalfPi (1 / 2) }
        music_channel_2 :=
          { playback := some 1, sound := "music_gameplay_lap_2",
            state := kChannelStatePlaying, gain := Gain.cosHalfPi 1 }
        music_channel_3 :=
          { playback := some 2, sound := "music_gameplay_lap_3",
            state := kChannelStatePlaying, gain := Gain.cosHalfPi (1 / 2) } }
    audio_engine :=
      ⟨[("music_gameplay_lap_1", Gain.value 1), ("music_gameplay_lap_2", Gain.value 0),
        ("music_gameplay_lap_3", Gain.value 0)]⟩ }

/-- A lap channel of a run, playing at gain `g`. -/
def lapChannel (index : Nat) (sound : String) (g : Gain) : Channel where
  playback := some index
  sound := sound
  state := kChannelStatePlaying
  gain := g

/-- The music members after a fresh entry and 2500 ms with the lap at 1: the
fade from lap 0 toward lap 1 is half done. -/
def exampleHalfFaded : Music where
  previous_lap := 0
  percent := 1 / 2
  music_channel_1 := lapChannel 0 "music_gameplay_lap_1" (Gain.cosHalfPi (1 / 2))
  music_channel_2 := lapChannel 1 "music_gameplay_lap_2" (Gain.cosHalfPi (1 / 2))
  music_channel_3 := lapChannel 2 "music_gameplay_lap_3" (Gain.value 0)

/-- The music members one frame of 1000 ms after the lap number of
`exampleHalfFaded` became 2: `percent` is the `float` `0.7f`, which is
`11744051 / 2 ^ 24`. -/
def exampleRetargeted : Music where
  previous_lap := 0
  percent := 11744051 / 16777216
  music_channel_1 :=
    lapChannel 0 "music_gameplay_lap_1" (Gain.cosHalfPi (11744051 / 16777216))
  music_channel_2 := lapChannel 1 "music_gameplay_lap_2" (Gain.cosHalfPi (1 / 2))
  music_channel_3 :=
    lapChannel 2 "music_gameplay_lap_3" (Gain.cosHalfPi (5033165 / 16777216))

/-- The music members 1500 ms after `exampleRetargeted`, the lap still 2. -/
def exampleRetargetDone : Music where
  previous_lap := 2
  percent := 0
  music_channel_1 := lapChannel 0 "music_gameplay_lap_1" (Gain.cosHalfPi 1)
  music_channel_2 := lapChannel 1 "music_gameplay_lap_2" (Gain.cosHalfPi (1 / 2))
  music_channel_3 := lapChannel 2 "music_gameplay_lap_3" (Gain.cosHalfPi 0)

/-! ## Theorems -/

/-! ## Rounding to `float` -/

/-- The rounded value is the floor or the floor plus one. -/
theorem roundHalfEven_floor (q : ℚ) :
    roundHalfEven q = ⌊q⌋ ∨ roundHalfEven q = ⌊q⌋ + 1 := by
  unfold roundHalfEven
  split_ifs <;> simp

/-- An integer is rounded to itself. -/
theorem roundHalfEven_intCast (n : Int) : roundHalfEven (n : ℚ) = n := by
  unfold roundHalfEven
  simp

/-- Rounding moves a number by at most one half. -/
theorem roundHalfEven_sub_le (q : ℚ) :
    (roundHalfEven q : ℚ) - q ≤ 1 / 2 ∧ q - (roundHalfEven q : ℚ) ≤ 1 / 2 := by
  have h1 := Int.floor_le q
  have h2 := Int.lt_floor_add_one q
  unfold roundHalfEven
  split_ifs with a b c <;> push_cast <;> constructor <;> linarith

/-- Rounding to the nearest integer is monotone. -/
theorem roundHalfEven_mono {q r : ℚ} (h : q ≤ r) : roundHalfEven q ≤ roundHalfEven r := by
  have hfl : ⌊q⌋ ≤ ⌊r⌋ := Int.floor_le_floor h
  rcases lt_or_eq_of_le hfl with hlt | heq
  · rcases roundHalfEven_floor q with hq | hq <;> rcases roundHalfEven_floor r with hr | hr <;>
      omega
  · unfold roundHalfEven
    rw [heq]
    have hsub : q - (⌊r⌋ : ℚ) ≤ r - (⌊r⌋ : ℚ) := by linarith
    split_ifs <;> first | omega | (exfalso; linarith)

/-- A number closer than one half to an integer is rounded to it. -/
theorem roundHalfEven_eq_of_lt {q : ℚ} {n : Int} (h1 : (n : ℚ) - 1 / 2 < q)
    (h2 : q < (n : ℚ) + 1 / 2) : roundHalfEven q = n := by
  have hs := roundHalfEven_sub_le q
  have : ((roundHalfEven q - n : Int) : ℚ) < 1 ∧ (-1 : ℚ) < ((roundHalfEven q - n : Int) : ℚ) := by
    push_cast
    constructor <;> linarith [hs.1, hs.2]
  have h3 : roundHalfEven q - n < 1 := by exact_mod_cast this.1
  have h4 : -1 < roundHalfEven q - n := by exact_mod_cast this.2
  omega

/-- Splitting a power of two at the unit in the last place. -/
theorem two_zpow_split (e : Int) (k : Nat) :
    (2 : ℚ) ^ (e + k) = (2 : ℚ) ^ k * 2 ^ e := by
  rw [zpow_add₀ (by norm_num : (2 : ℚ) ≠ 0), zpow_natCast, mul_comm]

/-- The exponent of a number between two consecutive powers of two. -/
theorem float32_exponent_eq {q : ℚ} {e : Int} (he : -126 ≤ e) (hlo : (2 : ℚ) ^ e ≤ |q|)
    (hhi : |q| < (2 : ℚ) ^ (e + 1)) : float32_exponent q = e := by
  have hpos : (0 : ℚ) < |q| := lt_of_lt_of_le (by positivity) hlo
  have h1 : e ≤ Int.log 2 |q| := by
    rw [← Int.zpow_le_iff_le_log (by norm_num) hpos]
    simpa using hlo
  have h2 : Int.log 2 |q| < e + 1 := by
    rw [← Int.lt_zpow_iff_log_lt (by norm_num) hpos]
    simpa using hhi
  unfold float32_exponent
  omega

/-- A certificate for the value of `float32`: the exponent `e` and the
significand `n`. -/
theorem float32_eq (q : ℚ) (e n : Int) (he : -126 ≤ e) (hlo : (2 : ℚ) ^ e ≤ |q|)
    (hhi : |q| < (2 : ℚ) ^ (e + 1))
    (h1 : ((n : ℚ) - 1 / 2) * 2 ^ (e - 23) < q) (h2 : q < ((n : ℚ) + 1 / 2) * 2 ^ (e - 23)) :
    float32 q = (n : ℚ) * 2 ^ (e - 23) := by
  have hu : (0 : ℚ) < 2 ^ (e - 23) := by positivity
  unfold float32
  rw [float32_exponent_eq he hlo hhi]
  rw [roundHalfEven_eq_of_lt]
  · rw [lt_div_iff₀ hu]; exact h1
  · rw [div_lt_iff₀ hu]; exact h2

/-- A non-negative number is stored as a non-negative `float`. -/
theorem float32_nonneg {q : ℚ} (h : 0 ≤ q) : 0 ≤ float32 q := by
  unfold float32
  have hu : (0 : ℚ) < 2 ^ (float32_exponent q - 23) := by positivity
  have h0 : (0 : Int) ≤ roundHalfEven (q / 2 ^ (float32_exponent q - 23)) := by
    have := roundHalfEven_mono (div_nonneg h hu.le)
    rwa [show ((0 : ℚ)) = ((0 : Int) : ℚ) by norm_num, roundHalfEven_intCast] at this
  have : (0 : ℚ) ≤ (roundHalfEven (q / 2 ^ (float32_exponent q - 23)) : ℚ) := by exact_mod_cast h0
  positivity

/-- Zero is a `float`. -/
theorem float32_zero : float32 0 = 0 := by
  simp [float32, roundHalfEven]

/-- A number `n * 2 ^ k` with `|n| < 2 ^ 24` and `k ≥ -149` is a `float`. -/
theorem float32_of_representable (n k : Int) (hn : |n| < 2 ^ 24) (hk : -149 ≤ k) :
    float32 ((n : ℚ) * 2 ^ k) = (n : ℚ) * 2 ^ k := by
  by_cases h0 : n = 0
  · subst h0; simp [float32_zero]
  have hnq : (0 : ℚ) < |(n : ℚ)| := by
    rw [abs_pos]; exact_mod_cast h0
  have hk2 : (0 : ℚ) < 2 ^ k := by positivity
  have habs : |(n : ℚ) * 2 ^ k| = |(n : ℚ)| * 2 ^ k := by
    rw [abs_mul, abs_of_pos hk2]
  have hpos : (0 : ℚ) < |(n : ℚ) * 2 ^ k| := by rw [habs]; positivity
  have hexp : float32_exponent ((n : ℚ) * 2 ^ k) - 23 ≤ k := by
    have hlt : |(n : ℚ) * 2 ^ k| < (2 : ℚ) ^ (k + 24) := by
      rw [habs, show (k + 24 : Int) = k + ((24 : Nat) : Int) by norm_num, two_zpow_split k 24]
      have : |(n : ℚ)| < 2 ^ 24 := by
        rw [← Int.cast_abs]; exact_mod_cast hn
      exact (mul_lt_mul_right hk2).mpr this
    have hlog : Int.log 2 |(n : ℚ) * 2 ^ k| < k + 24 := by
      rw [← Int.lt_zpow_iff_log_lt (by norm_num) hpos]
      simpa using hlt
    unfold float32_exponent
    omega
  obtain ⟨j, hj⟩ : ∃ j : Nat, k = (float32_exponent ((n : ℚ) * 2 ^ k) - 23) + j :=
    ⟨(k - (float32_exponent ((n : ℚ) * 2 ^ k) - 23)).toNat, by omega⟩
  unfold float32
  set u := float32_exponent ((n : ℚ) * 2 ^ k) - 23 with hu
  have hupos : (0 : ℚ) < 2 ^ u := by positivity
  have hq : (n : ℚ) * 2 ^ k / 2 ^ u = ((n * 2 ^ j : Int) : ℚ) := by
    rw [hj, two_zpow_split u j]
    push_cast
    field_simp
    ring
  rw [hq, roundHalfEven_intCast, hj, two_zpow_split u j]
  push_cast
  ring

/-- The number one is a `float`. -/
theorem float32_one : float32 1 = 1 := by
  have h := float32_of_representable 1 0 (by norm_num) (by norm_num)
  simpa using h

/-- A positive number lies below the power of two after its exponent. -/
theorem lt_two_zpow_exponent {q : ℚ} :
    |q| < (2 : ℚ) ^ (float32_exponent q + 1) := by
  have h1 : |q| < ((2 : Nat) : ℚ) ^ (Int.log 2 |q| + 1) :=
    Int.lt_zpow_succ_log_self (by norm_num) |q|
  have h2 : ((2 : Nat) : ℚ) ^ (Int.log 2 |q| + 1) ≤ (2 : ℚ) ^ (float32_exponent q + 1) := by
    rw [Nat.cast_ofNat]
    apply zpow_le_zpow_right₀ (by norm_num)
    unfold float32_exponent
    omega
  exact lt_of_lt_of_le h1 h2

/-- A `float` is at most the power of two that follows its binade. -/
theorem float32_le_two_zpow {q : ℚ} (h : 0 ≤ q) :
    float32 q ≤ (2 : ℚ) ^ (float32_exponent q + 1) := by
  have hu : (0 : ℚ) < 2 ^ (float32_exponent q - 23) := by positivity
  have hsplit : (2 : ℚ) ^ (float32_exponent q + 1) =
      2 ^ 24 * 2 ^ (float32_exponent q - 23) := by
    rw [← two_zpow_split (float32_exponent q - 23) 24]
    congr 1
    push_cast
    ring
  have hq : q / 2 ^ (float32_exponent q - 23) ≤ (((2 : Int) ^ 24 : Int) : ℚ) := by
    rw [div_le_iff₀ hu]
    have := @lt_two_zpow_exponent q
    rw [abs_of_nonneg h, hsplit] at this
    push_cast
    exact this.le
  have hr := roundHalfEven_mono hq
  rw [roundHalfEven_intCast] at hr
  unfold float32
  rw [hsplit]
  have : (roundHalfEven (q / 2 ^ (float32_exponent q - 23)) : ℚ) ≤ 2 ^ 24 := by
    exact_mod_cast hr
  exact mul_le_mul_of_nonneg_right this hu.le

/-- A `float` of the normal range is at least the power of two of its
exponent. -/
theorem two_zpow_le_float32 {q : ℚ} (h : 0 < q) (hnormal : -126 < float32_exponent q) :
    (2 : ℚ) ^ float32_exponent q ≤ float32 q := by
  have hu : (0 : ℚ) < 2 ^ (float32_exponent q - 23) := by positivity
  have hexp : float32_exponent q = Int.log 2 |q| := by
    unfold float32_exponent at hnormal ⊢
    omega
  have hlo : (2 : ℚ) ^ float32_exponent q ≤ q := by
    rw [hexp]
    have := Int.zpow_log_le_self (R := ℚ) (b := 2) (by norm_num) (abs_pos.mpr h.ne')
    rw [Nat.cast_ofNat, abs_of_pos h] at this
    rwa [abs_of_pos h]
  have hsplit : (2 : ℚ) ^ float32_exponent q = 2 ^ 23 * 2 ^ (float32_exponent q - 23) := by
    rw [← two_zpow_split (float32_exponent q - 23) 23]
    congr 1
    push_cast
    ring
  have hq : (((2 : Int) ^ 23 : Int) : ℚ) ≤ q / 2 ^ (float32_exponent q - 23) := by
    rw [le_div_iff₀ hu]
    rw [hsplit] at hlo
    push_cast
    exact hlo
  have hr := roundHalfEven_mono hq
  rw [roundHalfEven_intCast] at hr
  unfold float32
  rw [hsplit]
  have : (2 : ℚ) ^ 23 ≤ (roundHalfEven (q / 2 ^ (float32_exponent q - 23)) : ℚ) := by
    exact_mod_cast hr
  exact mul_le_mul_of_nonneg_right this hu.le

/-- Storing non-negative numbers in a `float` keeps their order. -/
theorem float32_mono {x y : ℚ} (hx : 0 ≤ x) (h : x ≤ y) : float32 x ≤ float32 y := by
  have hy : 0 ≤ y := le_trans hx h
  rcases eq_or_lt_of_le hx with h0 | hpos
  · rw [← h0, float32_zero]
    exact float32_nonneg hy
  have hypos : 0 < y := lt_of_lt_of_le hpos h
  have hlog : Int.log 2 |x| ≤ Int.log 2 |y| := by
    rw [abs_of_pos hpos, abs_of_pos hypos]
    exact Int.log_mono_right hpos h
  have hexp : float32_exponent x ≤ float32_exponent y := by
    unfold float32_exponent
    omega
  rcases eq_or_lt_of_le hexp with heq | hlt
  · unfold float32
    rw [heq]
    have hu : (0 : ℚ) < 2 ^ (float32_exponent y - 23) := by positivity
    have hr := roundHalfEven_mono (div_le_div_of_nonneg_right h hu.le)
    have : (roundHalfEven (x / 2 ^ (float32_exponent y - 23)) : ℚ) ≤
        (roundHalfEven (y / 2 ^ (float32_exponent y - 23)) : ℚ) := by exact_mod_cast hr
    exact mul_le_mul_of_nonneg_right this hu.le
  · have h1 := float32_le_two_zpow hx
    have h2 := two_zpow_le_float32 hypos (by unfold float32_exponent at hlt ⊢; omega)
    have h3 : (2 : ℚ) ^ (float32_exponent x + 1) ≤ 2 ^ float32_exponent y :=
      zpow_le_zpow_right₀ (by norm_num) (by omega)
    linarith

/-- Storing a number in a `float` moves it by at most half a unit in the last
place. -/
theorem float32_sub_le (q : ℚ) :
    float32 q - q ≤ 2 ^ (float32_exponent q - 24) ∧
    q - float32 q ≤ 2 ^ (float32_exponent q - 24) := by
  have hu : (0 : ℚ) < 2 ^ (float32_exponent q - 23) := by positivity
  have hhalf : (2 : ℚ) ^ (float32_exponent q - 24) = 1 / 2 * 2 ^ (float32_exponent q - 23) := by
    have := two_zpow_split (float32_exponent q - 24) 1
    rw [show float32_exponent q - 24 + ((1 : Nat) : Int) = float32_exponent q - 23 by
      push_cast; ring] at this
    rw [this]
    ring
  have hs := roundHalfEven_sub_le (q / 2 ^ (float32_exponent q - 23))
  have hq : q = q / 2 ^ (float32_exponent q - 23) * 2 ^ (float32_exponent q - 23) := by
    field_simp
  unfold float32
  rw [hhalf]
  constructor
  · nlinarith [hs.1]
  · nlinarith [hs.2]


/-- An integer below `2 ^ 24` in magnitude is a `float`. -/
theorem float32_intCast (n : Int) (hn : |n| < 2 ^ 24) : float32 (n : ℚ) = (n : ℚ) := by
  have h := float32_of_representable n 0 hn (by norm_num)
  simpa using h

/-- Storing a `float` again does not change it. -/
theorem float32_idem (q : ℚ) : float32 (float32 q) = float32 q := by
  have hu : (0 : ℚ) < 2 ^ (float32_exponent q - 23) := by positivity
  have hk : -149 ≤ float32_exponent q - 23 := by
    unfold float32_exponent
    omega
  have hsplit : (2 : ℚ) ^ (float32_exponent q + 1) =
      2 ^ 24 * 2 ^ (float32_exponent q - 23) := by
    rw [← two_zpow_split (float32_exponent q - 23) 24]
    congr 1
    push_cast
    ring
  have habs : |q / 2 ^ (float32_exponent q - 23)| ≤ (((2 : Int) ^ 24 : Int) : ℚ) := by
    rw [abs_div, abs_of_pos hu, div_le_iff₀ hu]
    have := @lt_two_zpow_exponent q
    rw [hsplit] at this
    push_cast
    exact this.le
  have hup : roundHalfEven (q / 2 ^ (float32_exponent q - 23)) ≤ 2 ^ 24 := by
    have := roundHalfEven_mono (le_trans (le_abs_self _) habs)
    rwa [roundHalfEven_intCast] at this
  have hlow : -(2 ^ 24) ≤ roundHalfEven (q / 2 ^ (float32_exponent q - 23)) := by
    have h1 : (((-(2 : Int) ^ 24 : Int)) : ℚ) ≤ q / 2 ^ (float32_exponent q - 23) := by
      have := neg_abs_le (q / 2 ^ (float32_exponent q - 23))
      push_cast at habs ⊢
      linarith
    have := roundHalfEven_mono h1
    rwa [roundHalfEven_intCast] at this
  have hval : float32 q =
      (roundHalfEven (q / 2 ^ (float32_exponent q - 23)) : ℚ) *
        2 ^ (float32_exponent q - 23) := rfl
  rcases lt_or_eq_of_le hup with hlt | heq
  · rcases lt_or_eq_of_le hlow with hgt | heq'
    · rw [hval]
      exact float32_of_representable _ _ (abs_lt.mpr ⟨hgt, hlt⟩) hk
    · rw [hval, ← heq']
      have h := float32_of_representable (-(2 ^ 23)) (float32_exponent q - 23 + 1)
        (by norm_num) (by omega)
      have e : ((-(2 ^ 24) : Int) : ℚ) * 2 ^ (float32_exponent q - 23) =
          ((-(2 ^ 23) : Int) : ℚ) * 2 ^ (float32_exponent q - 23 + 1) := by
        rw [show float32_exponent q - 23 + 1 = float32_exponent q - 23 + ((1 : Nat) : Int) by
          push_cast; ring, two_zpow_split]
        push_cast
        ring
      rw [e, h]
  · rw [hval, heq]
    have h := float32_of_representable (2 ^ 23) (float32_exponent q - 23 + 1)
      (by norm_num) (by omega)
    have e : (((2 ^ 24 : Int)) : ℚ) * 2 ^ (float32_exponent q - 23) =
        (((2 ^ 23 : Int)) : ℚ) * 2 ^ (float32_exponent q - 23 + 1) := by
      rw [show float32_exponent q - 23 + 1 = float32_exponent q - 23 + ((1 : Nat) : Int) by
        push_cast; ring, two_zpow_split]
      push_cast
      ring
    rw [e, h]

/-! ## Helper lemmas -/

/-- Frame of `LoadData`: it touches neither the sub-state nor the score fields. -/
theorem LoadData_frame (cfg : MenuConfig) (st : Storage) (s : GameMenuState fm) :
    (GameMenuState.LoadData cfg st s).menu_state = s.menu_state ∧
    (GameMenuState.LoadData cfg st s).patrons_fed = s.patrons_fed ∧
    (GameMenuState.LoadData cfg st s).sushi_thrown = s.sushi_thrown ∧
    (GameMenuState.LoadData cfg st s).laps_finished = s.laps_finished ∧
    (GameMenuState.LoadData cfg st s).total_score = s.total_score ∧
    (GameMenuState.LoadData cfg st s).earned_xp = s.earned_xp ∧
    (GameMenuState.LoadData cfg st s).did_earn_unlockable = s.did_earn_unlockable ∧
    (GameMenuState.LoadData cfg st s).undefined_behaviour = s.undefined_behaviour := by
  unfold GameMenuState.LoadData
  cases st.storage_path_ok <;> cases s.preferences <;> simp

/-- A non-negative value is cast to a non-negative `int`. -/
theorem static_cast_int_nonneg {q : ℚ} (h : 0 ≤ q) : 0 ≤ static_cast_int q := by
  unfold static_cast_int
  rw [if_pos h]
  exact Int.floor_nonneg.mpr h

/-- The score fields `OnEnter(GameOver)` stores, as the code computes them. -/
theorem OnEnter_GameOver_fields (cfg : MenuConfig) (inp : MenuEnterInput)
    (s : GameMenuState fm) :
    (GameMenuState.OnEnter cfg inp kGameStateGameOver s).patrons_fed =
      static_cast_int inp.patrons_fed_attribute ∧
    (GameMenuState.OnEnter cfg inp kGameStateGameOver s).sushi_thrown =
      static_cast_int inp.projectiles_fired_attribute ∧
    (GameMenuState.OnEnter cfg inp kGameStateGameOver s).laps_finished = inp.lap_number ∧
    (GameMenuState.OnEnter cfg inp kGameStateGameOver s).total_score =
      static_cast_int (float32 (cfg.kScorePatronsFedFactor *
        float32 (static_cast_int inp.patrons_fed_attribute : ℚ))) +
      static_cast_int (float32 (cfg.kScoreLapsFinishedFactor *
        float32 (inp.lap_number : ℚ))) +
      static_cast_int (float32 (cfg.kScoreAccuracyFactor *
        (if static_cast_int inp.projectiles_fired_attribute ≠ 0 then
          float32 (float32 (static_cast_int inp.patrons_fed_attribute : ℚ) /
            float32 (static_cast_int inp.projectiles_fired_attribute : ℚ))
         else 0))) ∧
    (GameMenuState.OnEnter cfg inp kGameStateGameOver s).undefined_behaviour =
      (s.undefined_behaviour || !score_defined cfg inp) := by
  unfold GameMenuState.OnEnter
  simp only [LoadData_frame, if_true]
  refine ⟨?_, ?_, ?_, ?_, ?_⟩ <;> split_ifs <;> rfl

/-- An integer value is cast to itself. -/
theorem static_cast_int_intCast (n : Int) : static_cast_int (n : ℚ) = n := by
  unfold static_cast_int
  split_ifs <;> simp

/-- Frame of `SaveData`: it writes only the save file. -/
theorem SaveData_frame (cfg : MenuConfig) (st : Storage) (s : GameMenuState fm) :
    (GameMenuState.SaveData cfg st s).menu_state = s.menu_state ∧
    (GameMenuState.SaveData cfg st s).options_menu_state = s.options_menu_state ∧
    (GameMenuState.SaveData cfg st s).fader = s.fader := by
  unfold GameMenuState.SaveData
  refine ⟨?_, ?_, ?_⟩ <;> split_ifs <;> rfl

/-- The second half of `AdvanceFrame` changes neither the sub-state, nor the
options page, nor the save file, nor the score summary. -/
theorem AdvanceFrame_menu_state_frame (delta_time : Int) (s : GameMenuState fm)
    (next_state : GameState) :
    (GameMenuState.AdvanceFrame_menu_state delta_time s next_state).1.menu_state =
      s.menu_state ∧
    (GameMenuState.AdvanceFrame_menu_state delta_time s next_state).1.options_menu_state =
      s.options_menu_state ∧
    (GameMenuState.AdvanceFrame_menu_state delta_time s next_state).1.preferences =
      s.preferences := by
  unfold GameMenuState.AdvanceFrame_menu_state
  simp only []
  refine ⟨?_, ?_, ?_⟩ <;> split_ifs <;> rfl

/-- The dwell constant is 8000 ms. -/
theorem kMinTimeInEndState_eq : kMinTimeInEndState = 8000 := by
  simp [kMinTimeInEndState, static_cast_int]

/-- The `float` operations of the run with 2 patrons fed and 3 sushi thrown
under the factors 100, 1000, 1000: `2.0f / 3.0f` is `11184811 / 2 ^ 24` and
`1000.0f` times it is `10922667 / 2 ^ 14`, which is 666.66668. -/
theorem float32_two_thirds :
    float32 (2 / 3) = 11184811 / 16777216 ∧
    float32 (1398101375 / 2097152) = 10922667 / 16384 := by
  constructor
  · rw [float32_eq _ (-1) 11184811 (by norm_num) (by norm_num [abs_of_pos])
      (by norm_num [abs_of_pos]) (by norm_num) (by norm_num)]
    norm_num
  · rw [float32_eq _ (9) 10922667 (by norm_num) (by norm_num [abs_of_pos])
      (by norm_num [abs_of_pos]) (by norm_num) (by norm_num)]
    norm_num

/-- The `float` operations of the run with 10 patrons fed and 25 sushi thrown:
`10.0f / 25.0f` is `13421773 / 2 ^ 25` and `1000.0f` times it is 400. -/
theorem float32_two_fifths :
    float32 (2 / 5) = 13421773 / 33554432 ∧
    float32 (1677721625 / 4194304) = 400 := by
  constructor
  · rw [float32_eq _ (-2) 13421773 (by norm_num) (by norm_num [abs_of_pos])
      (by norm_num [abs_of_pos]) (by norm_num) (by norm_num)]
    norm_num
  · rw [float32_eq _ (8) 13107200 (by norm_num) (by norm_num [abs_of_pos])
      (by norm_num [abs_of_pos]) (by norm_num) (by norm_num)]
    norm_num

/-- Small integers as `float`s. -/
theorem float32_small (n : Nat) (hn : n < 16777216) : float32 (n : ℚ) = (n : ℚ) := by
  have h := float32_intCast (n : Int) (by
    rw [abs_of_nonneg (by positivity)]
    exact_mod_cast hn)
  simpa using h

/-- The `float` operations of a run with 251 patrons fed and 500 sushi thrown
under the factors 100, 1000, 1000: the accuracy `251.0f / 500.0f` is
`4211081 / 2 ^ 23`, just below 0.502, and `1000.0f` times it is
`16449535 / 2 ^ 15`, just below 502, so that `OnEnter(GameOver)` stores
`25100 + 0 + 501 = 25601`, while the three terms in exact arithmetic,
truncated, sum to 25602. -/
theorem OnEnter_total_score_float_steps :
    float32 (251 / 500) = 4211081 / 8388608 ∧
    float32 (526385125 / 1048576) = 16449535 / 32768 ∧
    (GameMenuState.OnEnter exampleConfig (exampleEnter 251 500 0) kGameStateGameOver
        exampleMenu).total_score = 25601 ∧
    static_cast_int ((100 : ℚ) * 251) + static_cast_int ((1000 : ℚ) * 0) +
      static_cast_int ((1000 : ℚ) * (251 / 500)) = 25602 := by
  have a1 : float32 (251 / 500) = 4211081 / 8388608 := by
    rw [float32_eq _ (-1) 8422162 (by norm_num) (by norm_num [abs_of_pos])
      (by norm_num [abs_of_pos]) (by norm_num) (by norm_num)]
    norm_num
  have a2 : float32 (526385125 / 1048576) = 16449535 / 32768 := by
    rw [float32_eq _ (8) 16449535 (by norm_num) (by norm_num [abs_of_pos])
      (by norm_num [abs_of_pos]) (by norm_num) (by norm_num)]
    norm_num
  obtain ⟨_, _, _, e4, _⟩ :=
    OnEnter_GameOver_fields exampleConfig (exampleEnter 251 500 0) exampleMenu
  have c251 : static_cast_int (251 : ℚ) = 251 := by simp [static_cast_int]
  have c500 : static_cast_int (500 : ℚ) = 500 := by simp [static_cast_int]
  have f251 : float32 (251 : ℚ) = 251 := by simpa using float32_small 251 (by norm_num)
  have f500 : float32 (500 : ℚ) = 500 := by simpa using float32_small 500 (by norm_num)
  have f25100 : float32 (25100 : ℚ) = 25100 := by
    simpa using float32_small 25100 (by norm_num)
  refine ⟨a1, a2, ?_, ?_⟩
  · rw [e4]
    simp only [exampleConfig, exampleEnter, c251, c500]
    norm_num [f251, f500, f25100, float32_zero, a1, a2, static_cast_int, Int.floor_eq_iff]
  · norm_num [static_cast_int, Int.floor_eq_iff]

/-- A run whose score leaves `int`: with the factor 100 and 30000000 patrons
fed the first term is `3000000000.0f`, which `static_cast<int>` cannot
convert, so `score_defined` is false and `OnEnter(GameOver)` records
undefined behaviour. -/
theorem OnEnter_score_out_of_range :
    score_defined exampleConfig (exampleEnter 30000000 1 0) = false ∧
    (GameMenuState.OnEnter exampleConfig (exampleEnter 30000000 1 0) kGameStateGameOver
        exampleMenu).undefined_behaviour = true := by
  have c : static_cast_int (30000000 : ℚ) = 30000000 := by simp [static_cast_int]
  have f1 : float32 (30000000 : ℚ) = 30000000 := by
    rw [float32_eq _ (24) 15000000 (by norm_num) (by norm_num [abs_of_pos])
      (by norm_num [abs_of_pos]) (by norm_num) (by norm_num)]
    norm_num
  have f2 : float32 (3000000000 : ℚ) = 3000000000 := by
    rw [float32_eq _ (31) 11718750 (by norm_num) (by norm_num [abs_of_pos])
      (by norm_num [abs_of_pos]) (by norm_num) (by norm_num)]
    norm_num
  have hterm : cast_defined (float32 ((100 : ℚ) * float32 (30000000 : ℚ))) = false := by
    rw [f1]
    norm_num [f2, cast_defined, fits_int, static_cast_int]
  have hdef : score_defined exampleConfig (exampleEnter 30000000 1 0) = false := by
    simp only [score_defined, exampleConfig, exampleEnter, c]
    push_cast
    rw [hterm]
    simp
  refine ⟨hdef, ?_⟩
  rw [(OnEnter_GameOver_fields exampleConfig (exampleEnter 30000000 1 0) exampleMenu).2.2.2.2,
    hdef]
  simp

/-! ## C1 -/

/-- C1, counterexample: with factors 100, 1000, 1000 and a run of 2 patrons
fed, 3 sushi thrown and 1 lap, `OnEnter(GameOver)` stores 1866, while the
rounded formula of the specification gives 1867. -/
theorem OnEnter_total_score_not_rounded :
    (GameMenuState.OnEnter exampleConfig (exampleEnter 2 3 1) kGameStateGameOver
        exampleMenu).total_score = 1866 ∧
    specTotalScore exampleConfig 2 3 1 = 1867 ∧
    (GameMenuState.OnEnter exampleConfig (exampleEnter 2 3 1) kGameStateGameOver
        exampleMenu).total_score ≠ specTotalScore exampleConfig
      (GameMenuState.OnEnter exampleConfig (exampleEnter 2 3 1) kGameStateGameOver
        exampleMenu).patrons_fed
      (GameMenuState.OnEnter exampleConfig (exampleEnter 2 3 1) kGameStateGameOver
        exampleMenu).sushi_thrown
      (GameMenuState.OnEnter exampleConfig (exampleEnter 2 3 1) kGameStateGameOver
        exampleMenu).laps_finished := by
  obtain ⟨e1, e2, e3, e4, _⟩ :=
    OnEnter_GameOver_fields exampleConfig (exampleEnter 2 3 1) exampleMenu
  have c2 : static_cast_int (2 : ℚ) = 2 := by simp [static_cast_int]
  have c3 : static_cast_int (3 : ℚ) = 3 := by simp [static_cast_int]
  have f1 : float32 (1 : ℚ) = 1 := float32_one
  have f2 : float32 (2 : ℚ) = 2 := by simpa using float32_small 2 (by norm_num)
  have f3 : float32 (3 : ℚ) = 3 := by simpa using float32_small 3 (by norm_num)
  have f200 : float32 (200 : ℚ) = 200 := by simpa using float32_small 200 (by norm_num)
  have f1000 : float32 (1000 : ℚ) = 1000 := by simpa using float32_small 1000 (by norm_num)
  have hr : round ((2000 : ℚ) / 3) = 667 := by
    rw [round_eq]; norm_num [Int.floor_eq_iff]
  have h1 : (GameMenuState.OnEnter exampleConfig (exampleEnter 2 3 1) kGameStateGameOver
        exampleMenu).total_score = 1866 := by
    rw [e4]
    simp only [exampleConfig, exampleEnter, c2, c3]
    norm_num [f1, f2, f3, f200, f1000, float32_two_thirds.1, float32_two_thirds.2,
      static_cast_int, Int.floor_eq_iff]
  have h2 : specTotalScore exampleConfig 2 3 1 = 1867 := by
    simp only [specTotalScore, exampleConfig]
    norm_num [hr]
  refine ⟨h1, h2, ?_⟩
  rw [h1, e1, e2, e3]
  simp only [exampleEnter, c2, c3]
  rw [h2]; decide

/-- C1, amended: after `OnEnter(GameOver)` the stored `total_score` is the sum
of the three terms each converted with `static_cast<int>`, which drops the
fractional part, where the two products by the stored `patrons_fed` and
`laps_finished`, the quotient `accuracy = patrons_fed / sushi_thrown` (taken if
`sushi_thrown > 0`, and 0 otherwise) and the product by it are `float`
operations, each rounded to the nearest `float`.  This holds whenever every
conversion and every sum stays inside `int` (`score_defined`), in which case
the sum is an `int` and no undefined behaviour is recorded. -/
theorem OnEnter_total_score_truncated (cfg : MenuConfig) (inp : MenuEnterInput)
    (s : GameMenuState fm) (hfired : 0 ≤ inp.projectiles_fired_attribute)
    (hdefined : score_defined cfg inp = true) :
    (GameMenuState.OnEnter cfg inp kGameStateGameOver s).patrons_fed =
      static_cast_int inp.patrons_fed_attribute ∧
    (GameMenuState.OnEnter cfg inp kGameStateGameOver s).sushi_thrown =
      static_cast_int inp.projectiles_fired_attribute ∧
    (GameMenuState.OnEnter cfg inp kGameStateGameOver s).laps_finished = inp.lap_number ∧
    (GameMenuState.OnEnter cfg inp kGameStateGameOver s).total_score =
      static_cast_int (float32 (cfg.kScorePatronsFedFactor *
        float32 ((GameMenuState.OnEnter cfg inp kGameStateGameOver s).patrons_fed : ℚ))) +
      static_cast_int (float32 (cfg.kScoreLapsFinishedFactor *
        float32 ((GameMenuState.OnEnter cfg inp kGameStateGameOver s).laps_finished : ℚ))) +
      static_cast_int (float32 (cfg.kScoreAccuracyFactor *
        (if 0 < (GameMenuState.OnEnter cfg inp kGameStateGameOver s).sushi_thrown then
          float32
            (float32 ((GameMenuState.OnEnter cfg inp kGameStateGameOver s).patrons_fed : ℚ) /
              float32 ((GameMenuState.OnEnter cfg inp kGameStateGameOver s).sushi_thrown : ℚ))
         else 0))) ∧
    fits_int (GameMenuState.OnEnter cfg inp kGameStateGameOver s).total_score = true ∧
    (GameMenuState.OnEnter cfg inp kGameStateGameOver s).undefined_behaviour =
      s.undefined_behaviour := by
  obtain ⟨e1, e2, e3, e4, e5⟩ := OnEnter_GameOver_fields cfg inp s
  have hn := static_cast_int_nonneg hfired
  have hiff : (static_cast_int inp.projectiles_fired_attribute ≠ 0) ↔
      0 < static_cast_int inp.projectiles_fired_attribute := by omega
  refine ⟨e1, e2, e3, ?_, ?_, ?_⟩
  · rw [e4, e1, e2, e3]
    simp only [hiff]
  · rw [e4]
    unfold score_defined at hdefined
    simp only [Bool.and_eq_true] at hdefined
    exact hdefined.2
  · rw [e5, hdefined]
    simp

/-- C1, witness: 10 patrons fed, 25 sushi thrown, 3 laps score
`100 * 10 + 1000 * 3 + 1000 * 0.4 = 4400`. -/
theorem OnEnter_total_score_truncated_witness :
    (0 : ℚ) ≤ (exampleEnter 10 25 3).projectiles_fired_attribute ∧
    score_defined exampleConfig (exampleEnter 10 25 3) = true ∧
    (GameMenuState.OnEnter exampleConfig (exampleEnter 10 25 3) kGameStateGameOver
        exampleMenu).total_score = 4400 := by
  have c10 : static_cast_int (10 : ℚ) = 10 := by simp [static_cast_int]
  have c25 : static_cast_int (25 : ℚ) = 25 := by simp [static_cast_int]
  have f3 : float32 (3 : ℚ) = 3 := by simpa using float32_small 3 (by norm_num)
  have f10 : float32 (10 : ℚ) = 10 := by simpa using float32_small 10 (by norm_num)
  have f25 : float32 (25 : ℚ) = 25 := by simpa using float32_small 25 (by norm_num)
  have f1000 : float32 (1000 : ℚ) = 1000 := by simpa using float32_small 1000 (by norm_num)
  have f3000 : float32 (3000 : ℚ) = 3000 := by simpa using float32_small 3000 (by norm_num)
  have h0 : (0 : ℚ) ≤ (exampleEnter 10 25 3).projectiles_fired_attribute := by
    norm_num [exampleEnter]
  have hdef : score_defined exampleConfig (exampleEnter 10 25 3) = true := by
    simp only [score_defined, exampleConfig, exampleEnter, c10, c25]
    norm_num [f3, f10, f25, f1000, f3000, float32_two_fifths.1, float32_two_fifths.2,
      static_cast_int, cast_defined, fits_int]
  obtain ⟨h1, h2, h3, h4, _, _⟩ :=
    OnEnter_total_score_truncated exampleConfig (exampleEnter 10 25 3) exampleMenu h0 hdef
  refine ⟨h0, hdef, ?_⟩
  rw [h4, h1, h2, h3]
  simp only [exampleConfig, exampleEnter, c10, c25]
  norm_num [f3, f10, f25, f1000, f3000, float32_two_fifths.1, float32_two_fifths.2,
    static_cast_int]

/-! ## C2 -/

/-- C2, counterexample: on the audio page of the options a back-button edge
leaves the sub-state at `Options`, not `Start`. -/
theorem AdvanceFrame_back_from_audio_not_start :
    (GameMenuState.AdvanceFrame exampleConfig backPressed 16 exampleAudioPage
        kGameStateGameMenu).1.menu_state ≠ kMenuStateStart := by
  simp [GameMenuState.AdvanceFrame, GameMenuState.AdvanceFrame_back_button, GameMenuState.AdvanceFrame_menu_state, GameMenuState.SaveData, backPressed, exampleAudioPage,
    exampleMenu]

/-- C2, amended: for every menu state whose sub-state is `Options` on the audio
page, `AdvanceFrame` with a back-button edge calls `SaveData` with the current
slider volumes (so the save file holds them when the storage path resolves and
the write succeeds), keeps the sub-state `Options`, sets the options page to
`Main` and leaves `next_state` as passed in. -/
theorem AdvanceFrame_back_from_audio (cfg : MenuConfig) (inp : MenuFrameInput)
    (delta_time : Int) (s : GameMenuState fm) (next_state : GameState)
    (hmenu : s.menu_state = kMenuStateOptions)
    (hpage : s.options_menu_state = kOptionsMenuStateAudio)
    (hback : inp.escape_went_down = true ∨ inp.ac_back_went_down = true) :
    (GameMenuState.AdvanceFrame cfg inp delta_time s next_state).1.menu_state =
      kMenuStateOptions ∧
    (GameMenuState.AdvanceFrame cfg inp delta_time s next_state).1.options_menu_state =
      kOptionsMenuStateMain ∧
    (GameMenuState.AdvanceFrame cfg inp delta_time s next_state).2 = next_state ∧
    (GameMenuState.AdvanceFrame cfg inp delta_time s next_state).1.preferences =
      (GameMenuState.SaveData cfg inp.storage s).preferences ∧
    (inp.storage.storage_path_ok = true → inp.storage.write_ok = true →
      ∃ saved, (GameMenuState.AdvanceFrame cfg inp delta_time s next_state).1.preferences =
          some saved ∧
        saved.effect_volume = s.slider_value_effect ∧
        saved.music_volume = s.slider_value_music) := by
  have hb : (inp.escape_went_down || inp.ac_back_went_down) = true := by
    rcases hback with h | h <;> simp [h]
  have hSm : (GameMenuState.SaveData cfg inp.storage s).menu_state = s.menu_state := by
    unfold GameMenuState.SaveData; split_ifs <;> rfl
  have hSo : (GameMenuState.SaveData cfg inp.storage s).options_menu_state =
      s.options_menu_state := by
    unfold GameMenuState.SaveData; split_ifs <;> rfl
  refine ⟨?_, ?_, ?_, ?_, ?_⟩
  · simp [GameMenuState.AdvanceFrame, GameMenuState.AdvanceFrame_back_button, GameMenuState.AdvanceFrame_menu_state, hb, hmenu, hpage, hSm, hSo]
  · simp [GameMenuState.AdvanceFrame, GameMenuState.AdvanceFrame_back_button, GameMenuState.AdvanceFrame_menu_state, hb, hmenu, hpage, hSm, hSo]
  · simp [GameMenuState.AdvanceFrame, GameMenuState.AdvanceFrame_back_button, GameMenuState.AdvanceFrame_menu_state, hb, hmenu, hpage, hSm, hSo]
  · simp [GameMenuState.AdvanceFrame, GameMenuState.AdvanceFrame_back_button, GameMenuState.AdvanceFrame_menu_state, hb, hmenu, hpage, hSm, hSo]
  · intro hp hw
    simp [GameMenuState.AdvanceFrame, GameMenuState.AdvanceFrame_back_button, GameMenuState.AdvanceFrame_menu_state, hb, hmenu, hpage, hSm, hSo]
    simp [GameMenuState.SaveData, hp, hw]

/-- C2, witness: the audio page with the sliders at 1/2 and 1/4. -/
theorem AdvanceFrame_back_from_audio_witness :
    (GameMenuState.AdvanceFrame exampleConfig backPressed 16 exampleAudioPage
        kGameStateGameMenu).1.menu_state = kMenuStateOptions ∧
    (GameMenuState.AdvanceFrame exampleConfig backPressed 16 exampleAudioPage
        kGameStateGameMenu).1.options_menu_state = kOptionsMenuStateMain ∧
    ∃ saved, (GameMenuState.AdvanceFrame exampleConfig backPressed 16 exampleAudioPage
          kGameStateGameMenu).1.preferences = some saved ∧
        saved.effect_volume = 1 / 2 ∧ saved.music_volume = 1 / 4 := by
  obtain ⟨h1, h2, _, _, h5⟩ :=
    AdvanceFrame_back_from_audio exampleConfig backPressed 16 exampleAudioPage
      kGameStateGameMenu rfl rfl (Or.inl rfl)
  exact ⟨h1, h2, h5 rfl rfl⟩

/-! ## C3 -/

/-- The `HandleUI` exit from the score review: whenever the sub-state after
`HandleUI` is no longer `ScoreReview`, the score summary is cleared. -/
theorem HandleUI_leaving_score_review_resets (ui : MenuUI fm) (s : GameMenuState fm)
    (hload : s.loading_complete = true) (hmenu : s.menu_state = kMenuStateScoreReview)
    (hleft : (GameMenuState.HandleUI ui s).menu_state ≠ kMenuStateScoreReview) :
    (GameMenuState.HandleUI ui s).patrons_fed = 0 ∧
    (GameMenuState.HandleUI ui s).sushi_thrown = 0 ∧
    (GameMenuState.HandleUI ui s).laps_finished = 0 ∧
    (GameMenuState.HandleUI ui s).total_score = 0 ∧
    (GameMenuState.HandleUI ui s).earned_xp = 0 ∧
    (GameMenuState.HandleUI ui s).did_earn_unlockable = false := by
  unfold GameMenuState.HandleUI at hleft ⊢
  simp only [hload, hmenu] at hleft ⊢
  by_cases h : (ui.ScoreReviewMenu s).1 = kMenuStateScoreReview
  · simp [h] at hleft
  · simp [h, GameMenuState.ResetScore]

/-- C3, the failing input: on the score review page with 10 patrons fed, 25
sushi thrown, 3 laps and a score of 4400, a back-button edge moves the
sub-state to `Start` and every score field keeps its value. -/
theorem AdvanceFrame_back_from_score_review_keeps_score :
    (GameMenuState.AdvanceFrame exampleConfig backPressed 16 exampleScoreReview
        kGameStateGameMenu).1.menu_state = kMenuStateStart ∧
    (GameMenuState.AdvanceFrame exampleConfig backPressed 16 exampleScoreReview
        kGameStateGameMenu).1.patrons_fed = 10 ∧
    (GameMenuState.AdvanceFrame exampleConfig backPressed 16 exampleScoreReview
        kGameStateGameMenu).1.sushi_thrown = 25 ∧
    (GameMenuState.AdvanceFrame exampleConfig backPressed 16 exampleScoreReview
        kGameStateGameMenu).1.laps_finished = 3 ∧
    (GameMenuState.AdvanceFrame exampleConfig backPressed 16 exampleScoreReview
        kGameStateGameMenu).1.total_score = 4400 ∧
    (GameMenuState.AdvanceFrame exampleConfig backPressed 16 exampleScoreReview
        kGameStateGameMenu).1.earned_xp = 4400 := by
  simp [GameMenuState.AdvanceFrame, GameMenuState.AdvanceFrame_back_button, GameMenuState.AdvanceFrame_menu_state, backPressed, exampleScoreReview, exampleMenu]

/-! ## C4 -/

/-- C4, counterexample: the menu of `exampleStaleMenu`, left over after the
back button closed the score review of a run, is entered again from `Pause`:
`patrons_fed` is still 10 and `total_score` still 4400. -/
theorem OnEnter_from_pause_keeps_score :
    (GameMenuState.OnEnter exampleConfig (exampleEnter 0 0 0) kGameStatePause
        exampleStaleMenu).patrons_fed = 10 ∧
    (GameMenuState.OnEnter exampleConfig (exampleEnter 0 0 0) kGameStatePause
        exampleStaleMenu).total_score = 4400 ∧
    (GameMenuState.OnEnter exampleConfig (exampleEnter 0 0 0) kGameStatePause
        exampleStaleMenu).patrons_fed ≠ 0 ∧
    (GameMenuState.OnEnter exampleConfig (exampleEnter 0 0 0) kGameStatePause
        exampleStaleMenu).total_score ≠ 0 := by
  simp [GameMenuState.OnEnter, LoadData_frame, exampleConfig, exampleStaleMenu,
    GameMenuState.AdvanceFrame, GameMenuState.AdvanceFrame_back_button,
    GameMenuState.AdvanceFrame_menu_state, backPressed, exampleScoreReview, exampleMenu]

/-- C4, amended: for every previous game state other than `GameOver`,
`OnEnter` leaves `patrons_fed`, `sushi_thrown`, `laps_finished` and
`total_score` (and `earned_xp` and the unlockable flag) as they were, so they
are zero afterwards exactly when they were zero before; `OnEnter(GameOver)` is
the only entry that assigns them, from the values read from the world. -/
theorem OnEnter_score_frame (cfg : MenuConfig) (inp : MenuEnterInput)
    (previous_state : GameState) (s : GameMenuState fm) :
    (previous_state ≠ kGameStateGameOver →
      (GameMenuState.OnEnter cfg inp previous_state s).patrons_fed = s.patrons_fed ∧
      (GameMenuState.OnEnter cfg inp previous_state s).sushi_thrown = s.sushi_thrown ∧
      (GameMenuState.OnEnter cfg inp previous_state s).laps_finished = s.laps_finished ∧
      (GameMenuState.OnEnter cfg inp previous_state s).total_score = s.total_score ∧
      (GameMenuState.OnEnter cfg inp previous_state s).earned_xp = s.earned_xp ∧
      (GameMenuState.OnEnter cfg inp previous_state s).did_earn_unlockable =
        s.did_earn_unlockable) ∧
    (previous_state = kGameStateGameOver →
      (GameMenuState.OnEnter cfg inp previous_state s).patrons_fed =
        static_cast_int inp.patrons_fed_attribute ∧
      (GameMenuState.OnEnter cfg inp previous_state s).sushi_thrown =
        static_cast_int inp.projectiles_fired_attribute ∧
      (GameMenuState.OnEnter cfg inp previous_state s).laps_finished = inp.lap_number) := by
  constructor
  · intro h
    unfold GameMenuState.OnEnter
    simp only [LoadData_frame, if_neg h]
    refine ⟨?_, ?_, ?_, ?_, ?_, ?_⟩ <;> split_ifs <;> rfl
  · intro h
    subst h
    obtain ⟨e1, e2, e3, _⟩ := OnEnter_GameOver_fields cfg inp s
    exact ⟨e1, e2, e3⟩

/-- C4, witness: entering from `Pause` with a cleared score summary leaves it
cleared. -/
theorem OnEnter_score_frame_witness :
    (GameMenuState.OnEnter exampleConfig (exampleEnter 10 25 3) kGameStatePause
        exampleMenu).patrons_fed = 0 ∧
    (GameMenuState.OnEnter exampleConfig (exampleEnter 10 25 3) kGameStatePause
        exampleMenu).sushi_thrown = 0 ∧
    (GameMenuState.OnEnter exampleConfig (exampleEnter 10 25 3) kGameStatePause
        exampleMenu).laps_finished = 0 ∧
    (GameMenuState.OnEnter exampleConfig (exampleEnter 10 25 3) kGameStatePause
        exampleMenu).total_score = 0 := by
  obtain ⟨h1, h2, h3, h4, _, _⟩ :=
    (OnEnter_score_frame exampleConfig (exampleEnter 10 25 3) kGameStatePause exampleMenu).1
      (by decide)
  exact ⟨h1, h2, h3, h4⟩
/-! ## C5 -/

/-- C5: `GameOverState::AdvanceFrame` assigns `next_state` exactly when the
event time is above 8000 ms and one of the three edges holds; the value
assigned is `Gameplay` iff the rendering mode is stereoscopic and neither Esc
nor Android back went down, and `GameMenu` otherwise, so it differs from the
`GameOver` id the state runs under.  Otherwise, in particular whenever the
event time is at most 8000 ms, `next_state` and the state are left as passed
in. -/
theorem GameOver_AdvanceFrame_next_state (inp : GameOverFrameInput) (s : GameOverState)
    (next_state : GameState) :
    ((8000 < inp.event_time ∧
        (inp.pointer_button_went_down = true ∨
         (inp.escape_went_down = true ∨ inp.ac_back_went_down = true) ∨
         (inp.fire_projectile_value = true ∧ inp.fire_projectile_has_changed = true))) →
      ((GameOverState.AdvanceFrame inp s next_state).2 = kGameStateGameplay ↔
        (s.world.rendering_mode = kRenderingStereoscopic ∧
          ¬ (inp.escape_went_down = true ∨ inp.ac_back_went_down = true))) ∧
      ((GameOverState.AdvanceFrame inp s next_state).2 = kGameStateGameMenu ↔
        ¬ (s.world.rendering_mode = kRenderingStereoscopic ∧
          ¬ (inp.escape_went_down = true ∨ inp.ac_back_went_down = true))) ∧
      (GameOverState.AdvanceFrame inp s next_state).2 ≠ kGameStateGameOver) ∧
    (¬ (8000 < inp.event_time ∧
        (inp.pointer_button_went_down = true ∨
         (inp.escape_went_down = true ∨ inp.ac_back_went_down = true) ∨
         (inp.fire_projectile_value = true ∧ inp.fire_projectile_has_changed = true))) →
      GameOverState.AdvanceFrame inp s next_state = (s, next_state)) ∧
    (inp.event_time ≤ 8000 →
      (GameOverState.AdvanceFrame inp s next_state).2 = next_state) := by
  obtain ⟨t, p, e, b, fv, fc⟩ := inp
  have ht := kMinTimeInEndState_eq
  refine ⟨?_, ?_, ?_⟩
  · rintro ⟨h1, h2⟩
    simp only [] at h1 h2
    have hc : (decide (t > kMinTimeInEndState) && (p || (e || b) || (fv && fc))) = true := by
      rw [ht]
      rcases h2 with h | (h | h) | ⟨h, h'⟩ <;> simp [h1, h, *]
    unfold GameOverState.AdvanceFrame
    simp only [hc, if_true]
    cases hm : s.world.rendering_mode <;> cases e <;> cases b <;> simp
  · intro h
    simp only [] at h
    have hc : (decide (t > kMinTimeInEndState) && (p || (e || b) || (fv && fc))) = false := by
      rw [ht]
      by_cases h1 : 8000 < t
      · have h2 := fun x => h ⟨h1, x⟩
        cases p <;> cases e <;> cases b <;> cases fv <;> cases fc <;> simp_all
      · simp [h1]
    unfold GameOverState.AdvanceFrame
    simp only [hc]
    rfl
  · intro h
    simp only [] at h
    have h1 : ¬ (t > kMinTimeInEndState) := by rw [ht]; omega
    unfold GameOverState.AdvanceFrame
    simp [h1]

/-- C5, witness: at 9 s a pointer press in stereoscopic mode requests
`Gameplay`. -/
theorem GameOver_AdvanceFrame_next_state_witness :
    (GameOverState.AdvanceFrame examplePointer exampleGameOver kGameStateGameOver).2 =
      kGameStateGameplay := by
  have h := (GameOver_AdvanceFrame_next_state examplePointer exampleGameOver
    kGameStateGameOver).1 ⟨by decide, Or.inl rfl⟩
  exact h.1.mpr ⟨rfl, by decide⟩
/-! ## C6 -/

/-- C6: the back rule of `GameMenuState::AdvanceFrame`.  With a back-button
edge: `Start` becomes `Quit`; `Options` on page `Main`, `Sushi` or `Level`
becomes `Start`; `Options` on a page other than `Main`, `Sushi`, `Level` and
`Audio` stays `Options` with the page set to `Main`; `ScoreReview` becomes
`Start`; `Quit`, `Finished`, `Cardboard`, `Gamepad` and `ReceivedInvite` keep
sub-state and page; and in all these cases the save file is untouched.
Without a back-button edge sub-state, page and save file are unchanged. -/
theorem AdvanceFrame_back_rule (cfg : MenuConfig) (inp : MenuFrameInput) (delta_time : Int)
    (s : GameMenuState fm) (next_state : GameState) :
    ((inp.escape_went_down = true ∨ inp.ac_back_went_down = true) →
      (s.menu_state = kMenuStateStart →
        (GameMenuState.AdvanceFrame cfg inp delta_time s next_state).1.menu_state =
          kMenuStateQuit ∧
        (GameMenuState.AdvanceFrame cfg inp delta_time s next_state).1.options_menu_state =
          s.options_menu_state) ∧
      (s.menu_state = kMenuStateOptions →
        (s.options_menu_state = kOptionsMenuStateMain ∨
         s.options_menu_state = kOptionsMenuStateSushi ∨
         s.options_menu_state = kOptionsMenuStateLevel) →
        (GameMenuState.AdvanceFrame cfg inp delta_time s next_state).1.menu_state =
          kMenuStateStart ∧
        (GameMenuState.AdvanceFrame cfg inp delta_time s next_state).1.options_menu_state =
          s.options_menu_state) ∧
      (s.menu_state = kMenuStateOptions →
        (s.options_menu_state ≠ kOptionsMenuStateMain ∧
         s.options_menu_state ≠ kOptionsMenuStateSushi ∧
         s.options_menu_state ≠ kOptionsMenuStateLevel ∧
         s.options_menu_state ≠ kOptionsMenuStateAudio) →
        (GameMenuState.AdvanceFrame cfg inp delta_time s next_state).1.menu_state =
          kMenuStateOptions ∧
        (GameMenuState.AdvanceFrame cfg inp delta_time s next_state).1.options_menu_state =
          kOptionsMenuStateMain) ∧
      (s.menu_state = kMenuStateScoreReview →
        (GameMenuState.AdvanceFrame cfg inp delta_time s next_state).1.menu_state =
          kMenuStateStart ∧
        (GameMenuState.AdvanceFrame cfg inp delta_time s next_state).1.options_menu_state =
          s.options_menu_state) ∧
      ((s.menu_state = kMenuStateQuit ∨ s.menu_state = kMenuStateFinished ∨
        s.menu_state = kMenuStateCardboard ∨ s.menu_state = kMenuStateGamepad ∨
        s.menu_state = kMenuStateReceivedInvite) →
        (GameMenuState.AdvanceFrame cfg inp delta_time s next_state).1.menu_state =
          s.menu_state ∧
        (GameMenuState.AdvanceFrame cfg inp delta_time s next_state).1.options_menu_state =
          s.options_menu_state) ∧
      (¬ (s.menu_state = kMenuStateOptions ∧
          s.options_menu_state = kOptionsMenuStateAudio) →
        (GameMenuState.AdvanceFrame cfg inp delta_time s next_state).1.preferences =
          s.preferences)) ∧
    (¬ (inp.escape_went_down = true ∨ inp.ac_back_went_down = true) →
      (GameMenuState.AdvanceFrame cfg inp delta_time s next_state).1.menu_state =
        s.menu_state ∧
      (GameMenuState.AdvanceFrame cfg inp delta_time s next_state).1.options_menu_state =
        s.options_menu_state ∧
      (GameMenuState.AdvanceFrame cfg inp delta_time s next_state).1.preferences =
        s.preferences) := by
  unfold GameMenuState.AdvanceFrame
  simp only [AdvanceFrame_menu_state_frame]
  constructor
  · intro hback
    have hb : (inp.escape_went_down || inp.ac_back_went_down) = true := by
      rcases hback with h | h <;> simp [h]
    unfold GameMenuState.AdvanceFrame_back_button
    simp only [hb, if_true]
    cases hm : s.menu_state <;> cases hp : s.options_menu_state <;>
      simp [SaveData_frame, hp, hm]
  · intro hback
    have hb : (inp.escape_went_down || inp.ac_back_went_down) = false := by
      cases h1 : inp.escape_went_down <;> cases h2 : inp.ac_back_went_down <;> simp_all
    unfold GameMenuState.AdvanceFrame_back_button
    simp [hb]

/-- C6, witness: from `Start` a back-button edge leads to `Quit`. -/
theorem AdvanceFrame_back_rule_witness :
    (GameMenuState.AdvanceFrame exampleConfig backPressed 16 exampleMenu
        kGameStateGameMenu).1.menu_state = kMenuStateQuit := by
  exact ((((AdvanceFrame_back_rule exampleConfig backPressed 16 exampleMenu
    kGameStateGameMenu).1 (Or.inl rfl)).1) rfl).1

/-! ## C7 -/

/-- C7: with `t` the menu after the back rule, `AdvanceFrame` sets
`next_state` from the sub-state of `t`, which is the sub-state it returns:
`Finished` and `Gamepad` give `Gameplay`, `Cardboard` gives `Intro`, `Quit`
steps the fader by `delta_time` and gives `Exit` if the stepped fader reports
finished and leaves `next_state` as passed in if not, and `Start`, `Options`,
`ScoreReview` and `ReceivedInvite` leave `next_state` as passed in. -/
theorem AdvanceFrame_next_state (cfg : MenuConfig) (inp : MenuFrameInput) (delta_time : Int)
    (s : GameMenuState fm) (next_state : GameState) :
    (GameMenuState.AdvanceFrame cfg inp delta_time s next_state).1.menu_state =
      (GameMenuState.AdvanceFrame_back_button cfg inp s).menu_state ∧
    ((GameMenuState.AdvanceFrame_back_button cfg inp s).menu_state = kMenuStateFinished →
      (GameMenuState.AdvanceFrame cfg inp delta_time s next_state).2 = kGameStateGameplay) ∧
    ((GameMenuState.AdvanceFrame_back_button cfg inp s).menu_state = kMenuStateGamepad →
      (GameMenuState.AdvanceFrame cfg inp delta_time s next_state).2 = kGameStateGameplay) ∧
    ((GameMenuState.AdvanceFrame_back_button cfg inp s).menu_state = kMenuStateCardboard →
      (GameMenuState.AdvanceFrame cfg inp delta_time s next_state).2 = kGameStateIntro) ∧
    ((GameMenuState.AdvanceFrame_back_button cfg inp s).menu_state = kMenuStateQuit →
      (GameMenuState.AdvanceFrame cfg inp delta_time s next_state).1.fader =
        fm.AdvanceFrame delta_time s.fader ∧
      (fm.Finished (fm.AdvanceFrame delta_time s.fader) = true →
        (GameMenuState.AdvanceFrame cfg inp delta_time s next_state).2 = kGameStateExit) ∧
      (fm.Finished (fm.AdvanceFrame delta_time s.fader) = false →
        (GameMenuState.AdvanceFrame cfg inp delta_time s next_state).2 = next_state)) ∧
    (((GameMenuState.AdvanceFrame_back_button cfg inp s).menu_state = kMenuStateStart ∨
      (GameMenuState.AdvanceFrame_back_button cfg inp s).menu_state = kMenuStateOptions ∨
      (GameMenuState.AdvanceFrame_back_button cfg inp s).menu_state = kMenuStateScoreReview ∨
      (GameMenuState.AdvanceFrame_back_button cfg inp s).menu_state =
        kMenuStateReceivedInvite) →
      (GameMenuState.AdvanceFrame cfg inp delta_time s next_state).2 = next_state) := by
  have hfader : (GameMenuState.AdvanceFrame_back_button cfg inp s).fader = s.fader := by
    unfold GameMenuState.AdvanceFrame_back_button
    simp only []
    split_ifs <;> simp [SaveData_frame]
  unfold GameMenuState.AdvanceFrame
  refine ⟨(AdvanceFrame_menu_state_frame _ _ _).1, ?_, ?_, ?_, ?_, ?_⟩
  · intro h; simp [GameMenuState.AdvanceFrame_menu_state, h]
  · intro h; simp [GameMenuState.AdvanceFrame_menu_state, h]
  · intro h; simp [GameMenuState.AdvanceFrame_menu_state, h]
  · intro h
    refine ⟨?_, ?_, ?_⟩
    · unfold GameMenuState.AdvanceFrame_menu_state
      simp only [h, hfader]
      split_ifs <;> simp_all
    · intro hf
      simp [GameMenuState.AdvanceFrame_menu_state, h, hfader, hf]
    · intro hf
      simp [GameMenuState.AdvanceFrame_menu_state, h, hfader, hf]
  · intro h
    rcases h with h | h | h | h <;> simp [GameMenuState.AdvanceFrame_menu_state, h]

/-- C7, witness: 990 ms into the quit fade a frame of 16 ms finishes the
one-second fader and requests `Exit`. -/
theorem AdvanceFrame_next_state_witness :
    (GameMenuState.AdvanceFrame exampleConfig ⟨false, false, ⟨true, true⟩⟩ 16 exampleQuit
        kGameStateGameMenu).2 = kGameStateExit := by
  have h := (AdvanceFrame_next_state exampleConfig ⟨false, false, ⟨true, true⟩⟩ 16 exampleQuit
    kGameStateGameMenu).2.2.2.2.1 rfl
  exact h.2.1 (by decide)


/-! ## C8 -/

/-- C8: `OnExit(next)` pauses the three lap channels when `next` is `Pause`
and stops them otherwise.  `OnEnter(Pause)` resumes the same three channels,
starts no playback and leaves `gameplay_start_time` unchanged; `OnEnter(prev)`
for any other `prev` starts three new playbacks, lap 1 at gain 1 and laps 2
and 3 at gain 0, and sets `gameplay_start_time` to the input-system clock. -/
theorem GameplayState_enter_exit (android_vr : Bool) (time : ℚ) (other : GameState)
    (s : GameplayState) :
    ((GameplayState.OnExit kGameStatePause s).music.music_channel_1 =
        s.music.music_channel_1.Pause ∧
      (GameplayState.OnExit kGameStatePause s).music.music_channel_2 =
        s.music.music_channel_2.Pause ∧
      (GameplayState.OnExit kGameStatePause s).music.music_channel_3 =
        s.music.music_channel_3.Pause) ∧
    (other ≠ kGameStatePause →
      (GameplayState.OnExit other s).music.music_channel_1 = s.music.music_channel_1.Stop ∧
      (GameplayState.OnExit other s).music.music_channel_2 = s.music.music_channel_2.Stop ∧
      (GameplayState.OnExit other s).music.music_channel_3 = s.music.music_channel_3.Stop) ∧
    ((GameplayState.OnEnter android_vr time kGameStatePause s).music.music_channel_1 =
        s.music.music_channel_1.Resume ∧
      (GameplayState.OnEnter android_vr time kGameStatePause s).music.music_channel_2 =
        s.music.music_channel_2.Resume ∧
      (GameplayState.OnEnter android_vr time kGameStatePause s).music.music_channel_3 =
        s.music.music_channel_3.Resume ∧
      (GameplayState.OnEnter android_vr time kGameStatePause s).audio_engine = s.audio_engine ∧
      (GameplayState.OnEnter android_vr time kGameStatePause s).world.gameplay_start_time =
        s.world.gameplay_start_time) ∧
    (other ≠ kGameStatePause →
      (GameplayState.OnEnter android_vr time other s).music.music_channel_1 =
        { playback := some s.audio_engine.played.length, sound := "music_gameplay_lap_1",
          state := kChannelStatePlaying, gain := Gain.value 1 } ∧
      (GameplayState.OnEnter android_vr time other s).music.music_channel_2 =
        { playback := some (s.audio_engine.played.length + 1), sound := "music_gameplay_lap_2",
          state := kChannelStatePlaying, gain := Gain.value 0 } ∧
      (GameplayState.OnEnter android_vr time other s).music.music_channel_3 =
        { playback := some (s.audio_engine.played.length + 2), sound := "music_gameplay_lap_3",
          state := kChannelStatePlaying, gain := Gain.value 0 } ∧
      (GameplayState.OnEnter android_vr time other s).audio_engine.played =
        s.audio_engine.played ++
          [("music_gameplay_lap_1", Gain.value 1), ("music_gameplay_lap_2", Gain.value 0),
           ("music_gameplay_lap_3", Gain.value 0)] ∧
      (GameplayState.OnEnter android_vr time other s).world.gameplay_start_time = time) := by
  refine ⟨?_, ?_, ?_, ?_⟩
  · simp [GameplayState.OnExit]
  · intro h
    simp [GameplayState.OnExit, h]
  · unfold GameplayState.OnEnter
    simp only []
    refine ⟨?_, ?_, ?_, ?_, ?_⟩ <;> split_ifs <;> simp_all
  · intro h
    unfold GameplayState.OnEnter
    simp only [if_neg h]
    refine ⟨?_, ?_, ?_, ?_, ?_⟩ <;> split_ifs <;> simp_all [AudioEngine.PlaySound]

/-- C8, witness: a channel state view of pause and resume, and of a fresh
entry from the menu. -/
theorem GameplayState_enter_exit_witness :
    (GameplayState.OnExit kGameStateGameMenu exampleGameplay).music.music_channel_1.state =
      kChannelStateStopped ∧
    (GameplayState.OnEnter false 7 kGameStateGameMenu exampleGameplay).music.music_channel_1.gain =
      Gain.value 1 ∧
    (GameplayState.OnEnter false 7 kGameStateGameMenu exampleGameplay).world.gameplay_start_time =
      7 := by
  obtain ⟨_, h2, _, h4⟩ := GameplayState_enter_exit false 7 kGameStateGameMenu exampleGameplay
  have hne : kGameStateGameMenu ≠ kGameStatePause := by decide
  refine ⟨?_, ?_, ?_⟩
  · rw [(h2 hne).1]; rfl
  · rw [(h4 hne).1]
  · exact (h4 hne).2.2.2.2


/-- The C++ remainder by 3 of a non-negative lap number is 0, 1 or 2. -/
theorem tmod_three_cases {a : Int} (h : 0 ≤ a) :
    Int.tmod a 3 = 0 ∨ Int.tmod a 3 = 1 ∨ Int.tmod a 3 = 2 := by
  rw [Int.tmod_eq_emod h (by decide)]
  omega

/-- The equal-power identity for the two gains of a cross-fade. -/
theorem cosHalfPi_sq_add (p : ℚ) :
    (Gain.cosHalfPi p).toReal ^ 2 + (Gain.cosHalfPi (1 - p)).toReal ^ 2 = 1 := by
  simp only [Gain.toReal]
  have h : (((1 - p : ℚ) : ℝ)) * (1 / 2) * Real.pi = Real.pi / 2 - (p : ℝ) * (1 / 2) * Real.pi := by
    push_cast; ring
  rw [h, Real.cos_pi_div_two_sub]
  exact Real.cos_sq_add_sin_sq _

/-- The gain `cos(1 * 0.5 * pi)` is 0. -/
theorem cosHalfPi_one_toReal : (Gain.cosHalfPi 1).toReal = 0 := by
  have h : ((1 : ℚ) : ℝ) * (1 / 2) * Real.pi = Real.pi / 2 := by push_cast; ring
  simp only [Gain.toReal, h, Real.cos_pi_div_two]

/-- The gain `cos(0 * 0.5 * pi)` is 1. -/
theorem cosHalfPi_zero_toReal : (Gain.cosHalfPi 0).toReal = 1 := by
  simp [Gain.toReal]

/-! ## The progress of the cross-fade in `float` arithmetic -/

/-- Storing a number that is at least the smallest normal `float` loses at most
the fraction `2 ^ -24` of it. -/
theorem float32_rel_lower {q : ℚ} (hq : (2 : ℚ) ^ (-126 : Int) ≤ q) :
    q * (16777215 / 16777216) ≤ float32 q := by
  have hpos : 0 < q := lt_of_lt_of_le (by positivity) hq
  have hlog : -126 ≤ Int.log 2 |q| := by
    rw [← Int.zpow_le_iff_le_log (by norm_num) (abs_pos.mpr hpos.ne')]
    rw [abs_of_pos hpos]
    simpa using hq
  have hexp : float32_exponent q = Int.log 2 |q| := by
    unfold float32_exponent
    omega
  have hlo : (2 : ℚ) ^ float32_exponent q ≤ q := by
    rw [hexp]
    have := Int.zpow_log_le_self (R := ℚ) (b := 2) (by norm_num) (abs_pos.mpr hpos.ne')
    rw [Nat.cast_ofNat, abs_of_pos hpos] at this
    rwa [abs_of_pos hpos]
  have hsplit : (2 : ℚ) ^ float32_exponent q = 2 ^ 24 * 2 ^ (float32_exponent q - 24) := by
    rw [← two_zpow_split (float32_exponent q - 24) 24]
    congr 1
    push_cast
    ring
  have herr := (float32_sub_le q).2
  rw [hsplit] at hlo
  norm_num at hlo
  linarith

/-- Storing a number that is at least the smallest normal `float` adds at most
the fraction `2 ^ -24` of it. -/
theorem float32_rel_upper {q : ℚ} (hq : (2 : ℚ) ^ (-126 : Int) ≤ q) :
    float32 q ≤ q * (16777217 / 16777216) := by
  have hpos : 0 < q := lt_of_lt_of_le (by positivity) hq
  have hlog : -126 ≤ Int.log 2 |q| := by
    rw [← Int.zpow_le_iff_le_log (by norm_num) (abs_pos.mpr hpos.ne')]
    rw [abs_of_pos hpos]
    simpa using hq
  have hexp : float32_exponent q = Int.log 2 |q| := by
    unfold float32_exponent
    omega
  have hlo : (2 : ℚ) ^ float32_exponent q ≤ q := by
    rw [hexp]
    have := Int.zpow_log_le_self (R := ℚ) (b := 2) (by norm_num) (abs_pos.mpr hpos.ne')
    rw [Nat.cast_ofNat, abs_of_pos hpos] at this
    rwa [abs_of_pos hpos]
  have hsplit : (2 : ℚ) ^ float32_exponent q = 2 ^ 24 * 2 ^ (float32_exponent q - 24) := by
    rw [← two_zpow_split (float32_exponent q - 24) 24]
    congr 1
    push_cast
    ring
  have herr := (float32_sub_le q).1
  rw [hsplit] at hlo
  norm_num at hlo
  linarith

/-- Below 1 storing a number in a `float` moves it by at most `2 ^ -25`. -/
theorem float32_sub_le_of_lt_one {q : ℚ} (h0 : 0 ≤ q) (h1 : q < 1) :
    float32 q - q ≤ 1 / 33554432 ∧ q - float32 q ≤ 1 / 33554432 := by
  rcases eq_or_lt_of_le h0 with hz | hpos
  · rw [← hz, float32_zero]
    norm_num
  have hexp : float32_exponent q ≤ -1 := by
    have : Int.log 2 |q| < 0 := by
      rw [← Int.lt_zpow_iff_log_lt (by norm_num) (abs_pos.mpr hpos.ne')]
      rw [abs_of_pos hpos]
      simpa using h1
    unfold float32_exponent
    omega
  have hpow : (2 : ℚ) ^ (float32_exponent q - 24) ≤ 2 ^ (-25 : Int) :=
    zpow_le_zpow_right₀ (by norm_num) (by omega)
  have hval : (2 : ℚ) ^ (-25 : Int) = 1 / 33554432 := by norm_num
  have herr := float32_sub_le q
  rw [hval] at hpow
  constructor <;> linarith [herr.1, herr.2]

/-- A frame of zero milliseconds adds nothing to `percent`. -/
theorem UpdateMusic_delta_zero : UpdateMusic_delta 0 = 0 := by
  simp [UpdateMusic_delta, float32_zero]

/-- A frame of non-negative length adds a non-negative `delta`. -/
theorem UpdateMusic_delta_nonneg {delta_time : Int} (h : 0 ≤ delta_time) :
    0 ≤ UpdateMusic_delta delta_time := by
  have hq : (0 : ℚ) ≤ (delta_time : ℚ) := by exact_mod_cast h
  unfold UpdateMusic_delta kCrossFadeDuration
  exact float32_nonneg (div_nonneg (float32_nonneg (div_nonneg (float32_nonneg hq)
    (by norm_num))) (by norm_num))

/-- The `delta` of a frame of at least one millisecond lies between
`delta_time / 5001` and `delta_time / 4999`. -/
theorem UpdateMusic_delta_bounds {delta_time : Int} (h : 1 ≤ delta_time) :
    (delta_time : ℚ) / 5001 ≤ UpdateMusic_delta delta_time ∧
    UpdateMusic_delta delta_time ≤ (delta_time : ℚ) / 4999 := by
  have hq : (1 : ℚ) ≤ (delta_time : ℚ) := by exact_mod_cast h
  have hmin : (2 : ℚ) ^ (-126 : Int) = 1 / 85070591730234615865843651857942052864 := by
    norm_num
  have ha1 := @float32_rel_lower (delta_time : ℚ) (by rw [hmin]; linarith)
  have ha2 := @float32_rel_upper (delta_time : ℚ) (by rw [hmin]; linarith)
  have hb1 := @float32_rel_lower (float32 (delta_time : ℚ) / 1000) (by rw [hmin]; linarith)
  have hb2 := @float32_rel_upper (float32 (delta_time : ℚ) / 1000) (by rw [hmin]; linarith)
  have hc1 := @float32_rel_lower (float32 (float32 (delta_time : ℚ) / 1000) / 5)
    (by rw [hmin]; linarith)
  have hc2 := @float32_rel_upper (float32 (float32 (delta_time : ℚ) / 1000) / 5)
    (by rw [hmin]; linarith)
  unfold UpdateMusic_delta kCrossFadeDuration
  constructor <;> linarith

/-- A frame of at least 5000 ms carries a non-negative `percent` to 1. -/
theorem UpdateMusic_percent_long_frame {percent : ℚ} {delta_time : Int}
    (hp : 0 ≤ percent) (h : 5000 ≤ delta_time) :
    1 ≤ UpdateMusic_percent percent delta_time := by
  have hq : (5000 : ℚ) ≤ (delta_time : ℚ) := by exact_mod_cast h
  have h5000 : float32 5000 = 5000 := by
    have := float32_intCast 5000 (by norm_num)
    simpa using this
  have h5 : float32 5 = 5 := by
    have := float32_intCast 5 (by norm_num)
    simpa using this
  have ha : (5000 : ℚ) ≤ float32 (delta_time : ℚ) := by
    have := float32_mono (by norm_num : (0 : ℚ) ≤ 5000) hq
    rwa [h5000] at this
  have hb : (5 : ℚ) ≤ float32 (float32 (delta_time : ℚ) / 1000) := by
    have := float32_mono (by norm_num : (0 : ℚ) ≤ 5)
      (by linarith : (5 : ℚ) ≤ float32 (delta_time : ℚ) / 1000)
    rwa [h5] at this
  have hc : (1 : ℚ) ≤ UpdateMusic_delta delta_time := by
    unfold UpdateMusic_delta kCrossFadeDuration
    have := float32_mono (by norm_num : (0 : ℚ) ≤ 1)
      (by linarith : (1 : ℚ) ≤ float32 (float32 (delta_time : ℚ) / 1000) / 5)
    rwa [float32_one] at this
  unfold UpdateMusic_percent
  have := float32_mono (by norm_num : (0 : ℚ) ≤ 1)
    (by linarith : (1 : ℚ) ≤ percent + UpdateMusic_delta delta_time)
  rwa [float32_one] at this

/-- The sum `percent + delta` of a frame of non-negative length is not
negative. -/
theorem UpdateMusic_percent_nonneg {percent : ℚ} {delta_time : Int}
    (hp : 0 ≤ percent) (h : 0 ≤ delta_time) : 0 ≤ UpdateMusic_percent percent delta_time :=
  float32_nonneg (add_nonneg hp (UpdateMusic_delta_nonneg h))

/-- The sum `percent + delta` is a `float`. -/
theorem UpdateMusic_percent_float (percent : ℚ) (delta_time : Int) :
    float32 (UpdateMusic_percent percent delta_time) = UpdateMusic_percent percent delta_time :=
  float32_idem _

/-- While the sum stays below 1, a frame of non-negative length moves a `float`
`percent` forward by at least `delta_time / 5002` and at most
`delta_time / 4998`. -/
theorem UpdateMusic_percent_bounds {percent : ℚ} {delta_time : Int}
    (hfloat : float32 percent = percent) (hp : 0 ≤ percent) (h : 0 ≤ delta_time) :
    (UpdateMusic_percent percent delta_time < 1 →
      percent + (delta_time : ℚ) / 5002 ≤ UpdateMusic_percent percent delta_time) ∧
    (percent + (delta_time : ℚ) / 4998 < 1 →
      UpdateMusic_percent percent delta_time ≤ percent + (delta_time : ℚ) / 4998) := by
  rcases eq_or_lt_of_le h with hz | hpos
  · subst hz
    simp [UpdateMusic_percent, UpdateMusic_delta_zero, hfloat]
  · have h1 : 1 ≤ delta_time := by omega
    have hq : (1 : ℚ) ≤ (delta_time : ℚ) := by exact_mod_cast h1
    obtain ⟨hlo, hhi⟩ := UpdateMusic_delta_bounds h1
    have hx : 0 ≤ percent + UpdateMusic_delta delta_time := by linarith
    constructor
    · intro hlt
      have hx1 : percent + UpdateMusic_delta delta_time < 1 := by
        by_contra hge
        have := float32_mono (by norm_num : (0 : ℚ) ≤ 1) (not_lt.mp hge)
        rw [float32_one] at this
        unfold UpdateMusic_percent at hlt
        linarith
      have herr := (float32_sub_le_of_lt_one hx hx1).2
      unfold UpdateMusic_percent
      linarith
    · intro hlt
      have hx1 : percent + UpdateMusic_delta delta_time < 1 := by linarith
      have herr := (float32_sub_le_of_lt_one hx hx1).1
      unfold UpdateMusic_percent
      linarith

/-! ## Helper lemmas on the cross-fade -/

/-- A frame with the lap equal to `previous_lap` changes nothing. -/
theorem UpdateMusic_same_lap (m : Music) (delta_time : Int) (h : 0 ≤ m.previous_lap) :
    UpdateMusic (some m.previous_lap) delta_time m = some m := by
  have hlt : ¬ m.previous_lap < 0 := by omega
  simp [UpdateMusic, hlt]

/-- Frames with the lap equal to `previous_lap` change nothing. -/
theorem runMusic_same_lap (frames : List Int) (m : Music) (h : 0 ≤ m.previous_lap) :
    runMusic (some m.previous_lap) frames m = some m := by
  induction frames with
  | nil => rfl
  | cons d ds ih => simp [runMusic, UpdateMusic_same_lap m d h, ih]

/-- A fresh entry keeps `previous_lap` and `percent` and starts the lap
channels at gains 1, 0, 0. -/
theorem OnEnter_fresh_music (android_vr : Bool) (time : ℚ) (previous_state : GameState)
    (s : GameplayState) (hfresh : previous_state ≠ kGameStatePause) :
    (GameplayState.OnEnter android_vr time previous_state s).music.previous_lap =
      s.music.previous_lap ∧
    (GameplayState.OnEnter android_vr time previous_state s).music.percent = s.music.percent ∧
    (GameplayState.OnEnter android_vr time previous_state s).music.music_channel_1.gain =
      Gain.value 1 ∧
    (GameplayState.OnEnter android_vr time previous_state s).music.music_channel_2.gain =
      Gain.value 0 ∧
    (GameplayState.OnEnter android_vr time previous_state s).music.music_channel_3.gain =
      Gain.value 0 := by
  unfold GameplayState.OnEnter
  simp only [if_neg hfresh]
  refine ⟨?_, ?_, ?_, ?_, ?_⟩ <;> split_ifs <;> simp_all [AudioEngine.PlaySound]

/-- Inside the array `withGain` is what `SetGain` returns. -/
theorem SetGain_eq_withGain (m : Music) (i : Int) (g : Gain)
    (hi : i = 0 ∨ i = 1 ∨ i = 2) : m.SetGain i g = some (m.withGain i g) := by
  rcases hi with h | h | h <;> simp [Music.withGain, Music.SetGain, h]

/-- The fields `withGain` leaves alone, and the gains after it. -/
theorem withGain_fields (m : Music) (i : Int) (g : Gain) (hi : i = 0 ∨ i = 1 ∨ i = 2) :
    (m.withGain i g).previous_lap = m.previous_lap ∧
    (m.withGain i g).percent = m.percent ∧
    ((m.withGain i g).channels i).map Channel.gain = some g ∧
    (∀ j : Int, j ≠ i → (m.withGain i g).channels j = m.channels j) := by
  rcases hi with h | h | h <;> subst h <;>
    simp [Music.withGain, Music.SetGain, Music.channels, Channel.SetGain] <;>
    intro j hj <;> simp [hj]

/-- One frame of `UpdateMusic` with a lap different from `previous_lap`: the
sum `percent + delta`, stored in a `float`, is compared with 1. -/
theorem UpdateMusic_changed_lap (m : Music) (current_lap delta_time : Int)
    (hne : current_lap ≠ m.previous_lap) (hcur : 0 ≤ current_lap)
    (hprev : 0 ≤ m.previous_lap) :
    UpdateMusic (some current_lap) delta_time m =
      if 1 ≤ UpdateMusic_percent m.percent delta_time then
        some { m.crossfade current_lap 1 with previous_lap := current_lap, percent := 0 }
      else
        some { m.crossfade current_lap (UpdateMusic_percent m.percent delta_time) with
          percent := UpdateMusic_percent m.percent delta_time } := by
  have hd : float32 (m.percent +
      float32 (float32 (float32 (delta_time : ℚ) / 1000) / kCrossFadeDuration)) =
      UpdateMusic_percent m.percent delta_time := rfl
  have hlt : ¬ current_lap < 0 := by omega
  by_cases hdone : 1 ≤ UpdateMusic_percent m.percent delta_time <;>
  rcases tmod_three_cases hcur with hc | hc | hc <;>
  rcases tmod_three_cases hprev with hp | hp | hp <;>
  simp [UpdateMusic, hlt, hne, hd, hdone, hc, hp, Music.channels, Music.SetGain,
    Music.crossfade, Music.withGain, Channel.SetGain, Option.bind]

/-- The two `SetGain` calls of a frame change neither `previous_lap` nor
`percent`. -/
theorem crossfade_fields (m : Music) (current_lap : Int) (percent : ℚ) :
    (m.crossfade current_lap percent).previous_lap = m.previous_lap ∧
    (m.crossfade current_lap percent).percent = m.percent := by
  unfold Music.crossfade Music.withGain Music.SetGain
  constructor <;> split_ifs <;> simp

/-- The gains after the two `SetGain` calls of a frame: the channel of
`current_lap` has the second gain, the channel of `previous_lap` the first
gain unless it is the same channel, and every other channel is as before. -/
theorem crossfade_channels (m : Music) (current_lap : Int) (percent : ℚ)
    (hcur : 0 ≤ current_lap) (hprev : 0 ≤ m.previous_lap) :
    ((m.crossfade current_lap percent).channels (Int.tmod current_lap 3)).map Channel.gain =
      some (Gain.cosHalfPi (1 - percent)) ∧
    (Int.tmod m.previous_lap 3 ≠ Int.tmod current_lap 3 →
      ((m.crossfade current_lap percent).channels (Int.tmod m.previous_lap 3)).map
        Channel.gain = some (Gain.cosHalfPi percent)) ∧
    (∀ i : Int, i ≠ Int.tmod m.previous_lap 3 → i ≠ Int.tmod current_lap 3 →
      (m.crossfade current_lap percent).channels i = m.channels i) := by
  have hc := tmod_three_cases hcur
  have hp := tmod_three_cases hprev
  unfold Music.crossfade
  obtain ⟨_, _, g2, o2⟩ := withGain_fields
    (m.withGain (Int.tmod m.previous_lap 3) (Gain.cosHalfPi percent))
    (Int.tmod current_lap 3) (Gain.cosHalfPi (1 - percent)) hc
  obtain ⟨_, _, g1, o1⟩ := withGain_fields m (Int.tmod m.previous_lap 3)
    (Gain.cosHalfPi percent) hp
  refine ⟨g2, ?_, ?_⟩
  · intro hne
    rw [o2 _ hne, g1]
  · intro i h1 h2
    rw [o2 i h2, o1 i h1]

/-- A later frame of the same cross-fade overwrites the gains of an earlier
one. -/
theorem crossfade_overwrite (m : Music) (current_lap : Int) (p q x : ℚ)
    (hcur : 0 ≤ current_lap) (hprev : 0 ≤ m.previous_lap) :
    Music.crossfade { m.crossfade current_lap p with percent := x } current_lap q =
      { m.crossfade current_lap q with percent := x } := by
  have hpl : (m.crossfade current_lap p).previous_lap = m.previous_lap :=
    (crossfade_fields m current_lap p).1
  rcases tmod_three_cases hcur with hc | hc | hc <;>
  rcases tmod_three_cases hprev with hp | hp | hp <;>
  simp [Music.crossfade, Music.withGain, Music.SetGain, Channel.SetGain, hc, hp] at hpl ⊢

/-- Frames with the lap held at `current_lap`, different from `previous_lap`:
either no frame has run, or the cross-fade is in progress with `percent` a
`float` below 1 and the gains of the last frame, or the cross-fade is
complete with `previous_lap = current_lap`, `percent = 0` and the gains for
progress 1. -/
theorem runMusic_cases (frames : List Int) (m : Music) (current_lap : Int)
    (hne : current_lap ≠ m.previous_lap) (hcur : 0 ≤ current_lap)
    (hprev : 0 ≤ m.previous_lap) :
    (frames = [] ∧ runMusic (some current_lap) frames m = some m) ∨
    (∃ q : ℚ, q < 1 ∧ float32 q = q ∧
      ((∀ d ∈ frames, 0 ≤ d) → 0 ≤ m.percent → 0 ≤ q) ∧
      runMusic (some current_lap) frames m =
        some { m.crossfade current_lap q with percent := q }) ∨
    runMusic (some current_lap) frames m =
      some { m.crossfade current_lap 1 with previous_lap := current_lap, percent := 0 } := by
  induction frames generalizing m with
  | nil => exact Or.inl ⟨rfl, rfl⟩
  | cons d ds ih =>
    right
    rw [runMusic, UpdateMusic_changed_lap m current_lap d hne hcur hprev]
    by_cases hdone : 1 ≤ UpdateMusic_percent m.percent d
    · right
      rw [if_pos hdone]
      exact runMusic_same_lap ds
        { m.crossfade current_lap 1 with previous_lap := current_lap, percent := 0 } hcur
    · rw [if_neg hdone]
      simp only [Option.bind]
      have hpl := (crossfade_fields m current_lap (UpdateMusic_percent m.percent d)).1
      rcases ih
        { m.crossfade current_lap (UpdateMusic_percent m.percent d) with
          percent := UpdateMusic_percent m.percent d }
        (by simpa [hpl] using hne) (by simpa [hpl] using hprev) with h | h | h
      · left
        refine ⟨UpdateMusic_percent m.percent d, not_le.mp hdone,
          UpdateMusic_percent_float _ _, ?_, h.2⟩
        intro hnonneg hp
        exact UpdateMusic_percent_nonneg hp (hnonneg d (List.mem_cons_self _ _))
      · left
        obtain ⟨q, hq1, hq2, hq3, hq4⟩ := h
        refine ⟨q, hq1, hq2, ?_, ?_⟩
        · intro hnonneg hp
          exact hq3 (fun x hx => hnonneg x (List.mem_cons_of_mem _ hx))
            (UpdateMusic_percent_nonneg hp (hnonneg d (List.mem_cons_self _ _)))
        · rw [hq4, crossfade_overwrite m current_lap _ _ _ hcur hprev]
      · right
        rw [h, crossfade_overwrite m current_lap _ _ _ hcur hprev]

/-- Frames of non-negative length with the lap held at `current_lap` carry a
cross-fade to its end when one of them lasts 5000 ms or more, or when
`percent` is a `float` below 1 and `percent + sum / 5002` reaches 1. -/
theorem runMusic_completes (frames : List Int) (m : Music) (current_lap : Int)
    (hne : current_lap ≠ m.previous_lap) (hcur : 0 ≤ current_lap)
    (hprev : 0 ≤ m.previous_lap) (hp : 0 ≤ m.percent) (hnonneg : ∀ d ∈ frames, 0 ≤ d)
    (hdone : (∃ d ∈ frames, 5000 ≤ d) ∨
      (float32 m.percent = m.percent ∧ m.percent < 1 ∧
        1 ≤ m.percent + (frames.sum : ℚ) / 5002)) :
    runMusic (some current_lap) frames m =
      some { m.crossfade current_lap 1 with previous_lap := current_lap, percent := 0 } := by
  induction frames generalizing m with
  | nil =>
    rcases hdone with ⟨d, hd, _⟩ | ⟨_, h1, h2⟩
    · simp at hd
    · simp at h2
      linarith
  | cons d ds ih =>
    have hd0 : 0 ≤ d := hnonneg d (List.mem_cons_self _ _)
    rw [runMusic, UpdateMusic_changed_lap m current_lap d hne hcur hprev]
    by_cases hstep : 1 ≤ UpdateMusic_percent m.percent d
    · rw [if_pos hstep]
      exact runMusic_same_lap ds
        { m.crossfade current_lap 1 with previous_lap := current_lap, percent := 0 } hcur
    · rw [if_neg hstep]
      simp only [Option.bind]
      have hpl := (crossfade_fields m current_lap (UpdateMusic_percent m.percent d)).1
      have key := ih
        { m.crossfade current_lap (UpdateMusic_percent m.percent d) with
          percent := UpdateMusic_percent m.percent d }
        (by simpa [hpl] using hne) (by simpa [hpl] using hprev)
        (UpdateMusic_percent_nonneg hp hd0)
        (fun x hx => hnonneg x (List.mem_cons_of_mem _ hx))
        (by
          rcases hdone with ⟨x, hx, h5000⟩ | ⟨hf, _, hsum⟩
          · rcases List.mem_cons.mp hx with hxd | hxds
            · subst hxd
              exact absurd (UpdateMusic_percent_long_frame hp h5000) hstep
            · exact Or.inl ⟨x, hxds, h5000⟩
          · right
            refine ⟨UpdateMusic_percent_float _ _, not_le.mp hstep, ?_⟩
            have hb := (UpdateMusic_percent_bounds hf hp hd0).1 (not_le.mp hstep)
            rw [List.sum_cons, Int.cast_add] at hsum
            simp only []
            linarith)
      rw [key, crossfade_overwrite m current_lap _ _ _ hcur hprev]

/-- Frames of non-negative length with the lap held at `current_lap` whose
times are too short to end the cross-fade (`percent + sum / 4998 < 1`) leave
it in progress, with `percent` between `percent + sum / 5002` and
`percent + sum / 4998` and the gains of the last frame. -/
theorem runMusic_stays_in_progress (frames : List Int) (m : Music) (current_lap : Int)
    (hne : current_lap ≠ m.previous_lap) (hcur : 0 ≤ current_lap)
    (hprev : 0 ≤ m.previous_lap) (hframes : frames ≠ [])
    (hfloat : float32 m.percent = m.percent) (hp : 0 ≤ m.percent)
    (hnonneg : ∀ d ∈ frames, 0 ≤ d)
    (hsum : m.percent + (frames.sum : ℚ) / 4998 < 1) :
    ∃ q : ℚ, m.percent + (frames.sum : ℚ) / 5002 ≤ q ∧
      q ≤ m.percent + (frames.sum : ℚ) / 4998 ∧
      runMusic (some current_lap) frames m =
        some { m.crossfade current_lap q with percent := q } := by
  induction frames generalizing m with
  | nil => exact absurd rfl hframes
  | cons d ds ih =>
    have hd0 : 0 ≤ d := hnonneg d (List.mem_cons_self _ _)
    have hds : (0 : ℚ) ≤ (ds.sum : ℚ) := by
      have : (0 : Int) ≤ ds.sum :=
        List.sum_nonneg (fun x hx => hnonneg x (List.mem_cons_of_mem _ hx))
      exact_mod_cast this
    have hsplit : ((d :: ds).sum : ℚ) = (d : ℚ) + (ds.sum : ℚ) := by
      rw [List.sum_cons, Int.cast_add]
    rw [hsplit] at hsum ⊢
    obtain ⟨hlo, hhi⟩ := UpdateMusic_percent_bounds hfloat hp hd0
    have hhi' := hhi (by linarith)
    have hstep : ¬ 1 ≤ UpdateMusic_percent m.percent d := by
      intro h
      linarith
    have hlo' := hlo (not_le.mp hstep)
    rw [runMusic, UpdateMusic_changed_lap m current_lap d hne hcur hprev, if_neg hstep]
    simp only [Option.bind]
    by_cases hnil : ds = []
    · subst hnil
      refine ⟨UpdateMusic_percent m.percent d, ?_, ?_, ?_⟩
      · simpa using hlo'
      · simpa using hhi'
      · simp [runMusic]
    · have hpl := (crossfade_fields m current_lap (UpdateMusic_percent m.percent d)).1
      obtain ⟨q, hq1, hq2, hq3⟩ := ih
        { m.crossfade current_lap (UpdateMusic_percent m.percent d) with
          percent := UpdateMusic_percent m.percent d }
        (by simpa [hpl] using hne) (by simpa [hpl] using hprev) hnil
        (UpdateMusic_percent_float _ _) (UpdateMusic_percent_nonneg hp hd0)
        (fun x hx => hnonneg x (List.mem_cons_of_mem _ hx))
        (by simp only []; linarith)
      simp only [] at hq1 hq2
      refine ⟨q, by linarith, by linarith, ?_⟩
      rw [hq3, crossfade_overwrite m current_lap _ _ _ hcur hprev]

/-! ## Concrete frames -/

/-- The `delta` of frames of 16, 17, 100, 1000, 1500 and 2500 ms:
`(delta_time / 1000.0f) / 5.0f` with both quotients rounded to a `float`. -/
theorem UpdateMusic_delta_values :
    UpdateMusic_delta 16 = 1717987 / 536870912 ∧
    UpdateMusic_delta 17 = 7301445 / 2147483648 ∧
    UpdateMusic_delta 100 = 5368709 / 268435456 ∧
    UpdateMusic_delta 1000 = 13421773 / 67108864 ∧
    UpdateMusic_delta 1500 = 5033165 / 16777216 ∧
    UpdateMusic_delta 2500 = 1 / 2 := by
  have i16 : float32 (16 : ℚ) = 16 := by simpa using float32_small 16 (by norm_num)
  have a16 : float32 (2 / 125 : ℚ) = 8589935 / 536870912 := by
    rw [float32_eq _ (-6) 8589935 (by norm_num) (by norm_num [abs_of_pos])
      (by norm_num [abs_of_pos]) (by norm_num) (by norm_num)]
    norm_num
  have b16 : float32 (1717987 / 536870912 : ℚ) = 1717987 / 536870912 := by
    rw [float32_eq _ (-9) 13743896 (by norm_num) (by norm_num [abs_of_pos])
      (by norm_num [abs_of_pos]) (by norm_num) (by norm_num)]
    norm_num
  have i17 : float32 (17 : ℚ) = 17 := by simpa using float32_small 17 (by norm_num)
  have a17 : float32 (17 / 1000 : ℚ) = 4563403 / 268435456 := by
    rw [float32_eq _ (-6) 9126806 (by norm_num) (by norm_num [abs_of_pos])
      (by norm_num [abs_of_pos]) (by norm_num) (by norm_num)]
    norm_num
  have b17 : float32 (4563403 / 1342177280 : ℚ) = 7301445 / 2147483648 := by
    rw [float32_eq _ (-9) 14602890 (by norm_num) (by norm_num [abs_of_pos])
      (by norm_num [abs_of_pos]) (by norm_num) (by norm_num)]
    norm_num
  have i100 : float32 (100 : ℚ) = 100 := by simpa using float32_small 100 (by norm_num)
  have a100 : float32 (1 / 10 : ℚ) = 13421773 / 134217728 := by
    rw [float32_eq _ (-4) 13421773 (by norm_num) (by norm_num [abs_of_pos])
      (by norm_num [abs_of_pos]) (by norm_num) (by norm_num)]
    norm_num
  have b100 : float32 (13421773 / 671088640 : ℚ) = 5368709 / 268435456 := by
    rw [float32_eq _ (-6) 10737418 (by norm_num) (by norm_num [abs_of_pos])
      (by norm_num [abs_of_pos]) (by norm_num) (by norm_num)]
    norm_num
  have i1000 : float32 (1000 : ℚ) = 1000 := by simpa using float32_small 1000 (by norm_num)
  have a1000 : float32 (1 : ℚ) = 1 := float32_one
  have b1000 : float32 (1 / 5 : ℚ) = 13421773 / 67108864 := by
    rw [float32_eq _ (-3) 13421773 (by norm_num) (by norm_num [abs_of_pos])
      (by norm_num [abs_of_pos]) (by norm_num) (by norm_num)]
    norm_num
  have i1500 : float32 (1500 : ℚ) = 1500 := by simpa using float32_small 1500 (by norm_num)
  have a1500 : float32 (3 / 2 : ℚ) = 3 / 2 := by
    rw [float32_eq _ (0) 12582912 (by norm_num) (by norm_num [abs_of_pos])
      (by norm_num [abs_of_pos]) (by norm_num) (by norm_num)]
    norm_num
  have b1500 : float32 (3 / 10 : ℚ) = 5033165 / 16777216 := by
    rw [float32_eq _ (-2) 10066330 (by norm_num) (by norm_num [abs_of_pos])
      (by norm_num [abs_of_pos]) (by norm_num) (by norm_num)]
    norm_num
  have i2500 : float32 (2500 : ℚ) = 2500 := by simpa using float32_small 2500 (by norm_num)
  have a2500 : float32 (5 / 2 : ℚ) = 5 / 2 := by
    rw [float32_eq _ (1) 10485760 (by norm_num) (by norm_num [abs_of_pos])
      (by norm_num [abs_of_pos]) (by norm_num) (by norm_num)]
    norm_num
  have b2500 : float32 (1 / 2 : ℚ) = 1 / 2 := by
    rw [float32_eq _ (-1) 8388608 (by norm_num) (by norm_num [abs_of_pos])
      (by norm_num [abs_of_pos]) (by norm_num) (by norm_num)]
    norm_num
  refine ⟨?_, ?_, ?_, ?_, ?_, ?_⟩ <;>
    (unfold UpdateMusic_delta kCrossFadeDuration; norm_num [i16, a16, b16, i17, a17, b17, i100, a100, b100, i1000, a1000, b1000, i1500, a1500, b1500, i2500, a2500, b2500])

/-- A number half-way between two neighbouring `float`s is stored as the one
with the even significand. -/
theorem float32_eq_tie (q : ℚ) (e n : Int) (he : -126 ≤ e) (hlo : (2 : ℚ) ^ e ≤ |q|)
    (hhi : |q| < (2 : ℚ) ^ (e + 1))
    (hq : q = ((n : ℚ) + 1 / 2) * 2 ^ (e - 23) ∨ q = ((n : ℚ) - 1 / 2) * 2 ^ (e - 23))
    (heven : n % 2 = 0) : float32 q = (n : ℚ) * 2 ^ (e - 23) := by
  have hu : (0 : ℚ) < 2 ^ (e - 23) := by positivity
  unfold float32
  rw [float32_exponent_eq he hlo hhi]
  congr 1
  rcases hq with hq | hq
  · have hx : q / 2 ^ (e - 23) = (n : ℚ) + 1 / 2 := by
      rw [hq]; field_simp; ring
    have hfl : ⌊(n : ℚ) + 1 / 2⌋ = n := by
      rw [Int.floor_eq_iff]; constructor <;> linarith
    rw [hx]
    unfold roundHalfEven
    rw [hfl]
    norm_num [heven]
  · have hx : q / 2 ^ (e - 23) = (n : ℚ) - 1 / 2 := by
      rw [hq]; field_simp; ring
    have hfl : ⌊(n : ℚ) - 1 / 2⌋ = n - 1 := by
      rw [Int.floor_eq_iff]; push_cast; constructor <;> linarith
    have hodd : ¬ (n - 1) % 2 = 0 := by omega
    rw [hx]
    unfold roundHalfEven
    rw [hfl]
    push_cast
    norm_num [hodd]

/-- The first frame of a cross-fade that it does not complete. -/
theorem runMusic_cons_first (m : Music) (current_lap delta_time : Int) (frames : List Int)
    (q : ℚ) (hne : current_lap ≠ m.previous_lap) (hcur : 0 ≤ current_lap)
    (hprev : 0 ≤ m.previous_lap) (hq : UpdateMusic_percent m.percent delta_time = q)
    (hlt : q < 1) :
    runMusic (some current_lap) (delta_time :: frames) m =
      runMusic (some current_lap) frames { m.crossfade current_lap q with percent := q } := by
  rw [runMusic, UpdateMusic_changed_lap m current_lap delta_time hne hcur hprev, hq,
    if_neg (not_le.mpr hlt)]
  rfl

/-- A later frame of a cross-fade that it does not complete. -/
theorem runMusic_cons_in_progress (m : Music) (current_lap delta_time : Int)
    (frames : List Int) (x p q : ℚ) (hne : current_lap ≠ m.previous_lap)
    (hcur : 0 ≤ current_lap) (hprev : 0 ≤ m.previous_lap)
    (hq : UpdateMusic_percent p delta_time = q) (hlt : q < 1) :
    runMusic (some current_lap) (delta_time :: frames)
        { m.crossfade current_lap x with percent := p } =
      runMusic (some current_lap) frames { m.crossfade current_lap q with percent := q } := by
  have hpl := (crossfade_fields m current_lap x).1
  rw [runMusic_cons_first { m.crossfade current_lap x with percent := p } current_lap delta_time
    frames q (by simpa [hpl] using hne) hcur (by simpa [hpl] using hprev) hq hlt,
    crossfade_overwrite m current_lap _ _ _ hcur hprev]

/-- A later frame of a cross-fade that completes it. -/
theorem runMusic_cons_done (m : Music) (current_lap delta_time : Int)
    (frames : List Int) (x p : ℚ) (hne : current_lap ≠ m.previous_lap)
    (hcur : 0 ≤ current_lap) (hprev : 0 ≤ m.previous_lap)
    (hq : 1 ≤ UpdateMusic_percent p delta_time) :
    runMusic (some current_lap) (delta_time :: frames)
        { m.crossfade current_lap x with percent := p } =
      some { m.crossfade current_lap 1 with previous_lap := current_lap, percent := 0 } := by
  have hpl := (crossfade_fields m current_lap x).1
  rw [runMusic, UpdateMusic_changed_lap { m.crossfade current_lap x with percent := p }
    current_lap delta_time (by simpa [hpl] using hne) hcur (by simpa [hpl] using hprev),
    if_pos hq, crossfade_overwrite m current_lap _ _ _ hcur hprev]
  exact runMusic_same_lap frames
    { m.crossfade current_lap 1 with previous_lap := current_lap, percent := 0 } hcur

/-- Fifty frames of 100 ms with the lap at 1 do not complete a cross-fade begun
at `percent = 0`: the `float` sums leave `percent = 16777209 / 2 ^ 24`, about
0.9999996. -/
theorem runMusic_fifty_frames (m : Music) (hprev : m.previous_lap = 0)
    (hpercent : m.percent = 0) :
    runMusic (some 1) (List.replicate 50 100) m =
      some { m.crossfade 1 (16777209 / 16777216) with percent := 16777209 / 16777216 } := by
  have hne : (1 : Int) ≠ m.previous_lap := by omega
  have hp0 : (0 : Int) ≤ m.previous_lap := by omega
  obtain ⟨d16, d17, d100, d1000, d1500, d2500⟩ := UpdateMusic_delta_values
  have s0 : UpdateMusic_percent (0) 100 = 5368709 / 268435456 := by
    rw [UpdateMusic_percent, d100, float32_eq _ (-6) 10737418 (by norm_num)
      (by norm_num [abs_of_pos]) (by norm_num [abs_of_pos]) (by norm_num) (by norm_num)]
    norm_num
  have s1 : UpdateMusic_percent (5368709 / 268435456) 100 = 5368709 / 134217728 := by
    rw [UpdateMusic_percent, d100, float32_eq _ (-5) 10737418 (by norm_num)
      (by norm_num [abs_of_pos]) (by norm_num [abs_of_pos]) (by norm_num) (by norm_num)]
    norm_num
  have s2 : UpdateMusic_percent (5368709 / 134217728) 100 = 16106127 / 268435456 := by
    rw [UpdateMusic_percent, d100, float32_eq _ (-5) 16106127 (by norm_num)
      (by norm_num [abs_of_pos]) (by norm_num [abs_of_pos]) (by norm_num) (by norm_num)]
    norm_num
  have s3 : UpdateMusic_percent (16106127 / 268435456) 100 = 5368709 / 67108864 := by
    rw [UpdateMusic_percent, d100, float32_eq _ (-4) 10737418 (by norm_num)
      (by norm_num [abs_of_pos]) (by norm_num [abs_of_pos]) (by norm_num) (by norm_num)]
    norm_num
  have s4 : UpdateMusic_percent (5368709 / 67108864) 100 = 3355443 / 33554432 := by
    rw [UpdateMusic_percent, d100, float32_eq_tie _ (-4) 13421772 (by norm_num)
      (by norm_num [abs_of_pos]) (by norm_num [abs_of_pos]) (Or.inl (by norm_num))
      (by norm_num)]
    norm_num
  have s5 : UpdateMusic_percent (3355443 / 33554432) 100 = 8053063 / 67108864 := by
    rw [UpdateMusic_percent, d100, float32_eq_tie _ (-4) 16106126 (by norm_num)
      (by norm_num [abs_of_pos]) (by norm_num [abs_of_pos]) (Or.inl (by norm_num))
      (by norm_num)]
    norm_num
  have s6 : UpdateMusic_percent (8053063 / 67108864) 100 = 1174405 / 8388608 := by
    rw [UpdateMusic_percent, d100, float32_eq _ (-3) 9395240 (by norm_num)
      (by norm_num [abs_of_pos]) (by norm_num [abs_of_pos]) (by norm_num) (by norm_num)]
    norm_num
  have s7 : UpdateMusic_percent (1174405 / 8388608) 100 = 10737417 / 67108864 := by
    rw [UpdateMusic_percent, d100, float32_eq _ (-3) 10737417 (by norm_num)
      (by norm_num [abs_of_pos]) (by norm_num [abs_of_pos]) (by norm_num) (by norm_num)]
    norm_num
  have s8 : UpdateMusic_percent (10737417 / 67108864) 100 = 6039797 / 33554432 := by
    rw [UpdateMusic_percent, d100, float32_eq _ (-3) 12079594 (by norm_num)
      (by norm_num [abs_of_pos]) (by norm_num [abs_of_pos]) (by norm_num) (by norm_num)]
    norm_num
  have s9 : UpdateMusic_percent (6039797 / 33554432) 100 = 13421771 / 67108864 := by
    rw [UpdateMusic_percent, d100, float32_eq _ (-3) 13421771 (by norm_num)
      (by norm_num [abs_of_pos]) (by norm_num [abs_of_pos]) (by norm_num) (by norm_num)]
    norm_num
  have s10 : UpdateMusic_percent (13421771 / 67108864) 100 = 3690987 / 16777216 := by
    rw [UpdateMusic_percent, d100, float32_eq _ (-3) 14763948 (by norm_num)
      (by norm_num [abs_of_pos]) (by norm_num [abs_of_pos]) (by norm_num) (by norm_num)]
    norm_num
  have s11 : UpdateMusic_percent (3690987 / 16777216) 100 = 16106125 / 67108864 := by
    rw [UpdateMusic_percent, d100, float32_eq _ (-3) 16106125 (by norm_num)
      (by norm_num [abs_of_pos]) (by norm_num [abs_of_pos]) (by norm_num) (by norm_num)]
    norm_num
  have s12 : UpdateMusic_percent (16106125 / 67108864) 100 = 8724151 / 33554432 := by
    rw [UpdateMusic_percent, d100, float32_eq _ (-2) 8724151 (by norm_num)
      (by norm_num [abs_of_pos]) (by norm_num [abs_of_pos]) (by norm_num) (by norm_num)]
    norm_num
  have s13 : UpdateMusic_percent (8724151 / 33554432) 100 = 1174405 / 4194304 := by
    rw [UpdateMusic_percent, d100, float32_eq _ (-2) 9395240 (by norm_num)
      (by norm_num [abs_of_pos]) (by norm_num [abs_of_pos]) (by norm_num) (by norm_num)]
    norm_num
  have s14 : UpdateMusic_percent (1174405 / 4194304) 100 = 10066329 / 33554432 := by
    rw [UpdateMusic_percent, d100, float32_eq _ (-2) 10066329 (by norm_num)
      (by norm_num [abs_of_pos]) (by norm_num [abs_of_pos]) (by norm_num) (by norm_num)]
    norm_num
  have s15 : UpdateMusic_percent (10066329 / 33554432) 100 = 5368709 / 16777216 := by
    rw [UpdateMusic_percent, d100, float32_eq _ (-2) 10737418 (by norm_num)
      (by norm_num [abs_of_pos]) (by norm_num [abs_of_pos]) (by norm_num) (by norm_num)]
    norm_num
  have s16 : UpdateMusic_percent (5368709 / 16777216) 100 = 11408507 / 33554432 := by
    rw [UpdateMusic_percent, d100, float32_eq _ (-2) 11408507 (by norm_num)
      (by norm_num [abs_of_pos]) (by norm_num [abs_of_pos]) (by norm_num) (by norm_num)]
    norm_num
  have s17 : UpdateMusic_percent (11408507 / 33554432) 100 = 3019899 / 8388608 := by
    rw [UpdateMusic_percent, d100, float32_eq _ (-2) 12079596 (by norm_num)
      (by norm_num [abs_of_pos]) (by norm_num [abs_of_pos]) (by norm_num) (by norm_num)]
    norm_num
  have s18 : UpdateMusic_percent (3019899 / 8388608) 100 = 12750685 / 33554432 := by
    rw [UpdateMusic_percent, d100, float32_eq _ (-2) 12750685 (by norm_num)
      (by norm_num [abs_of_pos]) (by norm_num [abs_of_pos]) (by norm_num) (by norm_num)]
    norm_num
  have s19 : UpdateMusic_percent (12750685 / 33554432) 100 = 6710887 / 16777216 := by
    rw [UpdateMusic_percent, d100, float32_eq _ (-2) 13421774 (by norm_num)
      (by norm_num [abs_of_pos]) (by norm_num [abs_of_pos]) (by norm_num) (by norm_num)]
    norm_num
  have s20 : UpdateMusic_percent (6710887 / 16777216) 100 = 14092863 / 33554432 := by
    rw [UpdateMusic_percent, d100, float32_eq _ (-2) 14092863 (by norm_num)
      (by norm_num [abs_of_pos]) (by norm_num [abs_of_pos]) (by norm_num) (by norm_num)]
    norm_num
  have s21 : UpdateMusic_percent (14092863 / 33554432) 100 = 922747 / 2097152 := by
    rw [UpdateMusic_percent, d100, float32_eq _ (-2) 14763952 (by norm_num)
      (by norm_num [abs_of_pos]) (by norm_num [abs_of_pos]) (by norm_num) (by norm_num)]
    norm_num
  have s22 : UpdateMusic_percent (922747 / 2097152) 100 = 15435041 / 33554432 := by
    rw [UpdateMusic_percent, d100, float32_eq _ (-2) 15435041 (by norm_num)
      (by norm_num [abs_of_pos]) (by norm_num [abs_of_pos]) (by norm_num) (by norm_num)]
    norm_num
  have s23 : UpdateMusic_percent (15435041 / 33554432) 100 = 8053065 / 16777216 := by
    rw [UpdateMusic_percent, d100, float32_eq _ (-2) 16106130 (by norm_num)
      (by norm_num [abs_of_pos]) (by norm_num [abs_of_pos]) (by norm_num) (by norm_num)]
    norm_num
  have s24 : UpdateMusic_percent (8053065 / 16777216) 100 = 8388609 / 16777216 := by
    rw [UpdateMusic_percent, d100, float32_eq _ (-1) 8388609 (by norm_num)
      (by norm_num [abs_of_pos]) (by norm_num [abs_of_pos]) (by norm_num) (by norm_num)]
    norm_num
  have s25 : UpdateMusic_percent (8388609 / 16777216) 100 = 8724153 / 16777216 := by
    rw [UpdateMusic_percent, d100, float32_eq _ (-1) 8724153 (by norm_num)
      (by norm_num [abs_of_pos]) (by norm_num [abs_of_pos]) (by norm_num) (by norm_num)]
    norm_num
  have s26 : UpdateMusic_percent (8724153 / 16777216) 100 = 9059697 / 16777216 := by
    rw [UpdateMusic_percent, d100, float32_eq _ (-1) 9059697 (by norm_num)
      (by norm_num [abs_of_pos]) (by norm_num [abs_of_pos]) (by norm_num) (by norm_num)]
    norm_num
  have s27 : UpdateMusic_percent (9059697 / 16777216) 100 = 9395241 / 16777216 := by
    rw [UpdateMusic_percent, d100, float32_eq _ (-1) 9395241 (by norm_num)
      (by norm_num [abs_of_pos]) (by norm_num [abs_of_pos]) (by norm_num) (by norm_num)]
    norm_num
  have s28 : UpdateMusic_percent (9395241 / 16777216) 100 = 9730785 / 16777216 := by
    rw [UpdateMusic_percent, d100, float32_eq _ (-1) 9730785 (by norm_num)
      (by norm_num [abs_of_pos]) (by norm_num [abs_of_pos]) (by norm_num) (by norm_num)]
    norm_num
  have s29 : UpdateMusic_percent (9730785 / 16777216) 100 = 10066329 / 16777216 := by
    rw [UpdateMusic_percent, d100, float32_eq _ (-1) 10066329 (by norm_num)
      (by norm_num [abs_of_pos]) (by norm_num [abs_of_pos]) (by norm_num) (by norm_num)]
    norm_num
  have s30 : UpdateMusic_percent (10066329 / 16777216) 100 = 10401873 / 16777216 := by
    rw [UpdateMusic_percent, d100, float32_eq _ (-1) 10401873 (by norm_num)
      (by norm_num [abs_of_pos]) (by norm_num [abs_of_pos]) (by norm_num) (by norm_num)]
    norm_num
  have s31 : UpdateMusic_percent (10401873 / 16777216) 100 = 10737417 / 16777216 := by
    rw [UpdateMusic_percent, d100, float32_eq _ (-1) 10737417 (by norm_num)
      (by norm_num [abs_of_pos]) (by norm_num [abs_of_pos]) (by norm_num) (by norm_num)]
    norm_num
  have s32 : UpdateMusic_percent (10737417 / 16777216) 100 = 11072961 / 16777216 := by
    rw [UpdateMusic_percent, d100, float32_eq _ (-1) 11072961 (by norm_num)
      (by norm_num [abs_of_pos]) (by norm_num [abs_of_pos]) (by norm_num) (by norm_num)]
    norm_num
  have s33 : UpdateMusic_percent (11072961 / 16777216) 100 = 11408505 / 16777216 := by
    rw [UpdateMusic_percent, d100, float32_eq _ (-1) 11408505 (by norm_num)
      (by norm_num [abs_of_pos]) (by norm_num [abs_of_pos]) (by norm_num) (by norm_num)]
    norm_num
  have s34 : UpdateMusic_percent (11408505 / 16777216) 100 = 11744049 / 16777216 := by
    rw [UpdateMusic_percent, d100, float32_eq _ (-1) 11744049 (by norm_num)
      (by norm_num [abs_of_pos]) (by norm_num [abs_of_pos]) (by norm_num) (by norm_num)]
    norm_num
  have s35 : UpdateMusic_percent (11744049 / 16777216) 100 = 12079593 / 16777216 := by
    rw [UpdateMusic_percent, d100, float32_eq _ (-1) 12079593 (by norm_num)
      (by norm_num [abs_of_pos]) (by norm_num [abs_of_pos]) (by norm_num) (by norm_num)]
    norm_num
  have s36 : UpdateMusic_percent (12079593 / 16777216) 100 = 12415137 / 16777216 := by
    rw [UpdateMusic_percent, d100, float32_eq _ (-1) 12415137 (by norm_num)
      (by norm_num [abs_of_pos]) (by norm_num [abs_of_pos]) (by norm_num) (by norm_num)]
    norm_num
  have s37 : UpdateMusic_percent (12415137 / 16777216) 100 = 12750681 / 16777216 := by
    rw [UpdateMusic_percent, d100, float32_eq _ (-1) 12750681 (by norm_num)
      (by norm_num [abs_of_pos]) (by norm_num [abs_of_pos]) (by norm_num) (by norm_num)]
    norm_num
  have s38 : UpdateMusic_percent (12750681 / 16777216) 100 = 13086225 / 16777216 := by
    rw [UpdateMusic_percent, d100, float32_eq _ (-1) 13086225 (by norm_num)
      (by norm_num [abs_of_pos]) (by norm_num [abs_of_pos]) (by norm_num) (by norm_num)]
    norm_num
  have s39 : UpdateMusic_percent (13086225 / 16777216) 100 = 13421769 / 16777216 := by
    rw [UpdateMusic_percent, d100, float32_eq _ (-1) 13421769 (by norm_num)
      (by norm_num [abs_of_pos]) (by norm_num [abs_of_pos]) (by norm_num) (by norm_num)]
    norm_num
  have s40 : UpdateMusic_percent (13421769 / 16777216) 100 = 13757313 / 16777216 := by
    rw [UpdateMusic_percent, d100, float32_eq _ (-1) 13757313 (by norm_num)
      (by norm_num [abs_of_pos]) (by norm_num [abs_of_pos]) (by norm_num) (by norm_num)]
    norm_num
  have s41 : UpdateMusic_percent (13757313 / 16777216) 100 = 14092857 / 16777216 := by
    rw [UpdateMusic_percent, d100, float32_eq _ (-1) 14092857 (by norm_num)
      (by norm_num [abs_of_pos]) (by norm_num [abs_of_pos]) (by norm_num) (by norm_num)]
    norm_num
  have s42 : UpdateMusic_percent (14092857 / 16777216) 100 = 14428401 / 16777216 := by
    rw [UpdateMusic_percent, d100, float32_eq _ (-1) 14428401 (by norm_num)
      (by norm_num [abs_of_pos]) (by norm_num [abs_of_pos]) (by norm_num) (by norm_num)]
    norm_num
  have s43 : UpdateMusic_percent (14428401 / 16777216) 100 = 14763945 / 16777216 := by
    rw [UpdateMusic_percent, d100, float32_eq _ (-1) 14763945 (by norm_num)
      (by norm_num [abs_of_pos]) (by norm_num [abs_of_pos]) (by norm_num) (by norm_num)]
    norm_num
  have s44 : UpdateMusic_percent (14763945 / 16777216) 100 = 15099489 / 16777216 := by
    rw [UpdateMusic_percent, d100, float32_eq _ (-1) 15099489 (by norm_num)
      (by norm_num [abs_of_pos]) (by norm_num [abs_of_pos]) (by norm_num) (by norm_num)]
    norm_num
  have s45 : UpdateMusic_percent (15099489 / 16777216) 100 = 15435033 / 16777216 := by
    rw [UpdateMusic_percent, d100, float32_eq _ (-1) 15435033 (by norm_num)
      (by norm_num [abs_of_pos]) (by norm_num [abs_of_pos]) (by norm_num) (by norm_num)]
    norm_num
  have s46 : UpdateMusic_percent (15435033 / 16777216) 100 = 15770577 / 16777216 := by
    rw [UpdateMusic_percent, d100, float32_eq _ (-1) 15770577 (by norm_num)
      (by norm_num [abs_of_pos]) (by norm_num [abs_of_pos]) (by norm_num) (by norm_num)]
    norm_num
  have s47 : UpdateMusic_percent (15770577 / 16777216) 100 = 16106121 / 16777216 := by
    rw [UpdateMusic_percent, d100, float32_eq _ (-1) 16106121 (by norm_num)
      (by norm_num [abs_of_pos]) (by norm_num [abs_of_pos]) (by norm_num) (by norm_num)]
    norm_num
  have s48 : UpdateMusic_percent (16106121 / 16777216) 100 = 16441665 / 16777216 := by
    rw [UpdateMusic_percent, d100, float32_eq _ (-1) 16441665 (by norm_num)
      (by norm_num [abs_of_pos]) (by norm_num [abs_of_pos]) (by norm_num) (by norm_num)]
    norm_num
  have s49 : UpdateMusic_percent (16441665 / 16777216) 100 = 16777209 / 16777216 := by
    rw [UpdateMusic_percent, d100, float32_eq _ (-1) 16777209 (by norm_num)
      (by norm_num [abs_of_pos]) (by norm_num [abs_of_pos]) (by norm_num) (by norm_num)]
    norm_num
  show runMusic (some 1) [100, 100, 100, 100, 100, 100, 100, 100, 100, 100, 100, 100, 100, 100, 100, 100, 100, 100, 100, 100, 100, 100, 100, 100, 100, 100, 100, 100, 100, 100, 100, 100, 100, 100, 100, 100, 100, 100, 100, 100, 100, 100, 100, 100, 100, 100, 100, 100, 100, 100] m = _
  rw [runMusic_cons_first m 1 100 _ (5368709 / 268435456) hne (by decide) hp0
    (by rw [hpercent]; exact s0) (by norm_num)]
  rw [runMusic_cons_in_progress m 1 100 _ _ _ (5368709 / 134217728) hne (by decide) hp0 s1
    (by norm_num)]
  rw [runMusic_cons_in_progress m 1 100 _ _ _ (16106127 / 268435456) hne (by decide) hp0 s2
    (by norm_num)]
  rw [runMusic_cons_in_progress m 1 100 _ _ _ (5368709 / 67108864) hne (by decide) hp0 s3
    (by norm_num)]
  rw [runMusic_cons_in_progress m 1 100 _ _ _ (3355443 / 33554432) hne (by decide) hp0 s4
    (by norm_num)]
  rw [runMusic_cons_in_progress m 1 100 _ _ _ (8053063 / 67108864) hne (by decide) hp0 s5
    (by norm_num)]
  rw [runMusic_cons_in_progress m 1 100 _ _ _ (1174405 / 8388608) hne (by decide) hp0 s6
    (by norm_num)]
  rw [runMusic_cons_in_progress m 1 100 _ _ _ (10737417 / 67108864) hne (by decide) hp0 s7
    (by norm_num)]
  rw [runMusic_cons_in_progress m 1 100 _ _ _ (6039797 / 33554432) hne (by decide) hp0 s8
    (by norm_num)]
  rw [runMusic_cons_in_progress m 1 100 _ _ _ (13421771 / 67108864) hne (by decide) hp0 s9
    (by norm_num)]
  rw [runMusic_cons_in_progress m 1 100 _ _ _ (3690987 / 16777216) hne (by decide) hp0 s10
    (by norm_num)]
  rw [runMusic_cons_in_progress m 1 100 _ _ _ (16106125 / 67108864) hne (by decide) hp0 s11
    (by norm_num)]
  rw [runMusic_cons_in_progress m 1 100 _ _ _ (8724151 / 33554432) hne (by decide) hp0 s12
    (by norm_num)]
  rw [runMusic_cons_in_progress m 1 100 _ _ _ (1174405 / 4194304) hne (by decide) hp0 s13
    (by norm_num)]
  rw [runMusic_cons_in_progress m 1 100 _ _ _ (10066329 / 33554432) hne (by decide) hp0 s14
    (by norm_num)]
  rw [runMusic_cons_in_progress m 1 100 _ _ _ (5368709 / 16777216) hne (by decide) hp0 s15
    (by norm_num)]
  rw [runMusic_cons_in_progress m 1 100 _ _ _ (11408507 / 33554432) hne (by decide) hp0 s16
    (by norm_num)]
  rw [runMusic_cons_in_progress m 1 100 _ _ _ (3019899 / 8388608) hne (by decide) hp0 s17
    (by norm_num)]
  rw [runMusic_cons_in_progress m 1 100 _ _ _ (12750685 / 33554432) hne (by decide) hp0 s18
    (by norm_num)]
  rw [runMusic_cons_in_progress m 1 100 _ _ _ (6710887 / 16777216) hne (by decide) hp0 s19
    (by norm_num)]
  rw [runMusic_cons_in_progress m 1 100 _ _ _ (14092863 / 33554432) hne (by decide) hp0 s20
    (by norm_num)]
  rw [runMusic_cons_in_progress m 1 100 _ _ _ (922747 / 2097152) hne (by decide) hp0 s21
    (by norm_num)]
  rw [runMusic_cons_in_progress m 1 100 _ _ _ (15435041 / 33554432) hne (by decide) hp0 s22
    (by norm_num)]
  rw [runMusic_cons_in_progress m 1 100 _ _ _ (8053065 / 16777216) hne (by decide) hp0 s23
    (by norm_num)]
  rw [runMusic_cons_in_progress m 1 100 _ _ _ (8388609 / 16777216) hne (by decide) hp0 s24
    (by norm_num)]
  rw [runMusic_cons_in_progress m 1 100 _ _ _ (8724153 / 16777216) hne (by decide) hp0 s25
    (by norm_num)]
  rw [runMusic_cons_in_progress m 1 100 _ _ _ (9059697 / 16777216) hne (by decide) hp0 s26
    (by norm_num)]
  rw [runMusic_cons_in_progress m 1 100 _ _ _ (9395241 / 16777216) hne (by decide) hp0 s27
    (by norm_num)]
  rw [runMusic_cons_in_progress m 1 100 _ _ _ (9730785 / 16777216) hne (by decide) hp0 s28
    (by norm_num)]
  rw [runMusic_cons_in_progress m 1 100 _ _ _ (10066329 / 16777216) hne (by decide) hp0 s29
    (by norm_num)]
  rw [runMusic_cons_in_progress m 1 100 _ _ _ (10401873 / 16777216) hne (by decide) hp0 s30
    (by norm_num)]
  rw [runMusic_cons_in_progress m 1 100 _ _ _ (10737417 / 16777216) hne (by decide) hp0 s31
    (by norm_num)]
  rw [runMusic_cons_in_progress m 1 100 _ _ _ (11072961 / 16777216) hne (by decide) hp0 s32
    (by norm_num)]
  rw [runMusic_cons_in_progress m 1 100 _ _ _ (11408505 / 16777216) hne (by decide) hp0 s33
    (by norm_num)]
  rw [runMusic_cons_in_progress m 1 100 _ _ _ (11744049 / 16777216) hne (by decide) hp0 s34
    (by norm_num)]
  rw [runMusic_cons_in_progress m 1 100 _ _ _ (12079593 / 16777216) hne (by decide) hp0 s35
    (by norm_num)]
  rw [runMusic_cons_in_progress m 1 100 _ _ _ (12415137 / 16777216) hne (by decide) hp0 s36
    (by norm_num)]
  rw [runMusic_cons_in_progress m 1 100 _ _ _ (12750681 / 16777216) hne (by decide) hp0 s37
    (by norm_num)]
  rw [runMusic_cons_in_progress m 1 100 _ _ _ (13086225 / 16777216) hne (by decide) hp0 s38
    (by norm_num)]
  rw [runMusic_cons_in_progress m 1 100 _ _ _ (13421769 / 16777216) hne (by decide) hp0 s39
    (by norm_num)]
  rw [runMusic_cons_in_progress m 1 100 _ _ _ (13757313 / 16777216) hne (by decide) hp0 s40
    (by norm_num)]
  rw [runMusic_cons_in_progress m 1 100 _ _ _ (14092857 / 16777216) hne (by decide) hp0 s41
    (by norm_num)]
  rw [runMusic_cons_in_progress m 1 100 _ _ _ (14428401 / 16777216) hne (by decide) hp0 s42
    (by norm_num)]
  rw [runMusic_cons_in_progress m 1 100 _ _ _ (14763945 / 16777216) hne (by decide) hp0 s43
    (by norm_num)]
  rw [runMusic_cons_in_progress m 1 100 _ _ _ (15099489 / 16777216) hne (by decide) hp0 s44
    (by norm_num)]
  rw [runMusic_cons_in_progress m 1 100 _ _ _ (15435033 / 16777216) hne (by decide) hp0 s45
    (by norm_num)]
  rw [runMusic_cons_in_progress m 1 100 _ _ _ (15770577 / 16777216) hne (by decide) hp0 s46
    (by norm_num)]
  rw [runMusic_cons_in_progress m 1 100 _ _ _ (16106121 / 16777216) hne (by decide) hp0 s47
    (by norm_num)]
  rw [runMusic_cons_in_progress m 1 100 _ _ _ (16441665 / 16777216) hne (by decide) hp0 s48
    (by norm_num)]
  rw [runMusic_cons_in_progress m 1 100 _ _ _ (16777209 / 16777216) hne (by decide) hp0 s49
    (by norm_num)]
  rfl

/-- Twenty-five frames of 100 ms with the lap at 2 do not complete a cross-fade
that stands at `percent = 0.5`: the `float` sums leave
`percent = 2097151 / 2 ^ 21`, about 0.9999995. -/
theorem runMusic_twenty_five_frames (m : Music) (hprev : m.previous_lap = 0)
    (hpercent : m.percent = 1 / 2) :
    runMusic (some 2) (List.replicate 25 100) m =
      some { m.crossfade 2 (2097151 / 2097152) with percent := 2097151 / 2097152 } := by
  have hne : (2 : Int) ≠ m.previous_lap := by omega
  have hp0 : (0 : Int) ≤ m.previous_lap := by omega
  obtain ⟨d16, d17, d100, d1000, d1500, d2500⟩ := UpdateMusic_delta_values
  have s0 : UpdateMusic_percent (1 / 2) 100 = 1090519 / 2097152 := by
    rw [UpdateMusic_percent, d100, float32_eq _ (-1) 8724152 (by norm_num)
      (by norm_num [abs_of_pos]) (by norm_num [abs_of_pos]) (by norm_num) (by norm_num)]
    norm_num
  have s1 : UpdateMusic_percent (1090519 / 2097152) 100 = 566231 / 1048576 := by
    rw [UpdateMusic_percent, d100, float32_eq _ (-1) 9059696 (by norm_num)
      (by norm_num [abs_of_pos]) (by norm_num [abs_of_pos]) (by norm_num) (by norm_num)]
    norm_num
  have s2 : UpdateMusic_percent (566231 / 1048576) 100 = 1174405 / 2097152 := by
    rw [UpdateMusic_percent, d100, float32_eq _ (-1) 9395240 (by norm_num)
      (by norm_num [abs_of_pos]) (by norm_num [abs_of_pos]) (by norm_num) (by norm_num)]
    norm_num
  have s3 : UpdateMusic_percent (1174405 / 2097152) 100 = 304087 / 524288 := by
    rw [UpdateMusic_percent, d100, float32_eq _ (-1) 9730784 (by norm_num)
      (by norm_num [abs_of_pos]) (by norm_num [abs_of_pos]) (by norm_num) (by norm_num)]
    norm_num
  have s4 : UpdateMusic_percent (304087 / 524288) 100 = 1258291 / 2097152 := by
    rw [UpdateMusic_percent, d100, float32_eq _ (-1) 10066328 (by norm_num)
      (by norm_num [abs_of_pos]) (by norm_num [abs_of_pos]) (by norm_num) (by norm_num)]
    norm_num
  have s5 : UpdateMusic_percent (1258291 / 2097152) 100 = 650117 / 1048576 := by
    rw [UpdateMusic_percent, d100, float32_eq _ (-1) 10401872 (by norm_num)
      (by norm_num [abs_of_pos]) (by norm_num [abs_of_pos]) (by norm_num) (by norm_num)]
    norm_num
  have s6 : UpdateMusic_percent (650117 / 1048576) 100 = 1342177 / 2097152 := by
    rw [UpdateMusic_percent, d100, float32_eq _ (-1) 10737416 (by norm_num)
      (by norm_num [abs_of_pos]) (by norm_num [abs_of_pos]) (by norm_num) (by norm_num)]
    norm_num
  have s7 : UpdateMusic_percent (1342177 / 2097152) 100 = 173015 / 262144 := by
    rw [UpdateMusic_percent, d100, float32_eq _ (-1) 11072960 (by norm_num)
      (by norm_num [abs_of_pos]) (by norm_num [abs_of_pos]) (by norm_num) (by norm_num)]
    norm_num
  have s8 : UpdateMusic_percent (173015 / 262144) 100 = 1426063 / 2097152 := by
    rw [UpdateMusic_percent, d100, float32_eq _ (-1) 11408504 (by norm_num)
      (by norm_num [abs_of_pos]) (by norm_num [abs_of_pos]) (by norm_num) (by norm_num)]
    norm_num
  have s9 : UpdateMusic_percent (1426063 / 2097152) 100 = 734003 / 1048576 := by
    rw [UpdateMusic_percent, d100, float32_eq _ (-1) 11744048 (by norm_num)
      (by norm_num [abs_of_pos]) (by norm_num [abs_of_pos]) (by norm_num) (by norm_num)]
    norm_num
  have s10 : UpdateMusic_percent (734003 / 1048576) 100 = 1509949 / 2097152 := by
    rw [UpdateMusic_percent, d100, float32_eq _ (-1) 12079592 (by norm_num)
      (by norm_num [abs_of_pos]) (by norm_num [abs_of_pos]) (by norm_num) (by norm_num)]
    norm_num
  have s11 : UpdateMusic_percent (1509949 / 2097152) 100 = 387973 / 524288 := by
    rw [UpdateMusic_percent, d100, float32_eq _ (-1) 12415136 (by norm_num)
      (by norm_num [abs_of_pos]) (by norm_num [abs_of_pos]) (by norm_num) (by norm_num)]
    norm_num
  have s12 : UpdateMusic_percent (387973 / 524288) 100 = 1593835 / 2097152 := by
    rw [UpdateMusic_percent, d100, float32_eq _ (-1) 12750680 (by norm_num)
      (by norm_num [abs_of_pos]) (by norm_num [abs_of_pos]) (by norm_num) (by norm_num)]
    norm_num
  have s13 : UpdateMusic_percent (1593835 / 2097152) 100 = 817889 / 1048576 := by
    rw [UpdateMusic_percent, d100, float32_eq _ (-1) 13086224 (by norm_num)
      (by norm_num [abs_of_pos]) (by norm_num [abs_of_pos]) (by norm_num) (by norm_num)]
    norm_num
  have s14 : UpdateMusic_percent (817889 / 1048576) 100 = 1677721 / 2097152 := by
    rw [UpdateMusic_percent, d100, float32_eq _ (-1) 13421768 (by norm_num)
      (by norm_num [abs_of_pos]) (by norm_num [abs_of_pos]) (by norm_num) (by norm_num)]
    norm_num
  have s15 : UpdateMusic_percent (1677721 / 2097152) 100 = 107479 / 131072 := by
    rw [UpdateMusic_percent, d100, float32_eq _ (-1) 13757312 (by norm_num)
      (by norm_num [abs_of_pos]) (by norm_num [abs_of_pos]) (by norm_num) (by norm_num)]
    norm_num
  have s16 : UpdateMusic_percent (107479 / 131072) 100 = 1761607 / 2097152 := by
    rw [UpdateMusic_percent, d100, float32_eq _ (-1) 14092856 (by norm_num)
      (by norm_num [abs_of_pos]) (by norm_num [abs_of_pos]) (by norm_num) (by norm_num)]
    norm_num
  have s17 : UpdateMusic_percent (1761607 / 2097152) 100 = 901775 / 1048576 := by
    rw [UpdateMusic_percent, d100, float32_eq _ (-1) 14428400 (by norm_num)
      (by norm_num [abs_of_pos]) (by norm_num [abs_of_pos]) (by norm_num) (by norm_num)]
    norm_num
  have s18 : UpdateMusic_percent (901775 / 1048576) 100 = 1845493 / 2097152 := by
    rw [UpdateMusic_percent, d100, float32_eq _ (-1) 14763944 (by norm_num)
      (by norm_num [abs_of_pos]) (by norm_num [abs_of_pos]) (by norm_num) (by norm_num)]
    norm_num
  have s19 : UpdateMusic_percent (1845493 / 2097152) 100 = 471859 / 524288 := by
    rw [UpdateMusic_percent, d100, float32_eq _ (-1) 15099488 (by norm_num)
      (by norm_num [abs_of_pos]) (by norm_num [abs_of_pos]) (by norm_num) (by norm_num)]
    norm_num
  have s20 : UpdateMusic_percent (471859 / 524288) 100 = 1929379 / 2097152 := by
    rw [UpdateMusic_percent, d100, float32_eq _ (-1) 15435032 (by norm_num)
      (by norm_num [abs_of_pos]) (by norm_num [abs_of_pos]) (by norm_num) (by norm_num)]
    norm_num
  have s21 : UpdateMusic_percent (1929379 / 2097152) 100 = 985661 / 1048576 := by
    rw [UpdateMusic_percent, d100, float32_eq _ (-1) 15770576 (by norm_num)
      (by norm_num [abs_of_pos]) (by norm_num [abs_of_pos]) (by norm_num) (by norm_num)]
    norm_num
  have s22 : UpdateMusic_percent (985661 / 1048576) 100 = 2013265 / 2097152 := by
    rw [UpdateMusic_percent, d100, float32_eq _ (-1) 16106120 (by norm_num)
      (by norm_num [abs_of_pos]) (by norm_num [abs_of_pos]) (by norm_num) (by norm_num)]
    norm_num
  have s23 : UpdateMusic_percent (2013265 / 2097152) 100 = 256901 / 262144 := by
    rw [UpdateMusic_percent, d100, float32_eq _ (-1) 16441664 (by norm_num)
      (by norm_num [abs_of_pos]) (by norm_num [abs_of_pos]) (by norm_num) (by norm_num)]
    norm_num
  have s24 : UpdateMusic_percent (256901 / 262144) 100 = 2097151 / 2097152 := by
    rw [UpdateMusic_percent, d100, float32_eq _ (-1) 16777208 (by norm_num)
      (by norm_num [abs_of_pos]) (by norm_num [abs_of_pos]) (by norm_num) (by norm_num)]
    norm_num
  show runMusic (some 2) [100, 100, 100, 100, 100, 100, 100, 100, 100, 100, 100, 100, 100, 100, 100, 100, 100, 100, 100, 100, 100, 100, 100, 100, 100] m = _
  rw [runMusic_cons_first m 2 100 _ (1090519 / 2097152) hne (by decide) hp0
    (by rw [hpercent]; exact s0) (by norm_num)]
  rw [runMusic_cons_in_progress m 2 100 _ _ _ (566231 / 1048576) hne (by decide) hp0 s1
    (by norm_num)]
  rw [runMusic_cons_in_progress m 2 100 _ _ _ (1174405 / 2097152) hne (by decide) hp0 s2
    (by norm_num)]
  rw [runMusic_cons_in_progress m 2 100 _ _ _ (304087 / 524288) hne (by decide) hp0 s3
    (by norm_num)]
  rw [runMusic_cons_in_progress m 2 100 _ _ _ (1258291 / 2097152) hne (by decide) hp0 s4
    (by norm_num)]
  rw [runMusic_cons_in_progress m 2 100 _ _ _ (650117 / 1048576) hne (by decide) hp0 s5
    (by norm_num)]
  rw [runMusic_cons_in_progress m 2 100 _ _ _ (1342177 / 2097152) hne (by decide) hp0 s6
    (by norm_num)]
  rw [runMusic_cons_in_progress m 2 100 _ _ _ (173015 / 262144) hne (by decide) hp0 s7
    (by norm_num)]
  rw [runMusic_cons_in_progress m 2 100 _ _ _ (1426063 / 2097152) hne (by decide) hp0 s8
    (by norm_num)]
  rw [runMusic_cons_in_progress m 2 100 _ _ _ (734003 / 1048576) hne (by decide) hp0 s9
    (by norm_num)]
  rw [runMusic_cons_in_progress m 2 100 _ _ _ (1509949 / 2097152) hne (by decide) hp0 s10
    (by norm_num)]
  rw [runMusic_cons_in_progress m 2 100 _ _ _ (387973 / 524288) hne (by decide) hp0 s11
    (by norm_num)]
  rw [runMusic_cons_in_progress m 2 100 _ _ _ (1593835 / 2097152) hne (by decide) hp0 s12
    (by norm_num)]
  rw [runMusic_cons_in_progress m 2 100 _ _ _ (817889 / 1048576) hne (by decide) hp0 s13
    (by norm_num)]
  rw [runMusic_cons_in_progress m 2 100 _ _ _ (1677721 / 2097152) hne (by decide) hp0 s14
    (by norm_num)]
  rw [runMusic_cons_in_progress m 2 100 _ _ _ (107479 / 131072) hne (by decide) hp0 s15
    (by norm_num)]
  rw [runMusic_cons_in_progress m 2 100 _ _ _ (1761607 / 2097152) hne (by decide) hp0 s16
    (by norm_num)]
  rw [runMusic_cons_in_progress m 2 100 _ _ _ (901775 / 1048576) hne (by decide) hp0 s17
    (by norm_num)]
  rw [runMusic_cons_in_progress m 2 100 _ _ _ (1845493 / 2097152) hne (by decide) hp0 s18
    (by norm_num)]
  rw [runMusic_cons_in_progress m 2 100 _ _ _ (471859 / 524288) hne (by decide) hp0 s19
    (by norm_num)]
  rw [runMusic_cons_in_progress m 2 100 _ _ _ (1929379 / 2097152) hne (by decide) hp0 s20
    (by norm_num)]
  rw [runMusic_cons_in_progress m 2 100 _ _ _ (985661 / 1048576) hne (by decide) hp0 s21
    (by norm_num)]
  rw [runMusic_cons_in_progress m 2 100 _ _ _ (2013265 / 2097152) hne (by decide) hp0 s22
    (by norm_num)]
  rw [runMusic_cons_in_progress m 2 100 _ _ _ (256901 / 262144) hne (by decide) hp0 s23
    (by norm_num)]
  rw [runMusic_cons_in_progress m 2 100 _ _ _ (2097151 / 2097152) hne (by decide) hp0 s24
    (by norm_num)]
  rfl

/-- Forty frames of 17 ms and twenty of 16 ms, 1000 ms in all, with the lap at 1
carry a cross-fade begun at `percent = 0` to `percent = 3355441 / 2 ^ 24`, about
0.19999987. -/
theorem runMusic_sixty_frames (m : Music) (hprev : m.previous_lap = 0)
    (hpercent : m.percent = 0) :
    runMusic (some 1) (List.replicate 40 17 ++ List.replicate 20 16) m =
      some { m.crossfade 1 (3355441 / 16777216) with percent := 3355441 / 16777216 } := by
  have hne : (1 : Int) ≠ m.previous_lap := by omega
  have hp0 : (0 : Int) ≤ m.previous_lap := by omega
  obtain ⟨d16, d17, d100, d1000, d1500, d2500⟩ := UpdateMusic_delta_values
  have s0 : UpdateMusic_percent (0) 17 = 7301445 / 2147483648 := by
    rw [UpdateMusic_percent, d17, float32_eq _ (-9) 14602890 (by norm_num)
      (by norm_num [abs_of_pos]) (by norm_num [abs_of_pos]) (by norm_num) (by norm_num)]
    norm_num
  have s1 : UpdateMusic_percent (7301445 / 2147483648) 17 = 7301445 / 1073741824 := by
    rw [UpdateMusic_percent, d17, float32_eq _ (-8) 14602890 (by norm_num)
      (by norm_num [abs_of_pos]) (by norm_num [abs_of_pos]) (by norm_num) (by norm_num)]
    norm_num
  have s2 : UpdateMusic_percent (7301445 / 1073741824) 17 = 1369021 / 134217728 := by
    rw [UpdateMusic_percent, d17, float32_eq_tie _ (-7) 10952168 (by norm_num)
      (by norm_num [abs_of_pos]) (by norm_num [abs_of_pos]) (Or.inr (by norm_num))
      (by norm_num)]
    norm_num
  have s3 : UpdateMusic_percent (1369021 / 134217728) 17 = 7301445 / 536870912 := by
    rw [UpdateMusic_percent, d17, float32_eq_tie _ (-7) 14602890 (by norm_num)
      (by norm_num [abs_of_pos]) (by norm_num [abs_of_pos]) (Or.inl (by norm_num))
      (by norm_num)]
    norm_num
  have s4 : UpdateMusic_percent (7301445 / 536870912) 17 = 4563403 / 268435456 := by
    rw [UpdateMusic_percent, d17, float32_eq _ (-6) 9126806 (by norm_num)
      (by norm_num [abs_of_pos]) (by norm_num [abs_of_pos]) (by norm_num) (by norm_num)]
    norm_num
  have s5 : UpdateMusic_percent (4563403 / 268435456) 17 = 10952167 / 536870912 := by
    rw [UpdateMusic_percent, d17, float32_eq _ (-6) 10952167 (by norm_num)
      (by norm_num [abs_of_pos]) (by norm_num [abs_of_pos]) (by norm_num) (by norm_num)]
    norm_num
  have s6 : UpdateMusic_percent (10952167 / 536870912) 17 = 1597191 / 67108864 := by
    rw [UpdateMusic_percent, d17, float32_eq _ (-6) 12777528 (by norm_num)
      (by norm_num [abs_of_pos]) (by norm_num [abs_of_pos]) (by norm_num) (by norm_num)]
    norm_num
  have s7 : UpdateMusic_percent (1597191 / 67108864) 17 = 14602889 / 536870912 := by
    rw [UpdateMusic_percent, d17, float32_eq _ (-6) 14602889 (by norm_num)
      (by norm_num [abs_of_pos]) (by norm_num [abs_of_pos]) (by norm_num) (by norm_num)]
    norm_num
  have s8 : UpdateMusic_percent (14602889 / 536870912) 17 = 8214125 / 268435456 := by
    rw [UpdateMusic_percent, d17, float32_eq _ (-6) 16428250 (by norm_num)
      (by norm_num [abs_of_pos]) (by norm_num [abs_of_pos]) (by norm_num) (by norm_num)]
    norm_num
  have s9 : UpdateMusic_percent (8214125 / 268435456) 17 = 4563403 / 134217728 := by
    rw [UpdateMusic_percent, d17, float32_eq _ (-5) 9126806 (by norm_num)
      (by norm_num [abs_of_pos]) (by norm_num [abs_of_pos]) (by norm_num) (by norm_num)]
    norm_num
  have s10 : UpdateMusic_percent (4563403 / 134217728) 17 = 10039487 / 268435456 := by
    rw [UpdateMusic_percent, d17, float32_eq _ (-5) 10039487 (by norm_num)
      (by norm_num [abs_of_pos]) (by norm_num [abs_of_pos]) (by norm_num) (by norm_num)]
    norm_num
  have s11 : UpdateMusic_percent (10039487 / 268435456) 17 = 1369021 / 33554432 := by
    rw [UpdateMusic_percent, d17, float32_eq _ (-5) 10952168 (by norm_num)
      (by norm_num [abs_of_pos]) (by norm_num [abs_of_pos]) (by norm_num) (by norm_num)]
    norm_num
  have s12 : UpdateMusic_percent (1369021 / 33554432) 17 = 11864849 / 268435456 := by
    rw [UpdateMusic_percent, d17, float32_eq _ (-5) 11864849 (by norm_num)
      (by norm_num [abs_of_pos]) (by norm_num [abs_of_pos]) (by norm_num) (by norm_num)]
    norm_num
  have s13 : UpdateMusic_percent (11864849 / 268435456) 17 = 6388765 / 134217728 := by
    rw [UpdateMusic_percent, d17, float32_eq _ (-5) 12777530 (by norm_num)
      (by norm_num [abs_of_pos]) (by norm_num [abs_of_pos]) (by norm_num) (by norm_num)]
    norm_num
  have s14 : UpdateMusic_percent (6388765 / 134217728) 17 = 13690211 / 268435456 := by
    rw [UpdateMusic_percent, d17, float32_eq _ (-5) 13690211 (by norm_num)
      (by norm_num [abs_of_pos]) (by norm_num [abs_of_pos]) (by norm_num) (by norm_num)]
    norm_num
  have s15 : UpdateMusic_percent (13690211 / 268435456) 17 = 3650723 / 67108864 := by
    rw [UpdateMusic_percent, d17, float32_eq _ (-5) 14602892 (by norm_num)
      (by norm_num [abs_of_pos]) (by norm_num [abs_of_pos]) (by norm_num) (by norm_num)]
    norm_num
  have s16 : UpdateMusic_percent (3650723 / 67108864) 17 = 15515573 / 268435456 := by
    rw [UpdateMusic_percent, d17, float32_eq _ (-5) 15515573 (by norm_num)
      (by norm_num [abs_of_pos]) (by norm_num [abs_of_pos]) (by norm_num) (by norm_num)]
    norm_num
  have s17 : UpdateMusic_percent (15515573 / 268435456) 17 = 8214127 / 134217728 := by
    rw [UpdateMusic_percent, d17, float32_eq _ (-5) 16428254 (by norm_num)
      (by norm_num [abs_of_pos]) (by norm_num [abs_of_pos]) (by norm_num) (by norm_num)]
    norm_num
  have s18 : UpdateMusic_percent (8214127 / 134217728) 17 = 8670467 / 134217728 := by
    rw [UpdateMusic_percent, d17, float32_eq _ (-4) 8670467 (by norm_num)
      (by norm_num [abs_of_pos]) (by norm_num [abs_of_pos]) (by norm_num) (by norm_num)]
    norm_num
  have s19 : UpdateMusic_percent (8670467 / 134217728) 17 = 9126807 / 134217728 := by
    rw [UpdateMusic_percent, d17, float32_eq _ (-4) 9126807 (by norm_num)
      (by norm_num [abs_of_pos]) (by norm_num [abs_of_pos]) (by norm_num) (by norm_num)]
    norm_num
  have s20 : UpdateMusic_percent (9126807 / 134217728) 17 = 9583147 / 134217728 := by
    rw [UpdateMusic_percent, d17, float32_eq _ (-4) 9583147 (by norm_num)
      (by norm_num [abs_of_pos]) (by norm_num [abs_of_pos]) (by norm_num) (by norm_num)]
    norm_num
  have s21 : UpdateMusic_percent (9583147 / 134217728) 17 = 10039487 / 134217728 := by
    rw [UpdateMusic_percent, d17, float32_eq _ (-4) 10039487 (by norm_num)
      (by norm_num [abs_of_pos]) (by norm_num [abs_of_pos]) (by norm_num) (by norm_num)]
    norm_num
  have s22 : UpdateMusic_percent (10039487 / 134217728) 17 = 10495827 / 134217728 := by
    rw [UpdateMusic_percent, d17, float32_eq _ (-4) 10495827 (by norm_num)
      (by norm_num [abs_of_pos]) (by norm_num [abs_of_pos]) (by norm_num) (by norm_num)]
    norm_num
  have s23 : UpdateMusic_percent (10495827 / 134217728) 17 = 10952167 / 134217728 := by
    rw [UpdateMusic_percent, d17, float32_eq _ (-4) 10952167 (by norm_num)
      (by norm_num [abs_of_pos]) (by norm_num [abs_of_pos]) (by norm_num) (by norm_num)]
    norm_num
  have s24 : UpdateMusic_percent (10952167 / 134217728) 17 = 11408507 / 134217728 := by
    rw [UpdateMusic_percent, d17, float32_eq _ (-4) 11408507 (by norm_num)
      (by norm_num [abs_of_pos]) (by norm_num [abs_of_pos]) (by norm_num) (by norm_num)]
    norm_num
  have s25 : UpdateMusic_percent (11408507 / 134217728) 17 = 11864847 / 134217728 := by
    rw [UpdateMusic_percent, d17, float32_eq _ (-4) 11864847 (by norm_num)
      (by norm_num [abs_of_pos]) (by norm_num [abs_of_pos]) (by norm_num) (by norm_num)]
    norm_num
  have s26 : UpdateMusic_percent (11864847 / 134217728) 17 = 12321187 / 134217728 := by
    rw [UpdateMusic_percent, d17, float32_eq _ (-4) 12321187 (by norm_num)
      (by norm_num [abs_of_pos]) (by norm_num [abs_of_pos]) (by norm_num) (by norm_num)]
    norm_num
  have s27 : UpdateMusic_percent (12321187 / 134217728) 17 = 12777527 / 134217728 := by
    rw [UpdateMusic_percent, d17, float32_eq _ (-4) 12777527 (by norm_num)
      (by norm_num [abs_of_pos]) (by norm_num [abs_of_pos]) (by norm_num) (by norm_num)]
    norm_num
  have s28 : UpdateMusic_percent (12777527 / 134217728) 17 = 13233867 / 134217728 := by
    rw [UpdateMusic_percent, d17, float32_eq _ (-4) 13233867 (by norm_num)
      (by norm_num [abs_of_pos]) (by norm_num [abs_of_pos]) (by norm_num) (by norm_num)]
    norm_num
  have s29 : UpdateMusic_percent (13233867 / 134217728) 17 = 13690207 / 134217728 := by
    rw [UpdateMusic_percent, d17, float32_eq _ (-4) 13690207 (by norm_num)
      (by norm_num [abs_of_pos]) (by norm_num [abs_of_pos]) (by norm_num) (by norm_num)]
    norm_num
  have s30 : UpdateMusic_percent (13690207 / 134217728) 17 = 14146547 / 134217728 := by
    rw [UpdateMusic_percent, d17, float32_eq _ (-4) 14146547 (by norm_num)
      (by norm_num [abs_of_pos]) (by norm_num [abs_of_pos]) (by norm_num) (by norm_num)]
    norm_num
  have s31 : UpdateMusic_percent (14146547 / 134217728) 17 = 14602887 / 134217728 := by
    rw [UpdateMusic_percent, d17, float32_eq _ (-4) 14602887 (by norm_num)
      (by norm_num [abs_of_pos]) (by norm_num [abs_of_pos]) (by norm_num) (by norm_num)]
    norm_num
  have s32 : UpdateMusic_percent (14602887 / 134217728) 17 = 15059227 / 134217728 := by
    rw [UpdateMusic_percent, d17, float32_eq _ (-4) 15059227 (by norm_num)
      (by norm_num [abs_of_pos]) (by norm_num [abs_of_pos]) (by norm_num) (by norm_num)]
    norm_num
  have s33 : UpdateMusic_percent (15059227 / 134217728) 17 = 15515567 / 134217728 := by
    rw [UpdateMusic_percent, d17, float32_eq _ (-4) 15515567 (by norm_num)
      (by norm_num [abs_of_pos]) (by norm_num [abs_of_pos]) (by norm_num) (by norm_num)]
    norm_num
  have s34 : UpdateMusic_percent (15515567 / 134217728) 17 = 15971907 / 134217728 := by
    rw [UpdateMusic_percent, d17, float32_eq _ (-4) 15971907 (by norm_num)
      (by norm_num [abs_of_pos]) (by norm_num [abs_of_pos]) (by norm_num) (by norm_num)]
    norm_num
  have s35 : UpdateMusic_percent (15971907 / 134217728) 17 = 16428247 / 134217728 := by
    rw [UpdateMusic_percent, d17, float32_eq _ (-4) 16428247 (by norm_num)
      (by norm_num [abs_of_pos]) (by norm_num [abs_of_pos]) (by norm_num) (by norm_num)]
    norm_num
  have s36 : UpdateMusic_percent (16428247 / 134217728) 17 = 4221147 / 33554432 := by
    rw [UpdateMusic_percent, d17, float32_eq _ (-3) 8442294 (by norm_num)
      (by norm_num [abs_of_pos]) (by norm_num [abs_of_pos]) (by norm_num) (by norm_num)]
    norm_num
  have s37 : UpdateMusic_percent (4221147 / 33554432) 17 = 33869 / 262144 := by
    rw [UpdateMusic_percent, d17, float32_eq _ (-3) 8670464 (by norm_num)
      (by norm_num [abs_of_pos]) (by norm_num [abs_of_pos]) (by norm_num) (by norm_num)]
    norm_num
  have s38 : UpdateMusic_percent (33869 / 262144) 17 = 4449317 / 33554432 := by
    rw [UpdateMusic_percent, d17, float32_eq _ (-3) 8898634 (by norm_num)
      (by norm_num [abs_of_pos]) (by norm_num [abs_of_pos]) (by norm_num) (by norm_num)]
    norm_num
  have s39 : UpdateMusic_percent (4449317 / 33554432) 17 = 2281701 / 16777216 := by
    rw [UpdateMusic_percent, d17, float32_eq _ (-3) 9126804 (by norm_num)
      (by norm_num [abs_of_pos]) (by norm_num [abs_of_pos]) (by norm_num) (by norm_num)]
    norm_num
  have s40 : UpdateMusic_percent (2281701 / 16777216) 16 = 583847 / 4194304 := by
    rw [UpdateMusic_percent, d16, float32_eq _ (-3) 9341552 (by norm_num)
      (by norm_num [abs_of_pos]) (by norm_num [abs_of_pos]) (by norm_num) (by norm_num)]
    norm_num
  have s41 : UpdateMusic_percent (583847 / 4194304) 16 = 2389075 / 16777216 := by
    rw [UpdateMusic_percent, d16, float32_eq _ (-3) 9556300 (by norm_num)
      (by norm_num [abs_of_pos]) (by norm_num [abs_of_pos]) (by norm_num) (by norm_num)]
    norm_num
  have s42 : UpdateMusic_percent (2389075 / 16777216) 16 = 1221381 / 8388608 := by
    rw [UpdateMusic_percent, d16, float32_eq _ (-3) 9771048 (by norm_num)
      (by norm_num [abs_of_pos]) (by norm_num [abs_of_pos]) (by norm_num) (by norm_num)]
    norm_num
  have s43 : UpdateMusic_percent (1221381 / 8388608) 16 = 2496449 / 16777216 := by
    rw [UpdateMusic_percent, d16, float32_eq _ (-3) 9985796 (by norm_num)
      (by norm_num [abs_of_pos]) (by norm_num [abs_of_pos]) (by norm_num) (by norm_num)]
    norm_num
  have s44 : UpdateMusic_percent (2496449 / 16777216) 16 = 318767 / 2097152 := by
    rw [UpdateMusic_percent, d16, float32_eq _ (-3) 10200544 (by norm_num)
      (by norm_num [abs_of_pos]) (by norm_num [abs_of_pos]) (by norm_num) (by norm_num)]
    norm_num
  have s45 : UpdateMusic_percent (318767 / 2097152) 16 = 2603823 / 16777216 := by
    rw [UpdateMusic_percent, d16, float32_eq _ (-3) 10415292 (by norm_num)
      (by norm_num [abs_of_pos]) (by norm_num [abs_of_pos]) (by norm_num) (by norm_num)]
    norm_num
  have s46 : UpdateMusic_percent (2603823 / 16777216) 16 = 1328755 / 8388608 := by
    rw [UpdateMusic_percent, d16, float32_eq _ (-3) 10630040 (by norm_num)
      (by norm_num [abs_of_pos]) (by norm_num [abs_of_pos]) (by norm_num) (by norm_num)]
    norm_num
  have s47 : UpdateMusic_percent (1328755 / 8388608) 16 = 2711197 / 16777216 := by
    rw [UpdateMusic_percent, d16, float32_eq _ (-3) 10844788 (by norm_num)
      (by norm_num [abs_of_pos]) (by norm_num [abs_of_pos]) (by norm_num) (by norm_num)]
    norm_num
  have s48 : UpdateMusic_percent (2711197 / 16777216) 16 = 691221 / 4194304 := by
    rw [UpdateMusic_percent, d16, float32_eq _ (-3) 11059536 (by norm_num)
      (by norm_num [abs_of_pos]) (by norm_num [abs_of_pos]) (by norm_num) (by norm_num)]
    norm_num
  have s49 : UpdateMusic_percent (691221 / 4194304) 16 = 2818571 / 16777216 := by
    rw [UpdateMusic_percent, d16, float32_eq _ (-3) 11274284 (by norm_num)
      (by norm_num [abs_of_pos]) (by norm_num [abs_of_pos]) (by norm_num) (by norm_num)]
    norm_num
  have s50 : UpdateMusic_percent (2818571 / 16777216) 16 = 1436129 / 8388608 := by
    rw [UpdateMusic_percent, d16, float32_eq _ (-3) 11489032 (by norm_num)
      (by norm_num [abs_of_pos]) (by norm_num [abs_of_pos]) (by norm_num) (by norm_num)]
    norm_num
  have s51 : UpdateMusic_percent (1436129 / 8388608) 16 = 2925945 / 16777216 := by
    rw [UpdateMusic_percent, d16, float32_eq _ (-3) 11703780 (by norm_num)
      (by norm_num [abs_of_pos]) (by norm_num [abs_of_pos]) (by norm_num) (by norm_num)]
    norm_num
  have s52 : UpdateMusic_percent (2925945 / 16777216) 16 = 186227 / 1048576 := by
    rw [UpdateMusic_percent, d16, float32_eq _ (-3) 11918528 (by norm_num)
      (by norm_num [abs_of_pos]) (by norm_num [abs_of_pos]) (by norm_num) (by norm_num)]
    norm_num
  have s53 : UpdateMusic_percent (186227 / 1048576) 16 = 3033319 / 16777216 := by
    rw [UpdateMusic_percent, d16, float32_eq _ (-3) 12133276 (by norm_num)
      (by norm_num [abs_of_pos]) (by norm_num [abs_of_pos]) (by norm_num) (by norm_num)]
    norm_num
  have s54 : UpdateMusic_percent (3033319 / 16777216) 16 = 1543503 / 8388608 := by
    rw [UpdateMusic_percent, d16, float32_eq _ (-3) 12348024 (by norm_num)
      (by norm_num [abs_of_pos]) (by norm_num [abs_of_pos]) (by norm_num) (by norm_num)]
    norm_num
  have s55 : UpdateMusic_percent (1543503 / 8388608) 16 = 3140693 / 16777216 := by
    rw [UpdateMusic_percent, d16, float32_eq _ (-3) 12562772 (by norm_num)
      (by norm_num [abs_of_pos]) (by norm_num [abs_of_pos]) (by norm_num) (by norm_num)]
    norm_num
  have s56 : UpdateMusic_percent (3140693 / 16777216) 16 = 798595 / 4194304 := by
    rw [UpdateMusic_percent, d16, float32_eq _ (-3) 12777520 (by norm_num)
      (by norm_num [abs_of_pos]) (by norm_num [abs_of_pos]) (by norm_num) (by norm_num)]
    norm_num
  have s57 : UpdateMusic_percent (798595 / 4194304) 16 = 3248067 / 16777216 := by
    rw [UpdateMusic_percent, d16, float32_eq _ (-3) 12992268 (by norm_num)
      (by norm_num [abs_of_pos]) (by norm_num [abs_of_pos]) (by norm_num) (by norm_num)]
    norm_num
  have s58 : UpdateMusic_percent (3248067 / 16777216) 16 = 1650877 / 8388608 := by
    rw [UpdateMusic_percent, d16, float32_eq _ (-3) 13207016 (by norm_num)
      (by norm_num [abs_of_pos]) (by norm_num [abs_of_pos]) (by norm_num) (by norm_num)]
    norm_num
  have s59 : UpdateMusic_percent (1650877 / 8388608) 16 = 3355441 / 16777216 := by
    rw [UpdateMusic_percent, d16, float32_eq _ (-3) 13421764 (by norm_num)
      (by norm_num [abs_of_pos]) (by norm_num [abs_of_pos]) (by norm_num) (by norm_num)]
    norm_num
  show runMusic (some 1) [17, 17, 17, 17, 17, 17, 17, 17, 17, 17, 17, 17, 17, 17, 17, 17, 17, 17, 17, 17, 17, 17, 17, 17, 17, 17, 17, 17, 17, 17, 17, 17, 17, 17, 17, 17, 17, 17, 17, 17, 16, 16, 16, 16, 16, 16, 16, 16, 16, 16, 16, 16, 16, 16, 16, 16, 16, 16, 16, 16] m = _
  rw [runMusic_cons_first m 1 17 _ (7301445 / 2147483648) hne (by decide) hp0
    (by rw [hpercent]; exact s0) (by norm_num)]
  rw [runMusic_cons_in_progress m 1 17 _ _ _ (7301445 / 1073741824) hne (by decide) hp0 s1
    (by norm_num)]
  rw [runMusic_cons_in_progress m 1 17 _ _ _ (1369021 / 134217728) hne (by decide) hp0 s2
    (by norm_num)]
  rw [runMusic_cons_in_progress m 1 17 _ _ _ (7301445 / 536870912) hne (by decide) hp0 s3
    (by norm_num)]
  rw [runMusic_cons_in_progress m 1 17 _ _ _ (4563403 / 268435456) hne (by decide) hp0 s4
    (by norm_num)]
  rw [runMusic_cons_in_progress m 1 17 _ _ _ (10952167 / 536870912) hne (by decide) hp0 s5
    (by norm_num)]
  rw [runMusic_cons_in_progress m 1 17 _ _ _ (1597191 / 67108864) hne (by decide) hp0 s6
    (by norm_num)]
  rw [runMusic_cons_in_progress m 1 17 _ _ _ (14602889 / 536870912) hne (by decide) hp0 s7
    (by norm_num)]
  rw [runMusic_cons_in_progress m 1 17 _ _ _ (8214125 / 268435456) hne (by decide) hp0 s8
    (by norm_num)]
  rw [runMusic_cons_in_progress m 1 17 _ _ _ (4563403 / 134217728) hne (by decide) hp0 s9
    (by norm_num)]
  rw [runMusic_cons_in_progress m 1 17 _ _ _ (10039487 / 268435456) hne (by decide) hp0 s10
    (by norm_num)]
  rw [runMusic_cons_in_progress m 1 17 _ _ _ (1369021 / 33554432) hne (by decide) hp0 s11
    (by norm_num)]
  rw [runMusic_cons_in_progress m 1 17 _ _ _ (11864849 / 268435456) hne (by decide) hp0 s12
    (by norm_num)]
  rw [runMusic_cons_in_progress m 1 17 _ _ _ (6388765 / 134217728) hne (by decide) hp0 s13
    (by norm_num)]
  rw [runMusic_cons_in_progress m 1 17 _ _ _ (13690211 / 268435456) hne (by decide) hp0 s14
    (by norm_num)]
  rw [runMusic_cons_in_progress m 1 17 _ _ _ (3650723 / 67108864) hne (by decide) hp0 s15
    (by norm_num)]
  rw [runMusic_cons_in_progress m 1 17 _ _ _ (15515573 / 268435456) hne (by decide) hp0 s16
    (by norm_num)]
  rw [runMusic_cons_in_progress m 1 17 _ _ _ (8214127 / 134217728) hne (by decide) hp0 s17
    (by norm_num)]
  rw [runMusic_cons_in_progress m 1 17 _ _ _ (8670467 / 134217728) hne (by decide) hp0 s18
    (by norm_num)]
  rw [runMusic_cons_in_progress m 1 17 _ _ _ (9126807 / 134217728) hne (by decide) hp0 s19
    (by norm_num)]
  rw [runMusic_cons_in_progress m 1 17 _ _ _ (9583147 / 134217728) hne (by decide) hp0 s20
    (by norm_num)]
  rw [runMusic_cons_in_progress m 1 17 _ _ _ (10039487 / 134217728) hne (by decide) hp0 s21
    (by norm_num)]
  rw [runMusic_cons_in_progress m 1 17 _ _ _ (10495827 / 134217728) hne (by decide) hp0 s22
    (by norm_num)]
  rw [runMusic_cons_in_progress m 1 17 _ _ _ (10952167 / 134217728) hne (by decide) hp0 s23
    (by norm_num)]
  rw [runMusic_cons_in_progress m 1 17 _ _ _ (11408507 / 134217728) hne (by decide) hp0 s24
    (by norm_num)]
  rw [runMusic_cons_in_progress m 1 17 _ _ _ (11864847 / 134217728) hne (by decide) hp0 s25
    (by norm_num)]
  rw [runMusic_cons_in_progress m 1 17 _ _ _ (12321187 / 134217728) hne (by decide) hp0 s26
    (by norm_num)]
  rw [runMusic_cons_in_progress m 1 17 _ _ _ (12777527 / 134217728) hne (by decide) hp0 s27
    (by norm_num)]
  rw [runMusic_cons_in_progress m 1 17 _ _ _ (13233867 / 134217728) hne (by decide) hp0 s28
    (by norm_num)]
  rw [runMusic_cons_in_progress m 1 17 _ _ _ (13690207 / 134217728) hne (by decide) hp0 s29
    (by norm_num)]
  rw [runMusic_cons_in_progress m 1 17 _ _ _ (14146547 / 134217728) hne (by decide) hp0 s30
    (by norm_num)]
  rw [runMusic_cons_in_progress m 1 17 _ _ _ (14602887 / 134217728) hne (by decide) hp0 s31
    (by norm_num)]
  rw [runMusic_cons_in_progress m 1 17 _ _ _ (15059227 / 134217728) hne (by decide) hp0 s32
    (by norm_num)]
  rw [runMusic_cons_in_progress m 1 17 _ _ _ (15515567 / 134217728) hne (by decide) hp0 s33
    (by norm_num)]
  rw [runMusic_cons_in_progress m 1 17 _ _ _ (15971907 / 134217728) hne (by decide) hp0 s34
    (by norm_num)]
  rw [runMusic_cons_in_progress m 1 17 _ _ _ (16428247 / 134217728) hne (by decide) hp0 s35
    (by norm_num)]
  rw [runMusic_cons_in_progress m 1 17 _ _ _ (4221147 / 33554432) hne (by decide) hp0 s36
    (by norm_num)]
  rw [runMusic_cons_in_progress m 1 17 _ _ _ (33869 / 262144) hne (by decide) hp0 s37
    (by norm_num)]
  rw [runMusic_cons_in_progress m 1 17 _ _ _ (4449317 / 33554432) hne (by decide) hp0 s38
    (by norm_num)]
  rw [runMusic_cons_in_progress m 1 17 _ _ _ (2281701 / 16777216) hne (by decide) hp0 s39
    (by norm_num)]
  rw [runMusic_cons_in_progress m 1 16 _ _ _ (583847 / 4194304) hne (by decide) hp0 s40
    (by norm_num)]
  rw [runMusic_cons_in_progress m 1 16 _ _ _ (2389075 / 16777216) hne (by decide) hp0 s41
    (by norm_num)]
  rw [runMusic_cons_in_progress m 1 16 _ _ _ (1221381 / 8388608) hne (by decide) hp0 s42
    (by norm_num)]
  rw [runMusic_cons_in_progress m 1 16 _ _ _ (2496449 / 16777216) hne (by decide) hp0 s43
    (by norm_num)]
  rw [runMusic_cons_in_progress m 1 16 _ _ _ (318767 / 2097152) hne (by decide) hp0 s44
    (by norm_num)]
  rw [runMusic_cons_in_progress m 1 16 _ _ _ (2603823 / 16777216) hne (by decide) hp0 s45
    (by norm_num)]
  rw [runMusic_cons_in_progress m 1 16 _ _ _ (1328755 / 8388608) hne (by decide) hp0 s46
    (by norm_num)]
  rw [runMusic_cons_in_progress m 1 16 _ _ _ (2711197 / 16777216) hne (by decide) hp0 s47
    (by norm_num)]
  rw [runMusic_cons_in_progress m 1 16 _ _ _ (691221 / 4194304) hne (by decide) hp0 s48
    (by norm_num)]
  rw [runMusic_cons_in_progress m 1 16 _ _ _ (2818571 / 16777216) hne (by decide) hp0 s49
    (by norm_num)]
  rw [runMusic_cons_in_progress m 1 16 _ _ _ (1436129 / 8388608) hne (by decide) hp0 s50
    (by norm_num)]
  rw [runMusic_cons_in_progress m 1 16 _ _ _ (2925945 / 16777216) hne (by decide) hp0 s51
    (by norm_num)]
  rw [runMusic_cons_in_progress m 1 16 _ _ _ (186227 / 1048576) hne (by decide) hp0 s52
    (by norm_num)]
  rw [runMusic_cons_in_progress m 1 16 _ _ _ (3033319 / 16777216) hne (by decide) hp0 s53
    (by norm_num)]
  rw [runMusic_cons_in_progress m 1 16 _ _ _ (1543503 / 8388608) hne (by decide) hp0 s54
    (by norm_num)]
  rw [runMusic_cons_in_progress m 1 16 _ _ _ (3140693 / 16777216) hne (by decide) hp0 s55
    (by norm_num)]
  rw [runMusic_cons_in_progress m 1 16 _ _ _ (798595 / 4194304) hne (by decide) hp0 s56
    (by norm_num)]
  rw [runMusic_cons_in_progress m 1 16 _ _ _ (3248067 / 16777216) hne (by decide) hp0 s57
    (by norm_num)]
  rw [runMusic_cons_in_progress m 1 16 _ _ _ (1650877 / 8388608) hne (by decide) hp0 s58
    (by norm_num)]
  rw [runMusic_cons_in_progress m 1 16 _ _ _ (3355441 / 16777216) hne (by decide) hp0 s59
    (by norm_num)]
  rfl

/-- From `percent = 0` the sum `percent + delta` is the `delta` of the frame. -/
theorem UpdateMusic_percent_zero (delta_time : Int) :
    UpdateMusic_percent 0 delta_time = UpdateMusic_delta delta_time := by
  unfold UpdateMusic_percent
  rw [zero_add]
  exact float32_idem _

/-- The gains of the lap channels 1 and 2 after the two `SetGain` calls of a
frame of the cross-fade from lap 0 to lap 1; the channel of lap 3 is not
touched. -/
theorem crossfade_lap_one (m : Music) (q : ℚ) (hprev : m.previous_lap = 0) :
    (m.crossfade 1 q).music_channel_1.gain = Gain.cosHalfPi q ∧
    (m.crossfade 1 q).music_channel_2.gain = Gain.cosHalfPi (1 - q) ∧
    (m.crossfade 1 q).music_channel_3 = m.music_channel_3 := by
  have h0 : Int.tmod 0 3 = 0 := by decide
  have h1 : Int.tmod 1 3 = 1 := by decide
  simp [Music.crossfade, Music.withGain, Music.SetGain, Channel.SetGain, hprev, h0, h1]

/-! ## C9 -/

/-- C9: in a frame with `current_lap ≠ previous_lap` (both non-negative)
`UpdateMusic` returns, the gain it leaves on `channels[current_lap % 3]` is
`cos((1 - p) * pi / 2)` and, when the two indices differ, the gain on
`channels[previous_lap % 3]` is `cos(p * pi / 2)`, for the clamped progress
`p = min(percent + delta, 1)`, where `percent + delta` is the `float` sum the
source computes; over the reals the squares of the two gains sum to 1. -/
theorem UpdateMusic_equal_power (m : Music) (current_lap delta_time : Int)
    (hne : current_lap ≠ m.previous_lap) (hcur : 0 ≤ current_lap)
    (hprev : 0 ≤ m.previous_lap) :
    ∃ m' : Music, UpdateMusic (some current_lap) delta_time m = some m' ∧
      (m'.channels (Int.tmod current_lap 3)).map Channel.gain =
        some (Gain.cosHalfPi (1 - min (UpdateMusic_percent m.percent delta_time) 1)) ∧
      (Int.tmod m.previous_lap 3 ≠ Int.tmod current_lap 3 →
        (m'.channels (Int.tmod m.previous_lap 3)).map Channel.gain =
          some (Gain.cosHalfPi (min (UpdateMusic_percent m.percent delta_time) 1))) ∧
      (Gain.cosHalfPi (min (UpdateMusic_percent m.percent delta_time) 1)).toReal ^ 2 +
        (Gain.cosHalfPi (1 - min (UpdateMusic_percent m.percent delta_time) 1)).toReal ^ 2 =
          1 := by
  rw [UpdateMusic_changed_lap m current_lap delta_time hne hcur hprev]
  by_cases hdone : 1 ≤ UpdateMusic_percent m.percent delta_time
  · obtain ⟨g1, g2, _⟩ := crossfade_channels m current_lap 1 hcur hprev
    rw [if_pos hdone, min_eq_right hdone]
    refine ⟨_, rfl, ?_, ?_, cosHalfPi_sq_add 1⟩
    · simpa [Music.channels] using g1
    · intro h; simpa [Music.channels] using g2 h
  · obtain ⟨g1, g2, _⟩ :=
      crossfade_channels m current_lap (UpdateMusic_percent m.percent delta_time) hcur hprev
    rw [if_neg hdone, min_eq_left (le_of_lt (not_le.mp hdone))]
    refine ⟨_, rfl, ?_, ?_, cosHalfPi_sq_add _⟩
    · simpa [Music.channels] using g1
    · intro h; simpa [Music.channels] using g2 h

/-- C9, witness: from `percent = 0` a frame of 1000 ms with the lap changed
from 0 to 1 leaves the gains `cos(p * pi / 2)` and `cos((1 - p) * pi / 2)` for
`p = 13421773 / 2 ^ 26`, the `float` next to 0.2. -/
theorem UpdateMusic_equal_power_witness :
    ∃ m' : Music, UpdateMusic (some 1) 1000 exampleMusic = some m' ∧
      m'.music_channel_1.gain = Gain.cosHalfPi (13421773 / 67108864) ∧
      m'.music_channel_2.gain = Gain.cosHalfPi (53687091 / 67108864) ∧
      (Gain.cosHalfPi (13421773 / 67108864)).toReal ^ 2 +
        (Gain.cosHalfPi (53687091 / 67108864)).toReal ^ 2 = 1 := by
  obtain ⟨m', h1, h2, h3, h4⟩ :=
    UpdateMusic_equal_power exampleMusic 1 1000 (by decide) (by decide) (by decide)
  have hp : min (UpdateMusic_percent exampleMusic.percent 1000) 1 = 13421773 / 67108864 := by
    have : exampleMusic.percent = 0 := rfl
    rw [this, UpdateMusic_percent_zero, UpdateMusic_delta_values.2.2.2.1]
    norm_num
  have ht1 : Int.tmod 1 3 = 1 := by decide
  have ht0 : Int.tmod exampleMusic.previous_lap 3 = 0 := by decide
  rw [hp] at h2 h3 h4
  rw [ht1] at h2 h3
  rw [ht0] at h3
  have h3' := h3 (by decide)
  simp only [Music.channels] at h2 h3'
  norm_num at h2 h3' h4
  exact ⟨m', h1, h3', h2, h4⟩

/-! ## C10 -/

/-- C10, counterexample: after a fresh entry and two frames of 2500 ms with the
lap at 1, `previous_lap = 1` and `percent = 0`, but the gain of lap 1 is not 1
and the gain of lap 2 is not 0. -/
theorem crossfade_gains_not_one_zero :
    ∃ m' : Music,
      runMusic (some 1) [2500, 2500]
        (GameplayState.OnEnter false 0 kGameStateGameMenu exampleGameplay).music = some m' ∧
      m'.previous_lap = 1 ∧ m'.percent = 0 ∧
      m'.music_channel_1.gain.toReal ≠ 1 ∧ m'.music_channel_2.gain.toReal ≠ 0 := by
  obtain ⟨h1, h2, _⟩ :=
    OnEnter_fresh_music false 0 kGameStateGameMenu exampleGameplay (by decide)
  have hprev : (GameplayState.OnEnter false 0 kGameStateGameMenu
      exampleGameplay).music.previous_lap = 0 := by rw [h1]; rfl
  have hpercent : (GameplayState.OnEnter false 0 kGameStateGameMenu
      exampleGameplay).music.percent = 0 := by rw [h2]; rfl
  have s0 : UpdateMusic_percent 0 2500 = 1 / 2 := by
    rw [UpdateMusic_percent_zero, UpdateMusic_delta_values.2.2.2.2.2]
  have s1 : (1 : ℚ) ≤ UpdateMusic_percent (1 / 2) 2500 := by
    unfold UpdateMusic_percent
    rw [UpdateMusic_delta_values.2.2.2.2.2]
    norm_num [float32_one]
  obtain ⟨g1, g2, _⟩ := crossfade_lap_one
    (GameplayState.OnEnter false 0 kGameStateGameMenu exampleGameplay).music 1 hprev
  refine ⟨{ Music.crossfade (GameplayState.OnEnter false 0 kGameStateGameMenu
      exampleGameplay).music 1 1 with previous_lap := 1, percent := 0 }, ?_, rfl, rfl, ?_, ?_⟩
  · rw [runMusic_cons_first _ 1 2500 _ (1 / 2) (by rw [hprev]; decide) (by decide)
      (by rw [hprev]) (by rw [hpercent]; exact s0) (by norm_num),
      runMusic_cons_done _ 1 2500 _ _ _ (by rw [hprev]; decide) (by decide)
      (by rw [hprev]) s1]
  · show (Music.crossfade _ 1 1).music_channel_1.gain.toReal ≠ 1
    rw [g1, cosHalfPi_one_toReal]
    norm_num
  · show (Music.crossfade _ 1 1).music_channel_2.gain.toReal ≠ 0
    rw [g2, sub_self, cosHalfPi_zero_toReal]
    norm_num

/-- C10, amended: from a fresh entry (lap channels at gains 1, 0, 0) with
`previous_lap = 0`, `percent = 0` and the lap held at 1, every run of frames of
non-negative length returns, and leaves the cross-fade either in progress,
with `previous_lap = 0`, `0 ≤ percent < 1`, the gain of lap 1 at
`cos(percent * pi / 2)`, the gain of lap 2 at `cos((1 - percent) * pi / 2)` and
the gain of lap 3 at 0, or complete.  When it is complete, `previous_lap = 1`,
`percent = 0`, the gain of lap 1 (index 0) is `cos(pi / 2) = 0`, the gain of
lap 2 (index 1) is `cos(0) = 1`, the gain of lap 3 is still 0, and a further
frame with the lap still 1 changes nothing.  It is complete as soon as one
frame lasts 5000 ms or more, or the frame times sum to 5002 ms or more:
`percent` is a sum of `float`s, and frames that sum to 5000 ms need not
complete it (`runMusic_fifty_frames`). -/
theorem crossfade_completes (android_vr : Bool) (time : ℚ) (previous_state : GameState)
    (s : GameplayState) (frames : List Int)
    (hfresh : previous_state ≠ kGameStatePause)
    (hprev : s.music.previous_lap = 0) (hpercent : s.music.percent = 0)
    (hnonneg : ∀ d ∈ frames, 0 ≤ d) :
    ∃ m' : Music,
      runMusic (some 1) frames
        (GameplayState.OnEnter android_vr time previous_state s).music = some m' ∧
      ((m'.previous_lap = 0 ∧ 0 ≤ m'.percent ∧ m'.percent < 1 ∧
          (frames ≠ [] →
            m'.music_channel_1.gain = Gain.cosHalfPi m'.percent ∧
            m'.music_channel_2.gain = Gain.cosHalfPi (1 - m'.percent)) ∧
          m'.music_channel_3.gain = Gain.value 0) ∨
        (m'.previous_lap = 1 ∧ m'.percent = 0 ∧
          m'.music_channel_1.gain = Gain.cosHalfPi 1 ∧ m'.music_channel_1.gain.toReal = 0 ∧
          m'.music_channel_2.gain = Gain.cosHalfPi 0 ∧ m'.music_channel_2.gain.toReal = 1 ∧
          m'.music_channel_3.gain = Gain.value 0 ∧ m'.music_channel_3.gain.toReal = 0 ∧
          ∀ delta_time : Int, UpdateMusic (some 1) delta_time m' = some m')) ∧
      (((∃ d ∈ frames, 5000 ≤ d) ∨ 5002 ≤ frames.sum) → m'.previous_lap = 1) := by
  obtain ⟨h1, h2, _, _, h3⟩ := OnEnter_fresh_music android_vr time previous_state s hfresh
  rw [hprev] at h1
  rw [hpercent] at h2
  have hne : (1 : Int) ≠
      (GameplayState.OnEnter android_vr time previous_state s).music.previous_lap := by
    rw [h1]; decide
  have hp0 : (0 : Int) ≤
      (GameplayState.OnEnter android_vr time previous_state s).music.previous_lap := by
    rw [h1]
  have hdone : ∀ m' : Music,
      m' = { Music.crossfade (GameplayState.OnEnter android_vr time previous_state s).music 1 1
        with previous_lap := 1, percent := 0 } →
      m'.previous_lap = 1 ∧ m'.percent = 0 ∧
      m'.music_channel_1.gain = Gain.cosHalfPi 1 ∧ m'.music_channel_1.gain.toReal = 0 ∧
      m'.music_channel_2.gain = Gain.cosHalfPi 0 ∧ m'.music_channel_2.gain.toReal = 1 ∧
      m'.music_channel_3.gain = Gain.value 0 ∧ m'.music_channel_3.gain.toReal = 0 ∧
      ∀ delta_time : Int, UpdateMusic (some 1) delta_time m' = some m' := by
    intro m' hm'
    obtain ⟨g1, g2, g3⟩ := crossfade_lap_one
      (GameplayState.OnEnter android_vr time previous_state s).music 1 h1
    rw [sub_self] at g2
    subst hm'
    refine ⟨rfl, rfl, g1, ?_, g2, ?_, ?_, ?_, ?_⟩
    · show (Music.crossfade _ 1 1).music_channel_1.gain.toReal = 0
      rw [g1, cosHalfPi_one_toReal]
    · show (Music.crossfade _ 1 1).music_channel_2.gain.toReal = 1
      rw [g2, cosHalfPi_zero_toReal]
    · show (Music.crossfade _ 1 1).music_channel_3.gain = Gain.value 0
      rw [g3, h3]
    · show (Music.crossfade _ 1 1).music_channel_3.gain.toReal = 0
      rw [g3, h3]
      simp [Gain.toReal]
    · intro d
      exact UpdateMusic_same_lap
        { Music.crossfade (GameplayState.OnEnter android_vr time previous_state s).music 1 1
          with previous_lap := 1, percent := 0 } d (by simp)
  have hcomplete : ((∃ d ∈ frames, 5000 ≤ d) ∨ 5002 ≤ frames.sum) →
      runMusic (some 1) frames
        (GameplayState.OnEnter android_vr time previous_state s).music =
      some { Music.crossfade (GameplayState.OnEnter android_vr time previous_state s).music 1 1
        with previous_lap := 1, percent := 0 } := by
    intro h
    apply runMusic_completes frames _ 1 hne (by decide) hp0 (by rw [h2]) hnonneg
    rcases h with h | h
    · exact Or.inl h
    · right
      have hq : (5002 : ℚ) ≤ (frames.sum : ℚ) := by exact_mod_cast h
      rw [h2]
      refine ⟨float32_zero, by norm_num, ?_⟩
      rw [zero_add, le_div_iff₀ (by norm_num)]
      linarith
  rcases runMusic_cases frames (GameplayState.OnEnter android_vr time previous_state s).music 1
    hne (by decide) hp0 with ⟨hnil, hrun⟩ | ⟨q, hq1, _, hq3, hrun⟩ | hrun
  · refine ⟨_, hrun, Or.inl ⟨h1, by rw [h2], by rw [h2]; norm_num,
      fun hf => absurd hnil hf, h3⟩, ?_⟩
    intro h
    have := hcomplete h
    rw [hrun] at this
    have hpl : (GameplayState.OnEnter android_vr time previous_state s).music.previous_lap =
        1 := congrArg Music.previous_lap (Option.some.inj this)
    rw [h1] at hpl
    exact absurd hpl (by decide)
  · obtain ⟨g1, g2, g3⟩ := crossfade_lap_one
      (GameplayState.OnEnter android_vr time previous_state s).music q h1
    refine ⟨_, hrun, Or.inl ⟨?_, hq3 hnonneg (by rw [h2]), hq1, fun _ => ⟨g1, g2⟩, ?_⟩, ?_⟩
    · show (Music.crossfade _ 1 q).previous_lap = 0
      rw [(crossfade_fields _ 1 q).1, h1]
    · show (Music.crossfade _ 1 q).music_channel_3.gain = Gain.value 0
      rw [g3, h3]
    · intro h
      have := hcomplete h
      rw [hrun] at this
      exact congrArg Music.previous_lap (Option.some.inj this)
  · exact ⟨_, hrun, Or.inr (hdone _ rfl), fun _ => rfl⟩

/-- C10, witness: 300 frames of 17 ms after a fresh entry from the menu. -/
theorem crossfade_completes_witness :
    ∃ m' : Music,
      runMusic (some 1) (List.replicate 300 17)
        (GameplayState.OnEnter false 0 kGameStateGameMenu exampleGameplay).music = some m' ∧
      m'.previous_lap = 1 ∧ m'.percent = 0 ∧
      m'.music_channel_1.gain.toReal = 0 ∧ m'.music_channel_2.gain.toReal = 1 := by
  obtain ⟨m', h1, h2, h3⟩ :=
    crossfade_completes false 0 kGameStateGameMenu exampleGameplay (List.replicate 300 17)
      (by decide) rfl rfl (by intro d hd; rw [List.eq_of_mem_replicate hd]; decide)
  have hlap := h3 (Or.inr (by rw [List.sum_replicate]; norm_num))
  rcases h2 with ⟨h0, _⟩ | ⟨_, h4, _, h5, _, h6, _⟩
  · rw [hlap] at h0
    exact absurd h0 (by decide)
  · exact ⟨m', h1, hlap, h4, h5, h6⟩

/-- The frame of 1500 ms that takes `exampleRetargeted` to `exampleRetargetDone`:
the `float` sum `0.7f + 0.3f` is 1, so the frame completes the cross-fade. -/
theorem exampleRetargeted_frame :
    UpdateMusic (some 2) 1500 exampleRetargeted = some exampleRetargetDone := by
  have h0 : Int.tmod 0 3 = 0 := by decide
  have h2 : Int.tmod 2 3 = 2 := by decide
  have s2 : UpdateMusic_percent (11744051 / 16777216) 1500 = 1 := by
    rw [UpdateMusic_percent, UpdateMusic_delta_values.2.2.2.2.1]
    norm_num [float32_one]
  rw [UpdateMusic_changed_lap _ 2 1500 (by decide) (by decide) (by decide)]
  have hp : exampleRetargeted.percent = 11744051 / 16777216 := rfl
  rw [hp, s2, if_pos (le_refl _)]
  simp [h0, h2, Music.crossfade, Music.withGain, Music.SetGain,
    Channel.SetGain, exampleRetargetDone, exampleRetargeted, lapChannel]

/-! ## C11 -/

/-- C11, counterexample: a fresh entry, 2500 ms with the lap at 1 (a fade toward
lap 1 half done), then the lap becomes 2.  The next frame of 1000 ms leaves the
gain of lap 2 (index 1) where it was and already sets the gain of lap 3
(index 2), and when `percent` reaches 1 after 1500 ms more `previous_lap`
becomes 2, not 1. -/
theorem crossfade_retargets_on_lap_change :
    UpdateMusic (some 1) 2500
        (GameplayState.OnEnter false 0 kGameStateGameMenu exampleGameplay).music =
      some exampleHalfFaded ∧
    UpdateMusic (some 2) 1000 exampleHalfFaded = some exampleRetargeted ∧
    exampleRetargeted.music_channel_2.gain = exampleHalfFaded.music_channel_2.gain ∧
    exampleRetargeted.music_channel_3.gain ≠ exampleHalfFaded.music_channel_3.gain ∧
    UpdateMusic (some 2) 1500 exampleRetargeted = some exampleRetargetDone ∧
    exampleRetargetDone.previous_lap ≠ 1 := by
  have h0 : Int.tmod 0 3 = 0 := by decide
  have h1 : Int.tmod 1 3 = 1 := by decide
  have h2 : Int.tmod 2 3 = 2 := by decide
  obtain ⟨_, _, _, d1000, _, d2500⟩ := UpdateMusic_delta_values
  have s0 : UpdateMusic_percent 0 2500 = 1 / 2 := by
    rw [UpdateMusic_percent_zero, d2500]
  have s1 : UpdateMusic_percent (1 / 2) 1000 = 11744051 / 16777216 := by
    rw [UpdateMusic_percent, d1000, float32_eq _ (-1) 11744051 (by norm_num)
      (by norm_num [abs_of_pos]) (by norm_num [abs_of_pos]) (by norm_num) (by norm_num)]
    norm_num
  refine ⟨?_, ?_, rfl, ?_, ?_, ?_⟩
  · rw [UpdateMusic_changed_lap _ 1 2500 (by decide) (by decide) (by decide)]
    have hp : (GameplayState.OnEnter false 0 kGameStateGameMenu exampleGameplay).music.percent =
        0 := rfl
    rw [hp, s0, if_neg (by norm_num)]
    simp [GameplayState.OnEnter, exampleGameplay, exampleMusic, exampleWorld,
      AudioEngine.PlaySound, h0, h1, Music.crossfade, Music.withGain, Music.SetGain,
      Channel.SetGain, exampleHalfFaded, lapChannel]
    norm_num
  · rw [UpdateMusic_changed_lap _ 2 1000 (by decide) (by decide) (by decide)]
    have hp : exampleHalfFaded.percent = 1 / 2 := rfl
    rw [hp, s1, if_neg (by norm_num)]
    simp [h0, h2, Music.crossfade, Music.withGain, Music.SetGain,
      Channel.SetGain, exampleHalfFaded, exampleRetargeted, lapChannel]
    norm_num
  · simp [exampleHalfFaded, exampleRetargeted, lapChannel]
  · exact exampleRetargeted_frame
  · simp [exampleRetargetDone]

/-- C11, amended: in a cross-fade away from `previous_lap`, toward a lap `c`,
let the lap number become `c'`, different from `previous_lap` and from `c`.
Every following frame computes the two gains from the running `percent` (the
`float` sum `percent + delta`, clamped at 1) and sets them on
`channels[previous_lap % 3]` and `channels[c' % 3]`; the channel of the lap `c`
that was being faded in is left as it is when its index differs from both;
`percent` goes on from its value; and when the sum reaches 1, `previous_lap`
becomes `c'`.  So after any run of such frames `previous_lap` is its old value
or `c'`, never `c`, and it is `c'` with `percent = 0` once a frame of
non-negative length has lasted 5000 ms or more, or the times of such frames
have summed to at least `5002 * (1 - percent)` ms. -/
theorem UpdateMusic_follows_new_lap (m : Music) (c c' : Int) (frames : List Int)
    (hprev : 0 ≤ m.previous_lap) (hc : c ≠ m.previous_lap)
    (hc' : 0 ≤ c') (hne : c' ≠ m.previous_lap) (hcc' : c' ≠ c) :
    (∀ delta_time : Int, ∃ m' : Music, UpdateMusic (some c') delta_time m = some m' ∧
      (m'.channels (Int.tmod c' 3)).map Channel.gain =
        some (Gain.cosHalfPi (1 - min (UpdateMusic_percent m.percent delta_time) 1)) ∧
      (Int.tmod m.previous_lap 3 ≠ Int.tmod c' 3 →
        (m'.channels (Int.tmod m.previous_lap 3)).map Channel.gain =
          some (Gain.cosHalfPi (min (UpdateMusic_percent m.percent delta_time) 1))) ∧
      (Int.tmod c 3 ≠ Int.tmod m.previous_lap 3 → Int.tmod c 3 ≠ Int.tmod c' 3 →
        m'.channels (Int.tmod c 3) = m.channels (Int.tmod c 3)) ∧
      (UpdateMusic_percent m.percent delta_time < 1 →
        m'.previous_lap = m.previous_lap ∧
        m'.percent = UpdateMusic_percent m.percent delta_time) ∧
      (1 ≤ UpdateMusic_percent m.percent delta_time →
        m'.previous_lap = c' ∧ m'.percent = 0)) ∧
    (∃ m' : Music, runMusic (some c') frames m = some m' ∧
      (m'.previous_lap = m.previous_lap ∨ (m'.previous_lap = c' ∧ m'.percent = 0)) ∧
      m'.previous_lap ≠ c ∧
      (Int.tmod c 3 ≠ Int.tmod m.previous_lap 3 → Int.tmod c 3 ≠ Int.tmod c' 3 →
        m'.channels (Int.tmod c 3) = m.channels (Int.tmod c 3)) ∧
      (0 ≤ m.percent → (∀ d ∈ frames, 0 ≤ d) →
        ((∃ d ∈ frames, 5000 ≤ d) ∨
          (float32 m.percent = m.percent ∧ m.percent < 1 ∧
            1 ≤ m.percent + (frames.sum : ℚ) / 5002)) →
        m'.previous_lap = c' ∧ m'.percent = 0)) := by
  constructor
  · intro d
    rw [UpdateMusic_changed_lap m c' d hne hc' hprev]
    by_cases hdone : 1 ≤ UpdateMusic_percent m.percent d
    · obtain ⟨g1, g2, g3⟩ := crossfade_channels m c' 1 hc' hprev
      rw [if_pos hdone, min_eq_right hdone]
      refine ⟨_, rfl, ?_, ?_, ?_, ?_, ?_⟩
      · simpa [Music.channels] using g1
      · intro h; simpa [Music.channels] using g2 h
      · intro h1 h2; simpa [Music.channels] using g3 _ h1 h2
      · intro h; exact absurd hdone (not_le.mpr h)
      · intro _; exact ⟨rfl, rfl⟩
    · obtain ⟨g1, g2, g3⟩ :=
        crossfade_channels m c' (UpdateMusic_percent m.percent d) hc' hprev
      rw [if_neg hdone, min_eq_left (le_of_lt (not_le.mp hdone))]
      refine ⟨_, rfl, ?_, ?_, ?_, ?_, ?_⟩
      · simpa [Music.channels] using g1
      · intro h; simpa [Music.channels] using g2 h
      · intro h1 h2; simpa [Music.channels] using g3 _ h1 h2
      · intro _; exact ⟨(crossfade_fields m c' _).1, rfl⟩
      · intro h; exact absurd h hdone
  · rcases runMusic_cases frames m c' hne hc' hprev with ⟨_, hrun⟩ | ⟨q, _, _, _, hrun⟩ | hrun
    · refine ⟨m, hrun, Or.inl rfl, fun h => hc h.symm, fun _ _ => rfl, ?_⟩
      intro hp hnonneg hdone
      have := runMusic_completes frames m c' hne hc' hprev hp hnonneg hdone
      rw [hrun] at this
      have hpl : m.previous_lap = c' := congrArg Music.previous_lap (Option.some.inj this)
      exact absurd hpl.symm hne
    · obtain ⟨_, _, g3⟩ := crossfade_channels m c' q hc' hprev
      have hpl : (Music.crossfade m c' q).previous_lap = m.previous_lap :=
        (crossfade_fields m c' q).1
      refine ⟨_, hrun, Or.inl hpl, ?_, ?_, ?_⟩
      · show (Music.crossfade m c' q).previous_lap ≠ c
        rw [hpl]
        exact fun h => hc h.symm
      · intro h1 h2; simpa [Music.channels] using g3 _ h1 h2
      · intro hp hnonneg hdone
        have := runMusic_completes frames m c' hne hc' hprev hp hnonneg hdone
        rw [hrun] at this
        have hpl' : (Music.crossfade m c' q).previous_lap = c' :=
          congrArg Music.previous_lap (Option.some.inj this)
        rw [hpl] at hpl'
        exact absurd hpl'.symm hne
    · obtain ⟨_, _, g3⟩ := crossfade_channels m c' 1 hc' hprev
      refine ⟨_, hrun, Or.inr ⟨rfl, rfl⟩, hcc', ?_, fun _ _ _ => ⟨rfl, rfl⟩⟩
      intro h1 h2; simpa [Music.channels] using g3 _ h1 h2

/-- C11, witness: the half-done fade of `exampleHalfFaded` toward lap 1, the lap
now 2, frames of 1000 ms and 1501 ms. -/
theorem UpdateMusic_follows_new_lap_witness :
    ∃ m' : Music, runMusic (some 2) [1000, 1501] exampleHalfFaded = some m' ∧
      m'.previous_lap = 2 ∧ m'.previous_lap ≠ 1 ∧ m'.percent = 0 := by
  have hfloat : float32 exampleHalfFaded.percent = exampleHalfFaded.percent := by
    have hp : exampleHalfFaded.percent = 1 / 2 := rfl
    rw [hp, float32_eq _ (-1) 8388608 (by norm_num) (by norm_num [abs_of_pos])
      (by norm_num [abs_of_pos]) (by norm_num) (by norm_num)]
    norm_num
  obtain ⟨m', h1, _, h3, _, h5⟩ :=
    (UpdateMusic_follows_new_lap exampleHalfFaded 1 2 [1000, 1501] (by decide) (by decide)
      (by decide) (by decide) (by decide)).2
  obtain ⟨h6, h7⟩ := h5 (by norm_num [exampleHalfFaded])
    (by intro d hd; simp at hd; omega)
    (Or.inr ⟨hfloat, by norm_num [exampleHalfFaded], by norm_num [exampleHalfFaded]⟩)
  exact ⟨m', h1, h6, h3, h7⟩

/-! ## C12 -/

/-- C12: preferences round trip.  When the storage path resolves and the write
succeeds, `SaveData` followed by `LoadData` (on a platform whose storage path
resolves) leaves `slider_value_effect`, `slider_value_music` and the six
rendering options at their values before the save. -/
theorem SaveData_LoadData_round_trip (cfg : MenuConfig) (save load : Storage)
    (s : GameMenuState fm)
    (hpath : save.storage_path_ok = true) (hwrite : save.write_ok = true)
    (hload : load.storage_path_ok = true) :
    (GameMenuState.LoadData cfg load (GameMenuState.SaveData cfg save s)).slider_value_effect =
      s.slider_value_effect ∧
    (GameMenuState.LoadData cfg load (GameMenuState.SaveData cfg save s)).slider_value_music =
      s.slider_value_music ∧
    (∀ (mode : RenderingMode) (option : RenderingOption),
      (GameMenuState.LoadData cfg load
          (GameMenuState.SaveData cfg save s)).world.RenderingOptionEnabled mode option =
        s.world.RenderingOptionEnabled mode option) := by
  refine ⟨?_, ?_, ?_⟩
  · simp [GameMenuState.LoadData, GameMenuState.SaveData, hpath, hwrite, hload]
  · simp [GameMenuState.LoadData, GameMenuState.SaveData, hpath, hwrite, hload]
  · intro mode option
    cases hvr : cfg.FPLBASE_ANDROID_VR <;> cases mode <;> cases option <;>
      simp [GameMenuState.LoadData, GameMenuState.SaveData, hpath, hwrite, hload, hvr,
        World.RenderingOptionEnabled, World.SetRenderingOption, World.SetHmdControllerEnabled,
        RenderingOptions.get, RenderingOptions.set]

/-- C12, witness: the audio page with the sliders at 1/2 and 1/4 and the
rendering options of `exampleWorld`. -/
theorem SaveData_LoadData_round_trip_witness :
    (GameMenuState.LoadData exampleConfig ⟨true, true⟩
        (GameMenuState.SaveData exampleConfig ⟨true, true⟩
          exampleAudioPage)).slider_value_effect = 1 / 2 ∧
    (GameMenuState.LoadData exampleConfig ⟨true, true⟩
        (GameMenuState.SaveData exampleConfig ⟨true, true⟩
          exampleAudioPage)).slider_value_music = 1 / 4 ∧
    (GameMenuState.LoadData exampleConfig ⟨true, true⟩
        (GameMenuState.SaveData exampleConfig ⟨true, true⟩
          exampleAudioPage)).world.RenderingOptionEnabled kRenderingMonoscopic kShadowEffect =
      true ∧
    (GameMenuState.LoadData exampleConfig ⟨true, true⟩
        (GameMenuState.SaveData exampleConfig ⟨true, true⟩
          exampleAudioPage)).world.RenderingOptionEnabled kRenderingStereoscopic
        kSpecularEffect = false := by
  obtain ⟨h1, h2, h3⟩ :=
    SaveData_LoadData_round_trip exampleConfig ⟨true, true⟩ ⟨true, true⟩ exampleAudioPage
      rfl rfl rfl
  exact ⟨h1, h2, h3 kRenderingMonoscopic kShadowEffect,
    h3 kRenderingStereoscopic kSpecularEffect⟩

/-! ## C13 -/

/-- C13: in the `Quit` sub-state `AdvanceFrame` sets the master bus gain to
`cos(offset * pi / 2)` for the offset of the fader stepped by `delta_time`; as
a function of the offset this gain is 1 at 0, 0 at 1, and for
`0 ≤ a ≤ b ≤ 1` the gain at `b` is at most the gain at `a`. -/
theorem Quit_master_bus_gain (cfg : MenuConfig) (inp : MenuFrameInput) (delta_time : Int)
    (s : GameMenuState fm) (next_state : GameState)
    (hquit : (GameMenuState.AdvanceFrame_back_button cfg inp s).menu_state = kMenuStateQuit) :
    (GameMenuState.AdvanceFrame cfg inp delta_time s next_state).1.master_bus_gain =
      Gain.cosHalfPi (fm.GetOffset (fm.AdvanceFrame delta_time s.fader)) ∧
    (∀ a b : ℚ, 0 ≤ a → a ≤ b → b ≤ 1 →
      (Gain.cosHalfPi b).toReal ≤ (Gain.cosHalfPi a).toReal) ∧
    (Gain.cosHalfPi 0).toReal = 1 ∧
    (Gain.cosHalfPi 1).toReal = 0 := by
  have hfader : (GameMenuState.AdvanceFrame_back_button cfg inp s).fader = s.fader := by
    unfold GameMenuState.AdvanceFrame_back_button
    simp only []
    split_ifs <;> simp [SaveData_frame]
  refine ⟨?_, ?_, cosHalfPi_zero_toReal, cosHalfPi_one_toReal⟩
  · unfold GameMenuState.AdvanceFrame GameMenuState.AdvanceFrame_menu_state
    simp only [hquit, hfader]
    split_ifs <;> simp_all
  · intro a b ha hab hb
    simp only [Gain.toReal]
    have ha' : (0 : ℝ) ≤ (a : ℝ) := by exact_mod_cast ha
    have hab' : (a : ℝ) ≤ (b : ℝ) := by exact_mod_cast hab
    have hb' : (b : ℝ) ≤ 1 := by exact_mod_cast hb
    have hpi := Real.pi_pos
    apply Real.cos_le_cos_of_nonneg_of_le_pi
    · positivity
    · nlinarith
    · nlinarith

/-- C13, witness: 990 ms into the one-second quit fade a frame of 16 ms puts
the fader offset at 1 and the master gain at `cos(pi / 2) = 0`. -/
theorem Quit_master_bus_gain_witness :
    (GameMenuState.AdvanceFrame exampleConfig ⟨false, false, ⟨true, true⟩⟩ 16 exampleQuit
        kGameStateGameMenu).1.master_bus_gain = Gain.cosHalfPi 1 ∧
    (Gain.cosHalfPi 1).toReal ≤ (Gain.cosHalfPi (1 / 2)).toReal := by
  obtain ⟨h1, h2, _, _⟩ :=
    Quit_master_bus_gain exampleConfig ⟨false, false, ⟨true, true⟩⟩ 16 exampleQuit
      kGameStateGameMenu rfl
  refine ⟨?_, h2 (1 / 2) 1 (by norm_num) (by norm_num) (by norm_num)⟩
  rw [h1]
  simp [timedFader, exampleQuit]

/-! ## C14 -/

/-- The real value of the gain `cos(x * 0.5 * pi)` for `x = 1/5` is
`cos(0.1 * pi)` and for `x = 4/5` it is `cos(0.4 * pi)`. -/
theorem cosHalfPi_fifths_toReal :
    (Gain.cosHalfPi (1 / 5)).toReal = Real.cos (0.1 * Real.pi) ∧
    (Gain.cosHalfPi (4 / 5)).toReal = Real.cos (0.4 * Real.pi) := by
  constructor <;>
  · simp only [Gain.toReal]
    congr 1
    push_cast
    ring

/-- The real values of two gains `cos(x * 0.5 * pi)` differ by at most twice
the difference of their arguments. -/
theorem cosHalfPi_toReal_sub_le (x y : ℚ) :
    |(Gain.cosHalfPi x).toReal - (Gain.cosHalfPi y).toReal| ≤ 2 * |(x : ℝ) - (y : ℝ)| := by
  simp only [Gain.toReal]
  rw [Real.cos_sub_cos]
  have h1 := Real.abs_sin_le_one (((x : ℝ) * (1 / 2) * Real.pi + (y : ℝ) * (1 / 2) * Real.pi) / 2)
  have h2 := @Real.abs_sin_le_abs
    (((x : ℝ) * (1 / 2) * Real.pi - (y : ℝ) * (1 / 2) * Real.pi) / 2)
  have h3 : |((x : ℝ) * (1 / 2) * Real.pi - (y : ℝ) * (1 / 2) * Real.pi) / 2| =
      |(x : ℝ) - (y : ℝ)| * (Real.pi / 4) := by
    rw [show ((x : ℝ) * (1 / 2) * Real.pi - (y : ℝ) * (1 / 2) * Real.pi) / 2 =
      ((x : ℝ) - (y : ℝ)) * (Real.pi / 4) by ring, abs_mul,
      abs_of_pos (by positivity : (0 : ℝ) < Real.pi / 4)]
  rw [h3] at h2
  have hpi := Real.pi_le_four
  have hpi0 := Real.pi_pos
  have hxy := abs_nonneg ((x : ℝ) - (y : ℝ))
  rw [abs_mul, abs_mul, abs_neg, abs_two]
  have hs1 := abs_nonneg
    (Real.sin (((x : ℝ) * (1 / 2) * Real.pi + (y : ℝ) * (1 / 2) * Real.pi) / 2))
  have hs2 := abs_nonneg
    (Real.sin (((x : ℝ) * (1 / 2) * Real.pi - (y : ℝ) * (1 / 2) * Real.pi) / 2))
  have hprod : |Real.sin (((x : ℝ) * (1 / 2) * Real.pi + (y : ℝ) * (1 / 2) * Real.pi) / 2)| *
      |Real.sin (((x : ℝ) * (1 / 2) * Real.pi - (y : ℝ) * (1 / 2) * Real.pi) / 2)| ≤
      1 * (|(x : ℝ) - (y : ℝ)| * (Real.pi / 4)) :=
    mul_le_mul h1 h2 hs2 (by norm_num)
  nlinarith

/-- Between 0 and 2 different arguments give gains `cos(x * 0.5 * pi)` with
different real values. -/
theorem cosHalfPi_toReal_ne {x y : ℚ} (hx0 : 0 ≤ x) (hx2 : x ≤ 2) (hy0 : 0 ≤ y) (hy2 : y ≤ 2)
    (hne : x ≠ y) : (Gain.cosHalfPi x).toReal ≠ (Gain.cosHalfPi y).toReal := by
  simp only [Gain.toReal]
  intro h
  have hpi := Real.pi_pos
  have hx0' : (0 : ℝ) ≤ (x : ℝ) := by exact_mod_cast hx0
  have hx2' : (x : ℝ) ≤ 2 := by exact_mod_cast hx2
  have hy0' : (0 : ℝ) ≤ (y : ℝ) := by exact_mod_cast hy0
  have hy2' : (y : ℝ) ≤ 2 := by exact_mod_cast hy2
  have hxm : (x : ℝ) * (1 / 2) * Real.pi ∈ Set.Icc 0 Real.pi :=
    ⟨by positivity, by nlinarith⟩
  have hym : (y : ℝ) * (1 / 2) * Real.pi ∈ Set.Icc 0 Real.pi :=
    ⟨by positivity, by nlinarith⟩
  have heq := Real.injOn_cos hxm hym h
  have hxy : (x : ℝ) = (y : ℝ) := by
    have hpi' : Real.pi ≠ 0 := hpi.ne'
    have : (x : ℝ) * (1 / 2) = (y : ℝ) * (1 / 2) := mul_right_cancel₀ hpi' heq
    linarith
  exact hne (by exact_mod_cast hxy)

/-- C14, counterexample: the progress is not `min(p + d / 5000, 1)`.  From
`percent = 0` a frame of 1000 ms leaves `percent = 13421773 / 2 ^ 26`, which is
not 0.2, and a gain on lap 1 whose real value is not `cos(0.1 * pi)`.  From
`percent = 0.7f` a frame of 1500 ms has `min(p + d / 5000, 1) < 1`, yet the
`float` sum is 1: the frame completes the cross-fade, `previous_lap` changes,
`percent` becomes 0 and the gain on the channel of the old lap is
`cos(1 * pi / 2)`. -/
theorem UpdateMusic_percent_rounded :
    (∃ m' : Music, UpdateMusic (some 1) 1000 exampleMusic = some m' ∧
      min (exampleMusic.percent + (1000 : ℚ) / 5000) 1 = 1 / 5 ∧
      m'.percent = 13421773 / 67108864 ∧ m'.percent ≠ 1 / 5 ∧
      m'.music_channel_1.gain = Gain.cosHalfPi (13421773 / 67108864) ∧
      m'.music_channel_1.gain.toReal ≠ Real.cos (0.1 * Real.pi)) ∧
    (min (exampleRetargeted.percent + (1500 : ℚ) / 5000) 1 = 83886079 / 83886080 ∧
      UpdateMusic (some 2) 1500 exampleRetargeted = some exampleRetargetDone ∧
      exampleRetargetDone.percent ≠ 83886079 / 83886080 ∧
      exampleRetargetDone.previous_lap ≠ exampleRetargeted.previous_lap ∧
      exampleRetargetDone.music_channel_1.gain = Gain.cosHalfPi 1 ∧
      exampleRetargetDone.music_channel_1.gain.toReal ≠
        (Gain.cosHalfPi (83886079 / 83886080)).toReal) := by
  constructor
  · have hp : exampleMusic.percent = 0 := rfl
    have s0 : UpdateMusic_percent 0 1000 = 13421773 / 67108864 := by
      rw [UpdateMusic_percent_zero, UpdateMusic_delta_values.2.2.2.1]
    obtain ⟨g1, _, _⟩ := crossfade_lap_one exampleMusic (13421773 / 67108864) rfl
    refine ⟨{ Music.crossfade exampleMusic 1 (13421773 / 67108864) with
      percent := 13421773 / 67108864 }, ?_, ?_, rfl, ?_, g1, ?_⟩
    · rw [UpdateMusic_changed_lap _ 1 1000 (by decide) (by decide) (by decide), hp, s0,
        if_neg (by norm_num)]
    · rw [hp]; norm_num
    · show (13421773 / 67108864 : ℚ) ≠ 1 / 5
      norm_num
    · show (Music.crossfade exampleMusic 1 (13421773 / 67108864)).music_channel_1.gain.toReal ≠
        Real.cos (0.1 * Real.pi)
      rw [g1, ← cosHalfPi_fifths_toReal.1]
      exact cosHalfPi_toReal_ne (by norm_num) (by norm_num) (by norm_num) (by norm_num)
        (by norm_num)
  · refine ⟨?_, exampleRetargeted_frame, ?_, ?_, rfl, ?_⟩
    · norm_num [exampleRetargeted]
    · norm_num [exampleRetargetDone]
    · simp [exampleRetargetDone, exampleRetargeted]
    · show (Gain.cosHalfPi 1).toReal ≠ (Gain.cosHalfPi (83886079 / 83886080)).toReal
      exact cosHalfPi_toReal_ne (by norm_num) (by norm_num) (by norm_num) (by norm_num)
        (by norm_num)

/-- C14, amended: a frame with `current_lap ≠ previous_lap` computes
`p' = min(s, 1)`, where `s` is the `float` sum `percent + delta` with
`delta = (delta_time / 1000.0f) / 5.0f` in `float` arithmetic, and makes the two
calls `channels[previous_lap % 3]->SetGain(cos(p' * pi / 2))` and
`channels[current_lap % 3]->SetGain(cos((1 - p') * pi / 2))` in this order, so
that afterwards the channel of `current_lap` has the second gain, the channel
of `previous_lap` has the first gain (unless both laps share a channel, where
the second call has overwritten it) and every other channel is unchanged;
`percent` becomes `p'`, or 0 with `previous_lap = current_lap` when `s ≥ 1`.
For a `float` `percent ≥ 0` and `delta_time ≥ 0` the sum `s` is at least
`percent + delta_time / 5002` while it is below 1, and at most
`percent + delta_time / 4998` while that is below 1.  From `percent = 0`,
frames of non-negative length totalling 1000 ms leave the cross-fade in
progress with `percent` within 0.0001 of 0.2 and the gains within 0.0002 of
`cos(0.1 * pi)` and `cos(0.4 * pi)`.  A frame with `current_lap = previous_lap`
changes nothing. -/
theorem UpdateMusic_frame (m : Music) (current_lap delta_time : Int) (frames : List Int)
    (hne : current_lap ≠ m.previous_lap) (hcur : 0 ≤ current_lap)
    (hprev : 0 ≤ m.previous_lap) :
    (∃ m1 m2 m' : Music,
      m.SetGain (Int.tmod m.previous_lap 3)
        (Gain.cosHalfPi (min (UpdateMusic_percent m.percent delta_time) 1)) = some m1 ∧
      m1.SetGain (Int.tmod current_lap 3)
        (Gain.cosHalfPi (1 - min (UpdateMusic_percent m.percent delta_time) 1)) = some m2 ∧
      UpdateMusic (some current_lap) delta_time m = some m' ∧
      m'.music_channel_1 = m2.music_channel_1 ∧
      m'.music_channel_2 = m2.music_channel_2 ∧
      m'.music_channel_3 = m2.music_channel_3 ∧
      (m'.channels (Int.tmod current_lap 3)).map Channel.gain =
        some (Gain.cosHalfPi (1 - min (UpdateMusic_percent m.percent delta_time) 1)) ∧
      (Int.tmod m.previous_lap 3 ≠ Int.tmod current_lap 3 →
        (m'.channels (Int.tmod m.previous_lap 3)).map Channel.gain =
          some (Gain.cosHalfPi (min (UpdateMusic_percent m.percent delta_time) 1))) ∧
      (∀ i : Int, i ≠ Int.tmod m.previous_lap 3 → i ≠ Int.tmod current_lap 3 →
        m'.channels i = m.channels i) ∧
      (UpdateMusic_percent m.percent delta_time < 1 →
        m'.percent = min (UpdateMusic_percent m.percent delta_time) 1 ∧
        m'.previous_lap = m.previous_lap) ∧
      (1 ≤ UpdateMusic_percent m.percent delta_time →
        m'.percent = 0 ∧ m'.previous_lap = current_lap)) ∧
    (float32 m.percent = m.percent → 0 ≤ m.percent → 0 ≤ delta_time →
      (UpdateMusic_percent m.percent delta_time < 1 →
        m.percent + (delta_time : ℚ) / 5002 ≤ UpdateMusic_percent m.percent delta_time) ∧
      (m.percent + (delta_time : ℚ) / 4998 < 1 →
        UpdateMusic_percent m.percent delta_time ≤ m.percent + (delta_time : ℚ) / 4998)) ∧
    (m.percent = 0 → frames.sum = 1000 → (∀ d ∈ frames, 0 ≤ d) →
      ∃ m' : Music, runMusic (some current_lap) frames m = some m' ∧
        |m'.percent - 1 / 5| ≤ 1 / 10000 ∧ m'.previous_lap = m.previous_lap ∧
        (m'.channels (Int.tmod current_lap 3)).map Channel.gain =
          some (Gain.cosHalfPi (1 - m'.percent)) ∧
        (Int.tmod m.previous_lap 3 ≠ Int.tmod current_lap 3 →
          (m'.channels (Int.tmod m.previous_lap 3)).map Channel.gain =
            some (Gain.cosHalfPi m'.percent)) ∧
        |(Gain.cosHalfPi m'.percent).toReal - Real.cos (0.1 * Real.pi)| ≤ 1 / 5000 ∧
        |(Gain.cosHalfPi (1 - m'.percent)).toReal - Real.cos (0.4 * Real.pi)| ≤ 1 / 5000) ∧
    UpdateMusic (some m.previous_lap) delta_time m = some m := by
  refine ⟨?_, ?_, ?_, UpdateMusic_same_lap m delta_time hprev⟩
  · have hp3 := tmod_three_cases hprev
    have hc3 := tmod_three_cases hcur
    have hupd := UpdateMusic_changed_lap m current_lap delta_time hne hcur hprev
    by_cases hdone : 1 ≤ UpdateMusic_percent m.percent delta_time
    · obtain ⟨g1, g2, g3⟩ := crossfade_channels m current_lap 1 hcur hprev
      rw [if_pos hdone] at hupd
      rw [min_eq_right hdone]
      refine ⟨_, _, _, SetGain_eq_withGain m _ _ hp3, SetGain_eq_withGain _ _ _ hc3, hupd,
        rfl, rfl, rfl, ?_, ?_, ?_, ?_, ?_⟩
      · simpa [Music.channels] using g1
      · intro h; simpa [Music.channels] using g2 h
      · intro i h1 h2; simpa [Music.channels] using g3 i h1 h2
      · intro h; exact absurd hdone (not_le.mpr h)
      · intro _; exact ⟨rfl, rfl⟩
    · obtain ⟨g1, g2, g3⟩ :=
        crossfade_channels m current_lap (UpdateMusic_percent m.percent delta_time) hcur hprev
      rw [if_neg hdone] at hupd
      rw [min_eq_left (le_of_lt (not_le.mp hdone))]
      refine ⟨_, _, _, SetGain_eq_withGain m _ _ hp3, SetGain_eq_withGain _ _ _ hc3, hupd,
        rfl, rfl, rfl, ?_, ?_, ?_, ?_, ?_⟩
      · simpa [Music.channels] using g1
      · intro h; simpa [Music.channels] using g2 h
      · intro i h1 h2; simpa [Music.channels] using g3 i h1 h2
      · intro _; exact ⟨rfl, (crossfade_fields m current_lap _).1⟩
      · intro h; exact absurd h hdone
  · intro hfloat hp hd
    exact UpdateMusic_percent_bounds hfloat hp hd
  · intro hzero hsum hnonneg
    have hframes : frames ≠ [] := by
      intro h; rw [h] at hsum; simp at hsum
    have hsumq : (frames.sum : ℚ) = 1000 := by exact_mod_cast hsum
    obtain ⟨q, hq1, hq2, hrun⟩ := runMusic_stays_in_progress frames m current_lap hne hcur hprev hframes
      (by rw [hzero]; exact float32_zero) (by rw [hzero]) hnonneg
      (by rw [hzero, hsumq]; norm_num)
    rw [hzero, hsumq] at hq1 hq2
    have hq : |q - 1 / 5| ≤ 1 / 10000 := by
      rw [abs_le]
      constructor
      · norm_num at hq1 ⊢; linarith
      · norm_num at hq2 ⊢; linarith
    have hqr : |(q : ℝ) - ((1 / 5 : ℚ) : ℝ)| ≤ 1 / 10000 := by
      have : ((|q - 1 / 5| : ℚ) : ℝ) ≤ ((1 / 10000 : ℚ) : ℝ) := by exact_mod_cast hq
      push_cast at this ⊢
      exact this
    obtain ⟨g1, g2, _⟩ := crossfade_channels m current_lap q hcur hprev
    refine ⟨_, hrun, hq, (crossfade_fields m current_lap _).1, ?_, ?_, ?_, ?_⟩
    · simpa [Music.channels] using g1
    · intro h; simpa [Music.channels] using g2 h
    · show |(Gain.cosHalfPi q).toReal - Real.cos (0.1 * Real.pi)| ≤ 1 / 5000
      rw [← cosHalfPi_fifths_toReal.1]
      have := cosHalfPi_toReal_sub_le q (1 / 5)
      linarith
    · show |(Gain.cosHalfPi (1 - q)).toReal - Real.cos (0.4 * Real.pi)| ≤ 1 / 5000
      rw [← cosHalfPi_fifths_toReal.2]
      have := cosHalfPi_toReal_sub_le (1 - q) (4 / 5)
      have hq' : |(((1 - q : ℚ)) : ℝ) - ((4 / 5 : ℚ) : ℝ)| ≤ 1 / 10000 := by
        have e : (((1 - q : ℚ)) : ℝ) - ((4 / 5 : ℚ) : ℝ) = -((q : ℝ) - ((1 / 5 : ℚ) : ℝ)) := by
          push_cast; ring
        rw [e, abs_neg]
        exact hqr
      linarith

/-- C14, witness: sixty frames, forty of 17 ms and twenty of 16 ms, one second
in all, after the lap went from 0 to 1: `percent` is `3355441 / 2 ^ 24`, about
0.19999987. -/
theorem UpdateMusic_frame_witness :
    ∃ m' : Music,
      runMusic (some 1) (List.replicate 40 17 ++ List.replicate 20 16) exampleMusic = some m' ∧
      |m'.percent - 1 / 5| ≤ 1 / 10000 ∧
      m'.percent = 3355441 / 16777216 ∧
      m'.music_channel_1.gain = Gain.cosHalfPi (3355441 / 16777216) ∧
      m'.music_channel_2.gain = Gain.cosHalfPi (13421775 / 16777216) := by
  obtain ⟨m', h1, h2, _, h4, h5, _, _⟩ :=
    (UpdateMusic_frame exampleMusic 1 16 (List.replicate 40 17 ++ List.replicate 20 16)
      (by decide) (by decide) (by decide)).2.2.1 rfl
      (by rw [List.sum_append, List.sum_replicate, List.sum_replicate]; norm_num)
      (by
        intro d hd
        rcases List.mem_append.mp hd with h | h
        · rw [List.eq_of_mem_replicate h]; decide
        · rw [List.eq_of_mem_replicate h]; decide)
  have hrun := runMusic_sixty_frames exampleMusic rfl rfl
  rw [hrun] at h1
  have hm := Option.some.inj h1
  have hp : m'.percent = 3355441 / 16777216 := by rw [← hm]
  have ht1 : Int.tmod 1 3 = 1 := by decide
  have ht0 : Int.tmod exampleMusic.previous_lap 3 = 0 := by decide
  rw [ht1] at h4 h5
  rw [ht0] at h5
  have h5' := h5 (by decide)
  rw [hp] at h4 h5'
  simp only [Music.channels] at h4 h5'
  norm_num at h4 h5'
  exact ⟨m', by rw [hrun, hm], h2, hp, h5', h4⟩

/-! ## C15 -/

/-- One frame keeps `previous_lap ≥ 0` and `0 ≤ percent < 1`, and returns. -/
theorem UpdateMusic_keeps_invariant (m : Music) (lap_number : Option Int) (delta_time : Int)
    (hprev : 0 ≤ m.previous_lap) (hp0 : 0 ≤ m.percent) (hp1 : m.percent < 1)
    (hlap : ∀ c : Int, lap_number = some c → 0 ≤ c) (hdelta : 0 ≤ delta_time) :
    ∃ m' : Music, UpdateMusic lap_number delta_time m = some m' ∧
      0 ≤ m'.previous_lap ∧ 0 ≤ m'.percent ∧ m'.percent < 1 := by
  cases lap_number with
  | none => exact ⟨m, rfl, hprev, hp0, hp1⟩
  | some c =>
    have hc : 0 ≤ c := hlap c rfl
    by_cases hne : c = m.previous_lap
    · subst hne
      exact ⟨m, UpdateMusic_same_lap m delta_time hprev, hprev, hp0, hp1⟩
    · rw [UpdateMusic_changed_lap m c delta_time hne hc hprev]
      by_cases hdone : 1 ≤ UpdateMusic_percent m.percent delta_time
      · rw [if_pos hdone]
        exact ⟨_, rfl, hc, le_refl _, by norm_num⟩
      · rw [if_neg hdone]
        refine ⟨_, rfl, ?_, ?_, ?_⟩
        · simpa [(crossfade_fields m c _).1] using hprev
        · exact UpdateMusic_percent_nonneg hp0 hdelta
        · exact not_le.mp hdone

/-- C15: the invariant of the cross-fade state.  From a state with
`previous_lap ≥ 0` and `0 ≤ percent < 1`, a frame with `delta_time ≥ 0` and a
lap number that is non-negative (or a raft without rail-denizen data) returns
a state with `previous_lap ≥ 0` and `0 ≤ percent < 1`, and both indices
`previous_lap % 3` and `current_lap % 3` are inside the channel array; the
same holds after any sequence of such frames, none of which leaves the
array. -/
theorem UpdateMusic_invariant (m : Music) (frames : List (Option Int × Int))
    (hprev : 0 ≤ m.previous_lap) (hp0 : 0 ≤ m.percent) (hp1 : m.percent < 1)
    (hframes : ∀ frame ∈ frames, (∀ c : Int, frame.1 = some c → 0 ≤ c) ∧ 0 ≤ frame.2) :
    (∀ (current_lap delta_time : Int), 0 ≤ current_lap → 0 ≤ delta_time →
      (∃ m' : Music, UpdateMusic (some current_lap) delta_time m = some m' ∧
        0 ≤ m'.previous_lap ∧ 0 ≤ m'.percent ∧ m'.percent < 1) ∧
      (Int.tmod m.previous_lap 3 = 0 ∨ Int.tmod m.previous_lap 3 = 1 ∨
        Int.tmod m.previous_lap 3 = 2) ∧
      (Int.tmod current_lap 3 = 0 ∨ Int.tmod current_lap 3 = 1 ∨
        Int.tmod current_lap 3 = 2) ∧
      (m.channels (Int.tmod m.previous_lap 3)).isSome = true ∧
      (m.channels (Int.tmod current_lap 3)).isSome = true) ∧
    (∃ m' : Music, runFrames frames m = some m' ∧
      0 ≤ m'.previous_lap ∧ 0 ≤ m'.percent ∧ m'.percent < 1) := by
  constructor
  · intro c d hc hd
    have h1 := tmod_three_cases hprev
    have h2 := tmod_three_cases hc
    refine ⟨UpdateMusic_keeps_invariant m (some c) d hprev hp0 hp1 ?_ hd, h1, h2, ?_, ?_⟩
    · intro c' h
      cases h
      exact hc
    · rcases h1 with h | h | h <;> simp [Music.channels, h]
    · rcases h2 with h | h | h <;> simp [Music.channels, h]
  · induction frames generalizing m with
    | nil => exact ⟨m, rfl, hprev, hp0, hp1⟩
    | cons frame rest ih =>
      obtain ⟨hlap, hdelta⟩ := hframes frame (List.mem_cons_self _ _)
      obtain ⟨m1, hm1, i1, i2, i3⟩ :=
        UpdateMusic_keeps_invariant m frame.1 frame.2 hprev hp0 hp1 hlap hdelta
      obtain ⟨m', hm', j1, j2, j3⟩ := ih m1 i1 i2 i3
        (fun f hf => hframes f (List.mem_cons_of_mem _ hf))
      refine ⟨m', ?_, j1, j2, j3⟩
      simp [runFrames, hm1, hm']

/-- C15, witness: from the half-done fade of `exampleHalfFaded`, a frame with
the lap at 2, a frame without a raft and a frame that ends the fade. -/
theorem UpdateMusic_invariant_witness :
    ∃ m' : Music,
      runFrames [(some 2, 1000), (none, 16), (some 2, 1500)] exampleHalfFaded = some m' ∧
      0 ≤ m'.previous_lap ∧ 0 ≤ m'.percent ∧ m'.percent < 1 := by
  exact (UpdateMusic_invariant exampleHalfFaded [(some 2, 1000), (none, 16), (some 2, 1500)]
    (by decide) (by norm_num [exampleHalfFaded]) (by norm_num [exampleHalfFaded])
    (by
      intro frame hf
      simp only [List.mem_cons, List.mem_singleton, List.not_mem_nil, or_false] at hf
      rcases hf with h | h | h <;> subst h <;> refine ⟨?_, by decide⟩ <;> intro c hc <;>
        simp at hc <;> omega)).2

/-! ## C16 -/

/-- C16: for every previous state `OnEnter` leaves `previous_lap_` and
`percent_` as they were, and so does `OnExit`; on an entry that is not a return
from `Pause` the three lap channels are started at gains 1, 0, 0, so the new
run has the cross-fade progress and the last lap index of the run before it
together with fresh channels. -/
theorem OnEnter_keeps_crossfade_state (android_vr : Bool) (time : ℚ)
    (previous_state next_state : GameState) (s : GameplayState) :
    (GameplayState.OnEnter android_vr time previous_state s).music.previous_lap =
      s.music.previous_lap ∧
    (GameplayState.OnEnter android_vr time previous_state s).music.percent =
      s.music.percent ∧
    (GameplayState.OnExit next_state s).music.previous_lap = s.music.previous_lap ∧
    (GameplayState.OnExit next_state s).music.percent = s.music.percent ∧
    (previous_state ≠ kGameStatePause →
      (GameplayState.OnEnter android_vr time previous_state
          (GameplayState.OnExit next_state s)).music.previous_lap = s.music.previous_lap ∧
      (GameplayState.OnEnter android_vr time previous_state
          (GameplayState.OnExit next_state s)).music.percent = s.music.percent ∧
      (GameplayState.OnEnter android_vr time previous_state
          (GameplayState.OnExit next_state s)).music.music_channel_1.gain = Gain.value 1 ∧
      (GameplayState.OnEnter android_vr time previous_state
          (GameplayState.OnExit next_state s)).music.music_channel_2.gain = Gain.value 0 ∧
      (GameplayState.OnEnter android_vr time previous_state
          (GameplayState.OnExit next_state s)).music.music_channel_3.gain = Gain.value 0) := by
  have hexit : (GameplayState.OnExit next_state s).music.previous_lap = s.music.previous_lap ∧
      (GameplayState.OnExit next_state s).music.percent = s.music.percent := by
    unfold GameplayState.OnExit
    constructor <;> split_ifs <;> rfl
  have henter : ∀ t : GameplayState,
      (GameplayState.OnEnter android_vr time previous_state t).music.previous_lap =
        t.music.previous_lap ∧
      (GameplayState.OnEnter android_vr time previous_state t).music.percent =
        t.music.percent := by
    intro t
    unfold GameplayState.OnEnter
    simp only []
    constructor <;> split_ifs <;> rfl
  refine ⟨(henter s).1, (henter s).2, hexit.1, hexit.2, ?_⟩
  intro hfresh
  obtain ⟨_, _, g1, g2, g3⟩ :=
    OnEnter_fresh_music android_vr time previous_state (GameplayState.OnExit next_state s) hfresh
  exact ⟨by rw [(henter _).1, hexit.1], by rw [(henter _).2, hexit.2], g1, g2, g3⟩

/-- C16, witness: a run stopped half way through the fade from lap 2 to lap 3
ends in game over; the next run enters with `previous_lap = 2` and
`percent = 1/2`, its channels at gains 1, 0, 0, and its first frame of 1000 ms
on lap 0 goes on from there: `percent` is the `float` `0.7f`, which is
`p = 11744051 / 2 ^ 24`, lap 1 is at `cos((1 - p) * pi / 2)` and lap 3 at
`cos(p * pi / 2)`. -/
theorem OnEnter_keeps_crossfade_state_witness :
    (GameplayState.OnEnter false 9 kGameStateGameMenu
        (GameplayState.OnExit kGameStateGameOver exampleEndedRun)).music.previous_lap = 2 ∧
    (GameplayState.OnEnter false 9 kGameStateGameMenu
        (GameplayState.OnExit kGameStateGameOver exampleEndedRun)).music.percent = 1 / 2 ∧
    (GameplayState.OnEnter false 9 kGameStateGameMenu
        (GameplayState.OnExit kGameStateGameOver exampleEndedRun)).music.music_channel_1.gain =
      Gain.value 1 ∧
    (GameplayState.OnEnter false 9 kGameStateGameMenu
        (GameplayState.OnExit kGameStateGameOver exampleEndedRun)).music.music_channel_3.gain =
      Gain.value 0 ∧
    ((GameplayState.AdvanceFrame_UpdateMusic (some 0) 1000
        (GameplayState.OnEnter false 9 kGameStateGameMenu
          (GameplayState.OnExit kGameStateGameOver exampleEndedRun))).map
        (fun t => (t.music.music_channel_1.gain, t.music.music_channel_3.gain,
          t.music.previous_lap, t.music.percent))) =
      some (Gain.cosHalfPi (5033165 / 16777216), Gain.cosHalfPi (11744051 / 16777216), 2,
        11744051 / 16777216) := by
  obtain ⟨_, _, _, _, h⟩ :=
    OnEnter_keeps_crossfade_state false 9 kGameStateGameMenu kGameStateGameOver exampleEndedRun
  obtain ⟨h1, h2, h3, _, h5⟩ := h (by decide)
  refine ⟨h1, h2, h3, h5, ?_⟩
  have h0 : Int.tmod 0 3 = 0 := by decide
  have ht2 : Int.tmod 2 3 = 2 := by decide
  have s1 : UpdateMusic_percent (1 / 2) 1000 = 11744051 / 16777216 := by
    rw [UpdateMusic_percent, UpdateMusic_delta_values.2.2.2.1, float32_eq _ (-1) 11744051
      (by norm_num) (by norm_num [abs_of_pos]) (by norm_num [abs_of_pos]) (by norm_num)
      (by norm_num)]
    norm_num
  have hpl : (GameplayState.OnEnter false 9 kGameStateGameMenu
      (GameplayState.OnExit kGameStateGameOver exampleEndedRun)).music.previous_lap = 2 := h1
  unfold GameplayState.AdvanceFrame_UpdateMusic
  rw [UpdateMusic_changed_lap _ 0 1000 (by rw [hpl]; decide) (by decide) (by rw [hpl]; decide),
    h2, show exampleEndedRun.music.percent = 1 / 2 from rfl, s1, if_neg (by norm_num)]
  simp [Music.crossfade, Music.withGain, Music.SetGain, Channel.SetGain, hpl, h0, ht2]
  norm_num

end Zooshi
